import Mathlib

/-! Ekos alignment module (kstars/ekos/align.cpp).

A shallow embedding of the `Ekos::Align` controller: the capture, solve and
slew loop, the abort and failure paths and the polar-alignment error
measurement.

Conventions of the embedding

* C++ `double` values are idealised as elements of a linearly ordered field
  `R` with a floor function (rounding, infinities and NaN are outside the
  model).  The library functions `sqrt` and `cos` and the constant
  `dms::DegToRad` are parameters carried by `Env`.
* The angle class `dms` (dms.h) is not among the sources; its accessors are
  modelled from the specification and say so.  `dms::Hours` reports the
  angle reduced to the range from 0 to 360 degrees, so its value lies from 0
  up to but not including 24.
* Member variables of `Align` (and the function-level `static` variables) are
  fields of the record `Align R`.  Widgets whose state steers the control
  flow are fields too; purely decorative widgets (progress indicator,
  text outputs, the stop button) and the persisted `Options` are left out.
* What the collaborators answer when queried during one call (mount, camera,
  plate-solver front end, message boxes, coordinate transforms) is the
  record `Env R`.
* Everything the controller sends out (signals, device commands, log lines,
  notifications) is collected, in program order, in a list of `Effect R`.
* Device handles that the source dereferences without a check are taken to
  be valid.
-/

namespace Ekos

/-- Stages of the azimuth error measurement (`AZStage` of align.h). -/
inductive AZStage where
  | AZ_INIT | AZ_FIRST_TARGET | AZ_SYNCING | AZ_SLEWING
  | AZ_SECOND_TARGET | AZ_CORRECTING | AZ_FINISHED
  deriving DecidableEq, Repr

/-- Stages of the altitude error measurement (`ALTStage` of align.h). -/
inductive ALTStage where
  | ALT_INIT | ALT_FIRST_TARGET | ALT_SYNCING | ALT_SLEWING
  | ALT_SECOND_TARGET | ALT_CORRECTING | ALT_FINISHED
  deriving DecidableEq, Repr

/-- INDI property states. -/
inductive IPState where
  | IPS_IDLE | IPS_OK | IPS_BUSY | IPS_ALERT
  deriving DecidableEq, Repr

/-- Upload modes of `ISD::CCD`. -/
inductive UploadMode where
  | UPLOAD_CLIENT | UPLOAD_LOCAL | UPLOAD_BOTH
  deriving DecidableEq, Repr

/-- The three mutually exclusive radio buttons of the GOTO box: exactly one of
`syncR`, `slewR`, `nothingR` is checked. -/
inductive GotoOption where
  | syncR | slewR | nothingR
  deriving DecidableEq, Repr

/-- Directional wording of a polar-alignment error report. -/
inductive Direction where
  | tooFarWest | tooFarEast | tooFarHigh | tooFarLow
  deriving DecidableEq, Repr

/-- Log lines, message boxes and notifications of align.cpp, without their
numeric arguments. -/
inductive Msg where
  | solverResult | focalLengthMismatch | wcsUpdated | alignSuccessful
  | solutionCoordinates | targetWithin | syncOk | syncFailed | slewingToTarget
  | alignFailed | captureAborted | solverAborted
  | missingTelescopeInfo | missingPixelSize | focusBusy | exposureInProgress
  | lostConnection | capturing | solverIteration
  | targetInRange | maxIterations | accuracyNotMet
  | azSlewComplete | altSlewComplete
  | processingPolar | solvingFirstMeridian | solvingSecondMeridian
  | solvingFirstFrame | solvingSecondFrame | slewing30 | slewingBack
  | calcAzError | calcAltError
  | captureErrorAborting | restartingCapture
  | invalidCoordinates | invalidRadius
  | fitsNoNAXIS1 | fitsNoNAXIS2 | fitsNoOBJCTRA | fitsNoOBJCTDEC
  | fitsNoFOCALLEN | fitsNoPIXSIZE1 | fitsNoPIXSIZE2
  | slewingToCalibration
  deriving DecidableEq, Repr

/-- The part of a `SkyPoint` the module reads and writes; every angle is held
in degrees, as `dms` does. -/
structure SkyPoint (R : Type) where
  ra0 : R
  dec0 : R
  ra : R
  dec : R
  az : R
  alt : R
  deriving DecidableEq

/-- What the plate solver hands to `solverFinished`. -/
structure SolveResult (R : Type) where
  orientation : R
  ra : R
  dec : R
  pixscale : R
  deriving DecidableEq

/-- Everything the controller sends to its collaborators. -/
inductive Effect (R : Type) where
  | solverComplete (ok : Bool)
  | solverSlewComplete
  | log (m : Msg)
  | messageBox (m : Msg)
  | notification (m : Msg)
  | telescopeSyncPoint (p : SkyPoint R)
  | telescopeSlewPoint (p : SkyPoint R)
  | telescopeSync (ra dec : R)
  | telescopeSlew (ra dec : R)
  | ccdSetUploadMode (m : UploadMode)
  | ccdResetFrame
  | ccdSetBatchMode (b : Bool)
  | ccdSetCaptureMode (preview : Bool)
  | ccdSetCaptureFilter
  | ccdSetBinning (x y : Int)
  | ccdSetFrameLight
  | ccdCapture (exposure : R)
  | ccdAbortExposure
  | ccdSendRotation (orientation : R)
  | ccdSendTelescopeInfo
  | filterSet (position : Int)
  | parserStopSolver
  | parserVerifyIndexFiles (fovX fovY : R)
  | parserStartSolver
  | copyCoordsToBoxes
  | azError (d : Option Direction) (deviation : R)
  | altError (d : Option Direction) (deviation : R)
  deriving DecidableEq

/-- Answers of the collaborators during one call. -/
structure Env (R : Type) where
  /-- Math library `sqrt`. -/
  sqrt : R → R
  /-- Math library `cos`. -/
  cos : R → R
  /-- Constant `dms::DegToRad`. -/
  DegToRad : R
  /-- Observer latitude in degrees, `geo()->lat()->Degrees()`. -/
  lat : R
  /-- Result of `SkyPoint::apparentCoord` on catalogue coordinates, in degrees. -/
  apparentCoord : R → R → R × R
  /-- Result of `SkyPoint::EquatorialToHorizontal`: latitude, RA and Dec in
  degrees to azimuth and altitude. -/
  equatorialToHorizontal : R → R → R → R × R
  /-- Mount query `isSlewing()`. -/
  isSlewing : Bool
  /-- Return value of the mount `Sync`. -/
  syncOk : Bool
  /-- Mount query `getEqCoords`: RA in hours, Dec in degrees. -/
  eqCoords : R × R
  /-- Camera chip query `isCapturing()`. -/
  ccdIsCapturing : Bool
  /-- Camera query `isConnected()`. -/
  ccdIsConnected : Bool
  /-- Camera query `getUploadMode()`. -/
  ccdUploadMode : UploadMode
  /-- Horizontal binning returned by `getBinning`. -/
  binx : Int
  /-- Return value of `parser->init()`. -/
  parserInit : Bool
  /-- The camera has a `CCD_ROTATION` property with a `CCD_ROTATION_VALUE`. -/
  ccdRotation : Bool
  /-- The mount has a `TELESCOPE_INFO` property. -/
  telescopeInfo : Bool
  /-- The operator answers Continue in the confirmation box. -/
  confirm : Bool
  /-- Result of `SkyPoint::HorizontalToEquatorial`: latitude, azimuth and
  altitude in degrees to RA and Dec in degrees. -/
  horizontalToEquatorial : R → R → R → R × R

/-- Member variables of `Ekos::Align`, its function-level statics and the
widgets read by the control flow. -/
structure Align (R : Type) where
  /-- Holds when `currentCCD != NULL`. -/
  hasCCD : Bool
  /-- Holds when `currentFilter != NULL`. -/
  hasFilter : Bool
  canSync : Bool
  loadSlewMode : Bool
  loadSlewState : IPState
  m_isSolverComplete : Bool
  m_isSolverSuccessful : Bool
  m_slewToTargetSelected : Bool
  m_wcsSynced : Bool
  isFocusBusy : Bool
  ccd_hor_pixel : R
  ccd_ver_pixel : R
  focal_length : R
  aperture : R
  sOrientation : R
  sRA : R
  sDEC : R
  decDeviation : R
  azDeviation : R
  altDeviation : R
  rememberUploadMode : UploadMode
  filterPositionPending : Bool
  lockedFilterIndex : Int
  currentFilterIndex : Int
  retries : Int
  targetDiff : R
  solverIterations : Int
  fov_x : R
  fov_y : R
  /-- Frame size in pixels, as `getFrame` reported it. -/
  ccd_width : Int
  ccd_height : Int
  targetCoord : SkyPoint R
  alignCoord : SkyPoint R
  telescopeCoord : SkyPoint R
  azStage : AZStage
  altStage : ALTStage
  /-- The static `slew_dirty` of `processTelescopeNumber`. -/
  slew_dirty : Bool
  /-- The statics `initRA, initDEC, finalRA, finalDEC, initAz` of `measureAzError`. -/
  azInitRA : R
  azInitDEC : R
  azFinalRA : R
  azFinalDEC : R
  azInitAz : R
  /-- The statics `initRA, initDEC, finalRA, finalDEC, initAz` of `measureAltError`. -/
  altInitRA : R
  altInitDEC : R
  altFinalRA : R
  altFinalDEC : R
  altInitAz : R
  /-- Number of live connections of the camera signals `BLOBUpdated` and
  `newExposureValue` to `newFITS` and `checkCCDExposureProgress`. -/
  ccdConnections : Nat
  /-- Radio buttons `syncR`, `slewR`, `nothingR`. -/
  gotoOption : GotoOption
  /-- Radio button `gotoR`; when it is unchecked `polarR` is checked. -/
  gotoR : Bool
  /-- Check box `kcfg_solverUpdateCoords`. -/
  solverUpdateCoords : Bool
  /-- Check box `kcfg_solverPreview`. -/
  solverPreview : Bool
  /-- Check box `kcfg_solverVerbose`. -/
  solverVerbose : Bool
  /-- Check box `wcsCheck`. -/
  wcsCheck : Bool
  /-- Value of `accuracySpin`, arcseconds. -/
  accuracy : R
  /-- Value of `exposureIN`, seconds. -/
  exposure : R
  /-- Values of `binXIN` and `binYIN`. -/
  binX : Int
  binY : Int
  /-- Enabled state of the button `solveB`; `click()` on a disabled button does nothing. -/
  solveBEnabled : Bool
  deriving DecidableEq

/-- Constant `MAXIMUM_SOLVER_ITERATIONS`. -/
def MAXIMUM_SOLVER_ITERATIONS : Int := 10

section Model

variable {R : Type} [LinearOrderedField R] [FloorRing R]

/-- Constant `Align::RAMotion`: 30 arcminutes of RA movement, in degrees. -/
def RAMotion : R := 0.5

/-- Constant `Align::SIDRATE`: sidereal rate in degrees per second. -/
def SIDRATE : R := 0.004178

/-- Angle setter `dms::setH`: an angle given in hours, stored in degrees. -/
def dmsSetH (h : R) : R := h * 15

/-- Modelled from the spec: `dms::reduce` (dms.h is not among the sources): the
angle brought into the range from 0 to 360 degrees. -/
def dmsReduce (D : R) : R :=
  D - 360 * (⌊D / 360⌋ : R)

/-- Modelled from the spec: getter `dms::Hours` (dms.h is not among the
sources): the angle brought into the range from 0 to 360 degrees by
`dms::reduce` and expressed in hours, so a value from 0 up to but not
including 24, the range the specification keeps an RA in. -/
def dmsHours (d : R) : R := dmsReduce d / 15

/-- Result of one operation: the new controller state and what was sent out. -/
abbrev Out (R : Type) := Align R × List (Effect R)

/-- Run `f` on the state reached so far and append what it sends. -/
def Out.andThen (p : Out R) (f : Align R → Out R) : Out R :=
  ((f p.1).1, p.2 ++ (f p.1).2)

/-- Emit effects without touching the state. -/
def Out.emit (p : Out R) (es : List (Effect R)) : Out R :=
  (p.1, p.2 ++ es)

/-- Slot `Align::captureAndSolve`: the returned flag is the C++ return value. -/
def captureAndSolve (env : Env R) (s0 : Align R) : Bool × Out R :=
  let s := { s0 with m_isSolverComplete := false }
  if s.hasCCD = false then (false, s, [])
  else if env.parserInit = false then (false, s, [])
  else if s.focal_length = -1 ∨ s.aperture = -1 then
    (false, s, [Effect.messageBox Msg.missingTelescopeInfo])
  else if s.ccd_hor_pixel = -1 ∨ s.ccd_ver_pixel = -1 then
    (false, s, [Effect.messageBox Msg.missingPixelSize])
  else if s.hasFilter = true ∧ s.lockedFilterIndex ≠ -1
      ∧ s.lockedFilterIndex ≠ s.currentFilterIndex then
    (true, { s with filterPositionPending := true },
      [Effect.filterSet (s.lockedFilterIndex + 1)])
  else if s.isFocusBusy = true then (false, s, [Effect.log Msg.focusBusy])
  else if env.ccdIsCapturing = true then (false, s, [Effect.log Msg.exposureInProgress])
  else if env.ccdIsConnected = false then
    (false, s, [Effect.log Msg.lostConnection, Effect.notification Msg.alignFailed])
  else
    let s1 := { s with ccdConnections := s.ccdConnections + 1 }
    let s2 := if env.ccdUploadMode = UploadMode.UPLOAD_LOCAL
      then { s1 with rememberUploadMode := UploadMode.UPLOAD_LOCAL } else s1
    let up : List (Effect R) := if env.ccdUploadMode = UploadMode.UPLOAD_LOCAL
      then [Effect.ccdSetUploadMode UploadMode.UPLOAD_CLIENT] else []
    let flt : List (Effect R) := if s.solverPreview = true
      then [Effect.ccdSetCaptureFilter] else []
    (true, { s2 with solveBEnabled := false },
      up ++ [Effect.ccdResetFrame, Effect.ccdSetBatchMode false,
             Effect.ccdSetCaptureMode s.solverPreview] ++ flt ++
      [Effect.ccdSetBinning s.binX s.binY, Effect.ccdSetFrameLight,
       Effect.ccdCapture s.exposure, Effect.log Msg.capturing])

/-- Call of `solveB->click()`: the connected slot `captureAndSolve` runs when
the button is enabled. -/
def clickSolveB (env : Env R) (s : Align R) : Out R :=
  if s.solveBEnabled = true then (captureAndSolve env s).2 else (s, [])

/-- Slot `Align::abort`. -/
def abort (env : Env R) (s : Align R) : Out R :=
  let s1 := { s with
    solveBEnabled := true
    azStage := AZStage.AZ_INIT
    altStage := ALTStage.ALT_INIT
    loadSlewMode := false
    loadSlewState := IPState.IPS_IDLE
    m_isSolverComplete := false
    m_isSolverSuccessful := false
    m_slewToTargetSelected := false
    solverIterations := 0
    retries := 0
    ccdConnections := 0 }
  let up : List (Effect R) := if s.rememberUploadMode ≠ env.ccdUploadMode
    then [Effect.ccdSetUploadMode s.rememberUploadMode] else []
  let cap : List (Effect R) := if env.ccdIsCapturing = true
    then [Effect.ccdAbortExposure, Effect.log Msg.captureAborted]
    else [Effect.log Msg.solverAborted]
  (s1, [Effect.parserStopSolver] ++ up ++ cap)

/-- Slot `Align::solverFailed`. -/
def solverFailed (s : Align R) : Out R :=
  ({ s with
      solveBEnabled := true
      azStage := AZStage.AZ_INIT
      altStage := ALTStage.ALT_INIT
      loadSlewMode := false
      loadSlewState := IPState.IPS_ALERT
      m_isSolverComplete := true
      m_isSolverSuccessful := false
      m_slewToTargetSelected := false
      solverIterations := 0
      retries := 0 },
   [Effect.notification Msg.alignFailed, Effect.solverComplete false])

/-- Local `RATime` of `calculatePolarError`: the RA motion in minutes. -/
def polarRATime (initRA finalRA : R) : R :=
  |finalRA - initRA| * 60

/-- Local `deviation` of `calculatePolarError`, in degrees. -/
def polarDeviation (env : Env R) (initRA initDEC finalRA finalDEC : R) : R :=
  (3.81 * ((finalDEC - initDEC) * 3600))
    / (polarRATime initRA finalRA * env.cos (initDEC * env.DegToRad)) / 60

/-- Local `hemisphere` of `calculatePolarError`: 0 is northern, 1 is southern. -/
def hemisphere (env : Env R) : Nat :=
  if env.lat > 0 then 0 else 1

/-- Local `horizon` of `calculatePolarError`: 0 is east of the meridian, 1 is west. -/
def horizon (initAz : R) : Nat :=
  if initAz > 0 ∧ initAz ≤ 180 then 0 else 1

/-- The `switch (hemisphere)` of `calculatePolarError` that picks the wording;
`none` is the default-constructed `KLocalizedString`. -/
def deviationDirection (hemi hor : Nat) (azStage : AZStage) (altStage : ALTStage)
    (decDeviation : R) : Option Direction :=
  match hemi with
  | 0 =>
    if azStage = AZStage.AZ_FINISHED then
      (if decDeviation > 0 then some Direction.tooFarWest else some Direction.tooFarEast)
    else if altStage = ALTStage.ALT_FINISHED then
      match hor with
      | 0 => if decDeviation > 0 then some Direction.tooFarHigh else some Direction.tooFarLow
      | 1 => if decDeviation > 0 then some Direction.tooFarLow else some Direction.tooFarHigh
      | _ => none
    else none
  | 1 =>
    if azStage = AZStage.AZ_FINISHED then
      (if decDeviation > 0 then some Direction.tooFarEast else some Direction.tooFarWest)
    else if altStage = ALTStage.ALT_FINISHED then
      match hor with
      | 0 => if decDeviation > 0 then some Direction.tooFarLow else some Direction.tooFarHigh
      | 1 => if decDeviation > 0 then some Direction.tooFarHigh else some Direction.tooFarLow
      | _ => none
    else none
  | _ => none

/-- Method `Align::calculatePolarError`. -/
def calculatePolarError (env : Env R) (initRA initDEC finalRA finalDEC initAz : R)
    (s : Align R) : Out R :=
  let decDeviation := finalDEC - initDEC
  let deviation := polarDeviation env initRA initDEC finalRA finalDEC
  let dir := deviationDirection (hemisphere env) (horizon initAz) s.azStage s.altStage
    decDeviation
  let sign : R := if decDeviation > 0 then 1 else -1
  let s1 := { s with decDeviation := decDeviation }
  let s2 := if s.azStage = AZStage.AZ_FINISHED
    then { s1 with azDeviation := deviation * sign } else s1
  let e2 : List (Effect R) := if s.azStage = AZStage.AZ_FINISHED
    then [Effect.azError dir |deviation|] else []
  let s3 := if s.altStage = ALTStage.ALT_FINISHED
    then { s2 with altDeviation := deviation * sign } else s2
  let e3 : List (Effect R) := if s.altStage = ALTStage.ALT_FINISHED
    then [Effect.altError dir |deviation|] else []
  (s3, e2 ++ e3)

/-- Slot `Align::measureAzError`. -/
def measureAzError (env : Env R) (s : Align R) : Out R :=
  match s.azStage with
  | AZStage.AZ_INIT =>
    if env.confirm = false then (s, [])
    else
      Out.andThen
        ({ s with azStage := AZStage.AZ_FIRST_TARGET, gotoR := false },
          [Effect.log Msg.solvingFirstMeridian])
        (clickSolveB env)
  | AZStage.AZ_FIRST_TARGET =>
    let s1 := { s with
      azInitRA := s.alignCoord.ra
      azInitDEC := s.alignCoord.dec
      azInitAz := s.alignCoord.az }
    if s.canSync = true then
      ({ s1 with azStage := AZStage.AZ_SYNCING },
        [Effect.telescopeSync (s1.azInitRA / 15) s1.azInitDEC,
         Effect.telescopeSlew ((s1.azInitRA - RAMotion) / 15) s1.azInitDEC,
         Effect.log Msg.slewing30])
    else
      ({ s1 with azStage := AZStage.AZ_SLEWING },
        [Effect.telescopeSlew (dmsHours s.telescopeCoord.ra - RAMotion / 15)
           s.telescopeCoord.dec,
         Effect.log Msg.slewing30])
  | AZStage.AZ_SECOND_TARGET =>
    Out.andThen
      ({ s with azStage := AZStage.AZ_FINISHED, gotoR := false },
        [Effect.log Msg.solvingSecondMeridian])
      (clickSolveB env)
  | AZStage.AZ_FINISHED =>
    let s1 := { s with
      azFinalRA := s.alignCoord.ra
      azFinalDEC := s.alignCoord.dec }
    let back : Effect R := if s.canSync = true
      then Effect.telescopeSlew (s1.azInitRA / 15) s1.azInitDEC
      else Effect.telescopeSlew (dmsHours s.telescopeCoord.ra + RAMotion / 15)
        s.telescopeCoord.dec
    let p := Out.andThen (s1, [Effect.log Msg.calcAzError, back, Effect.log Msg.slewingBack])
      (calculatePolarError env s1.azInitRA s1.azInitDEC s1.azFinalRA s1.azFinalDEC
        s1.azInitAz)
    ({ p.1 with azStage := AZStage.AZ_INIT }, p.2)
  | _ => (s, [])

/-- Slot `Align::measureAltError`. -/
def measureAltError (env : Env R) (s : Align R) : Out R :=
  match s.altStage with
  | ALTStage.ALT_INIT =>
    if env.confirm = false then (s, [])
    else
      Out.andThen
        ({ s with altStage := ALTStage.ALT_FIRST_TARGET, gotoR := false },
          [Effect.log Msg.solvingFirstFrame])
        (clickSolveB env)
  | ALTStage.ALT_FIRST_TARGET =>
    let s1 := { s with
      altInitRA := s.alignCoord.ra
      altInitDEC := s.alignCoord.dec
      altInitAz := s.alignCoord.az }
    if s.canSync = true then
      ({ s1 with altStage := ALTStage.ALT_SYNCING },
        [Effect.telescopeSync (s1.altInitRA / 15) s1.altInitDEC,
         Effect.telescopeSlew ((s1.altInitRA - RAMotion) / 15) s1.altInitDEC,
         Effect.log Msg.slewing30])
    else
      ({ s1 with altStage := ALTStage.ALT_SLEWING },
        [Effect.telescopeSlew (dmsHours s.telescopeCoord.ra - RAMotion / 15)
           s.telescopeCoord.dec,
         Effect.log Msg.slewing30])
  | ALTStage.ALT_SECOND_TARGET =>
    Out.andThen
      ({ s with altStage := ALTStage.ALT_FINISHED, gotoR := false },
        [Effect.log Msg.solvingSecondFrame])
      (clickSolveB env)
  | ALTStage.ALT_FINISHED =>
    let s1 := { s with
      altFinalRA := s.alignCoord.ra
      altFinalDEC := s.alignCoord.dec }
    let back : Effect R := if s.canSync = true
      then Effect.telescopeSlew (s1.altInitRA / 15) s1.altInitDEC
      else Effect.telescopeSlew (dmsHours s.telescopeCoord.ra + RAMotion / 15)
        s.telescopeCoord.dec
    let p := Out.andThen (s1, [Effect.log Msg.calcAltError, back, Effect.log Msg.slewingBack])
      (calculatePolarError env s1.altInitRA s1.altInitDEC s1.altFinalRA s1.altFinalDEC
        s1.altInitAz)
    ({ p.1 with altStage := ALTStage.ALT_INIT }, p.2)
  | _ => (s, [])

/-- Method `Align::executePolarAlign`. -/
def executePolarAlign (env : Env R) (s : Align R) : Out R :=
  let p : Out R := (s, [Effect.log Msg.processingPolar])
  let p1 := match s.azStage with
    | AZStage.AZ_FIRST_TARGET => Out.andThen p (measureAzError env)
    | AZStage.AZ_FINISHED => Out.andThen p (measureAzError env)
    | _ => p
  match p1.1.altStage with
  | ALTStage.ALT_FIRST_TARGET => Out.andThen p1 (measureAltError env)
  | ALTStage.ALT_FINISHED => Out.andThen p1 (measureAltError env)
  | _ => p1

/-- Method `Align::Sync`. -/
def Sync (env : Env R) (s : Align R) : Out R :=
  (s, [Effect.telescopeSyncPoint s.alignCoord,
       Effect.log (if env.syncOk = true then Msg.syncOk else Msg.syncFailed)])

/-- Method `Align::SlewToTarget`. -/
def SlewToTarget (env : Env R) (s : Align R) : Out R :=
  let p : Out R := if s.canSync = true ∧ s.loadSlewMode = false then Sync env s else (s, [])
  ({ p.1 with m_slewToTargetSelected := decide (s.gotoOption = GotoOption.slewR) },
    p.2 ++ [Effect.telescopeSlewPoint s.targetCoord, Effect.log Msg.slewingToTarget])

/-- Method `Align::executeGOTO`. -/
def executeGOTO (env : Env R) (s : Align R) : Out R :=
  if s.loadSlewMode = true then SlewToTarget env { s with targetCoord := s.alignCoord }
  else if s.gotoOption = GotoOption.syncR then Sync env s
  else if s.gotoOption = GotoOption.slewR then SlewToTarget env s
  else (s, [])

/-- Method `Align::executeMode`. -/
def executeMode (env : Env R) (s : Align R) : Out R :=
  if s.gotoR = true then executeGOTO env s else executePolarAlign env s

/-- The coordinate `alignCoord` as `solverFinished` sets it from a solution:
catalogue position, apparent position, horizontal position. -/
def solvedCoord (env : Env R) (r : SolveResult R) (old : SkyPoint R) : SkyPoint R :=
  let ra0 := dmsSetH (r.ra / 15)
  let app := env.apparentCoord ra0 r.dec
  let hor := env.equatorialToHorizontal env.lat app.1 app.2
  { old with ra0 := ra0, dec0 := r.dec, ra := app.1, dec := app.2, az := hor.1, alt := hor.2 }

/-- The value `solverFinished` stores in `targetDiff`: separation in arcseconds
between the solved and the target coordinate. -/
def computeTargetDiff (env : Env R) (solved target : SkyPoint R) : R :=
  let raDiff := |solved.ra - target.ra| * 3600
  let deDiff := |solved.dec - target.dec| * 3600
  env.sqrt (raDiff * raDiff + deDiff * deDiff)

/-- First block of `solverFinished`: the solution is stored, `alignCoord` is
set from it and `targetDiff` is computed against the session target. -/
def solverStore (env : Env R) (r : SolveResult R) (s : Align R) : Align R :=
  { s with
    solveBEnabled := true
    sOrientation := r.orientation
    sRA := r.ra
    sDEC := r.dec
    alignCoord := solvedCoord env r s.alignCoord
    targetDiff := computeTargetDiff env (solvedCoord env r s.alignCoord) s.targetCoord }

/-- The two optional log lines at the head of `solverFinished`. -/
def solverLogs (env : Env R) (r : SolveResult R) (s : Align R) : List (Effect R) :=
  (if s.solverVerbose = true then [Effect.log Msg.solverResult] else []) ++
  (if r.pixscale > 0 ∧ s.loadSlewMode = false then
    (if |s.focal_length - (206.264 * s.ccd_hor_pixel) / r.pixscale * (env.binx : R)| > 1
      then [Effect.log Msg.focalLengthMismatch] else [])
   else [])

/-- The `wcsCheck` block of `solverFinished`. -/
def solverWcs (env : Env R) (r : SolveResult R) (s : Align R) : Out R :=
  if s.wcsCheck = true ∧ env.ccdRotation = true then
    (if s.m_wcsSynced = false then
      ({ s with m_wcsSynced := true },
        [Effect.ccdSendRotation r.orientation, Effect.log Msg.wcsUpdated] ++
        (if env.telescopeInfo = true then [Effect.ccdSendTelescopeInfo] else []))
     else (s, [Effect.ccdSendRotation r.orientation]))
  else (s, [])

/-- The completion test of `solverFinished`. -/
def solverVerdict (s : Align R) : Out R :=
  if s.gotoOption = GotoOption.syncR ∨ s.gotoOption = GotoOption.nothingR
      ∨ s.targetDiff ≤ s.accuracy then
    ({ s with
        m_isSolverComplete := true
        m_isSolverSuccessful := true
        solverIterations := 0 },
      [Effect.solverComplete true])
  else (s, [])

/-- Everything `solverFinished` does before it calls `executeMode`. -/
def solverOutcome (env : Env R) (r : SolveResult R) (s : Align R) : Out R :=
  let wcs := solverWcs env r (solverStore env r s)
  let s4 := { wcs.1 with retries := 0 }
  let e4 : List (Effect R) :=
    [Effect.notification Msg.alignSuccessful, Effect.log Msg.solutionCoordinates] ++
    (if s4.loadSlewMode = false ∧ s4.gotoOption = GotoOption.slewR
      then [Effect.log Msg.targetWithin] else [])
  let fin := solverVerdict s4
  let up : List (Effect R) := if s4.rememberUploadMode ≠ env.ccdUploadMode
    then [Effect.ccdSetUploadMode s4.rememberUploadMode] else []
  (fin.1, solverLogs env r s ++ wcs.2 ++ e4 ++ fin.2 ++ up)

/-- Slot `Align::solverFinished`. -/
def solverFinished (env : Env R) (r : SolveResult R) (s : Align R) : Out R :=
  Out.andThen (solverOutcome env r s) (executeMode env)

/-- Method `Align::startSovling`; the solver arguments are not part of this model. -/
def startSovling (env : Env R) (s : Align R) : Out R :=
  let s1 := if s.solverIterations = 0
    then { s with targetCoord :=
      { s.targetCoord with ra := dmsSetH env.eqCoords.1, dec := env.eqCoords.2 } }
    else s
  let s2 := { s1 with m_isSolverComplete := false, m_isSolverSuccessful := false }
  (s2, [Effect.parserVerifyIndexFiles s.fov_x s.fov_y] ++
    (if s.gotoOption = GotoOption.slewR then [Effect.log Msg.solverIteration] else []) ++
    [Effect.parserStartSolver])

/-- The `switch (azStage)` of `processTelescopeNumber`. -/
def telescopeAzStage (env : Env R) (s : Align R) : Out R :=
  match s.azStage with
  | AZStage.AZ_SYNCING =>
    if env.isSlewing = true then ({ s with azStage := AZStage.AZ_SLEWING }, []) else (s, [])
  | AZStage.AZ_SLEWING =>
    if env.isSlewing = false
    then measureAzError env { s with azStage := AZStage.AZ_SECOND_TARGET }
    else (s, [])
  | AZStage.AZ_CORRECTING =>
    if env.isSlewing = false
    then ({ s with azStage := AZStage.AZ_INIT }, [Effect.log Msg.azSlewComplete])
    else (s, [])
  | _ => (s, [])

/-- The `switch (altStage)` of `processTelescopeNumber`. -/
def telescopeAltStage (env : Env R) (s : Align R) : Out R :=
  match s.altStage with
  | ALTStage.ALT_SYNCING =>
    if env.isSlewing = true then ({ s with altStage := ALTStage.ALT_SLEWING }, []) else (s, [])
  | ALTStage.ALT_SLEWING =>
    if env.isSlewing = false
    then measureAltError env { s with altStage := ALTStage.ALT_SECOND_TARGET }
    else (s, [])
  | ALTStage.ALT_CORRECTING =>
    if env.isSlewing = false
    then ({ s with altStage := ALTStage.ALT_INIT }, [Effect.log Msg.altSlewComplete])
    else (s, [])
  | _ => (s, [])

/-- The two stage switches that end the coordinate branch of `processTelescopeNumber`. -/
def telescopeStages (env : Env R) (p : Out R) : Out R :=
  Out.andThen (Out.andThen p (telescopeAzStage env)) (telescopeAltStage env)

/-- First statements of the coordinate branch of `processTelescopeNumber`:
`telescopeCoord` takes the reported position and its horizontal coordinates. -/
def storeTelescopeCoord (env : Env R) (ra dec : R) (s : Align R) : Align R :=
  let hor := env.equatorialToHorizontal env.lat (dmsSetH ra) dec
  { s with telescopeCoord :=
    { s.telescopeCoord with ra := dmsSetH ra, dec := dec, az := hor.1, alt := hor.2 } }

/-- Slot `Align::processTelescopeNumber` for the property `EQUATORIAL_EOD_COORD`
with values `ra` (hours) and `dec` (degrees). -/
def processTelescopeNumber (env : Env R) (ra dec : R) (s : Align R) : Out R :=
  let s1 := storeTelescopeCoord env ra dec s
  if s1.solverUpdateCoords = true then
    if env.isSlewing = true ∧ s1.slew_dirty = false then
      telescopeStages env ({ s1 with slew_dirty := true }, [])
    else if env.isSlewing = false ∧ s1.slew_dirty = true then
      let s2 := { s1 with slew_dirty := false }
      let p : Out R := (s2, [Effect.copyCoordsToBoxes])
      if s2.loadSlewMode = true then
        Out.andThen (Out.andThen p (fun x => ({ x with loadSlewMode := false }, [])))
          (fun x => (captureAndSolve env x).2)
      else if s2.m_slewToTargetSelected = true then
        if s2.targetDiff ≤ s2.accuracy then
          telescopeStages env
            ({ s2 with
                m_slewToTargetSelected := false
                loadSlewState :=
                  if s2.loadSlewState = IPState.IPS_BUSY then IPState.IPS_OK
                  else s2.loadSlewState },
              p.2 ++ [Effect.log Msg.targetInRange, Effect.solverSlewComplete])
        else
          let s3 := { s2 with solverIterations := s2.solverIterations + 1 }
          if s3.solverIterations = MAXIMUM_SOLVER_ITERATIONS then
            Out.andThen (s3, p.2 ++ [Effect.log Msg.maxIterations]) solverFailed
          else
            Out.andThen (s3, p.2 ++ [Effect.log Msg.accuracyNotMet])
              (fun x => (captureAndSolve env x).2)
      else telescopeStages env p
    else telescopeStages env (s1, [])
  else telescopeStages env (s1, [])

/-- The default-constructed `SkyPoint`. -/
def SkyPoint.zero : SkyPoint R :=
  { ra0 := 0, dec0 := 0, ra := 0, dec := 0, az := 0, alt := 0 }

/-- Constructor `Align::Align`: the persisted options (GOTO option, accuracy
threshold, exposure, binning, check boxes) are its parameters.  Members the
constructor leaves unset start at zero, and widgets it does not touch keep
the state of the form: GOTO procedure selected, no WCS, not verbose. -/
def Align.init (opt : GotoOption) (accuracy exposure : R) (binX binY : Int)
    (updateCoords preview : Bool) : Align R :=
  { hasCCD := false
    hasFilter := false
    canSync := false
    loadSlewMode := false
    loadSlewState := IPState.IPS_IDLE
    m_isSolverComplete := false
    m_isSolverSuccessful := false
    m_slewToTargetSelected := false
    m_wcsSynced := false
    isFocusBusy := false
    ccd_hor_pixel := -1
    ccd_ver_pixel := -1
    focal_length := -1
    aperture := -1
    sOrientation := -1
    sRA := -1
    sDEC := -1
    decDeviation := 0
    azDeviation := 0
    altDeviation := 0
    rememberUploadMode := UploadMode.UPLOAD_CLIENT
    filterPositionPending := false
    lockedFilterIndex := -1
    currentFilterIndex := -1
    retries := 0
    targetDiff := 1000000
    solverIterations := 0
    fov_x := 0
    fov_y := 0
    ccd_width := 0
    ccd_height := 0
    targetCoord := SkyPoint.zero
    alignCoord := SkyPoint.zero
    telescopeCoord := SkyPoint.zero
    azStage := AZStage.AZ_INIT
    altStage := ALTStage.ALT_INIT
    slew_dirty := false
    azInitRA := 0
    azInitDEC := 0
    azFinalRA := 0
    azFinalDEC := 0
    azInitAz := 0
    altInitRA := 0
    altInitDEC := 0
    altFinalRA := 0
    altFinalDEC := 0
    altInitAz := 0
    ccdConnections := 0
    gotoOption := opt
    gotoR := true
    solverUpdateCoords := updateCoords
    solverPreview := preview
    solverVerbose := false
    wcsCheck := false
    accuracy := accuracy
    exposure := exposure
    binX := binX
    binY := binY
    solveBEnabled := true }

/-- The fields of `b` that record a solve and its verdict are those of `a`. -/
def Align.sameSolve (a b : Align R) : Prop :=
  a.sOrientation = b.sOrientation ∧ a.sRA = b.sRA ∧ a.sDEC = b.sDEC
  ∧ a.alignCoord = b.alignCoord ∧ a.targetDiff = b.targetDiff
  ∧ a.m_isSolverComplete = b.m_isSolverComplete
  ∧ a.m_isSolverSuccessful = b.m_isSolverSuccessful
  ∧ a.solverIterations = b.solverIterations ∧ a.retries = b.retries
  ∧ a.loadSlewMode = b.loadSlewMode ∧ a.loadSlewState = b.loadSlewState
  ∧ a.gotoOption = b.gotoOption ∧ a.accuracy = b.accuracy

/-! ## Sample collaborators and states, for evaluating the model -/

/-- Collaborators at rest: the mount is still and reports `eq`, the camera is
idle and connected, the solver front end is ready and the operator confirms.
The math library and the latitude are given; the coordinate transforms are
stand-ins that leave the equatorial coordinates as they are. -/
def Env.atRest (sqrt cos : R → R) (degToRad lat : R) (eq : R × R) : Env R :=
  { sqrt := sqrt
    cos := cos
    DegToRad := degToRad
    lat := lat
    apparentCoord := fun ra dec => (ra, dec)
    equatorialToHorizontal := fun _ ra dec => (ra, dec)
    isSlewing := false
    syncOk := true
    eqCoords := eq
    ccdIsCapturing := false
    ccdIsConnected := true
    ccdUploadMode := UploadMode.UPLOAD_CLIENT
    binx := 1
    parserInit := true
    ccdRotation := false
    telescopeInfo := true
    confirm := true
    horizontalToEquatorial := fun _ az alt => (az, alt) }

/-- A freshly constructed controller with the given GOTO option, an accuracy
threshold of 30 arcseconds and one second of exposure. -/
def Align.fresh (opt : GotoOption) : Align R :=
  Align.init opt 30 1 1 1 true false

/-- A controller with camera and optics known: 1000 mm focal length, 200 mm
aperture and 5.4 micrometre pixels. -/
def Align.equipped (opt : GotoOption) : Align R :=
  { (Align.fresh opt : Align R) with
    hasCCD := true
    focal_length := 1000
    aperture := 200
    ccd_hor_pixel := 5.4
    ccd_ver_pixel := 5.4 }

/-! ## Observers on the emitted effects -/

/-- An exposure request to the camera. -/
def Effect.isCapture : Effect R → Bool
  | Effect.ccdCapture _ => true
  | _ => false

/-- A command to the filter wheel. -/
def Effect.isFilterCommand : Effect R → Bool
  | Effect.filterSet _ => true
  | _ => false

/-- A sync or slew command to the mount. -/
def Effect.isMountCommand : Effect R → Bool
  | Effect.telescopeSyncPoint _ => true
  | Effect.telescopeSlewPoint _ => true
  | Effect.telescopeSync _ _ => true
  | Effect.telescopeSlew _ _ => true
  | _ => false

/-- The signal `solverComplete`, with either argument. -/
def Effect.isSolverComplete : Effect R → Bool
  | Effect.solverComplete _ => true
  | _ => false

/-- The terminal failure event `solverComplete(false)`. -/
def Effect.isFailure : Effect R → Bool
  | Effect.solverComplete false => true
  | _ => false

/-! ## The Slew-mode iteration loop -/

/-- What the collaborators supply during one turn of the loop: their answers,
the solution of the frame, and the mount coordinates reported first while
the mount is slewing and then once it has come to rest. -/
structure SlewRound (R : Type) where
  env : Env R
  result : SolveResult R
  moving : R × R
  arrived : R × R

/-- One turn of the loop, from the arrival of a frame to the end of the slew
that follows its solution: `startSovling`, `solverFinished`, a coordinate
update while the mount slews, a coordinate update once it has stopped. -/
def slewRound (rd : SlewRound R) (s : Align R) : Out R :=
  Out.andThen
    (Out.andThen
      (Out.andThen (startSovling rd.env s) (solverFinished rd.env rd.result))
      (processTelescopeNumber { rd.env with isSlewing := true } rd.moving.1 rd.moving.2))
    (processTelescopeNumber { rd.env with isSlewing := false } rd.arrived.1 rd.arrived.2)

/-- Consecutive turns of the loop. -/
def slewRun : List (SlewRound R) → Align R → Out R
  | [], s => (s, [])
  | rd :: rest, s => Out.andThen (slewRound rd s) (slewRun rest)

/-- The `targetDiff` that the solve of round `rd` yields from state `s`. -/
def solveDiff (rd : SlewRound R) (s : Align R) : R :=
  (solverFinished rd.env rd.result (startSovling rd.env s).1).1.targetDiff

/-- Every solve of the run yields a `targetDiff` above the accuracy threshold. -/
def alwaysAbove : List (SlewRound R) → Align R → Prop
  | [], _ => True
  | rd :: rest, s => s.accuracy < solveDiff rd s ∧ alwaysAbove rest (slewRound rd s).1

/-- The controller side of what `captureAndSolve` needs to reach the exposure
request: a camera, known optics, no filter change pending, focuser idle. -/
def Align.canCapture (s : Align R) : Prop :=
  s.hasCCD = true ∧ s.focal_length ≠ -1 ∧ s.aperture ≠ -1
  ∧ s.ccd_hor_pixel ≠ -1 ∧ s.ccd_ver_pixel ≠ -1
  ∧ ¬ (s.hasFilter = true ∧ s.lockedFilterIndex ≠ -1
        ∧ s.lockedFilterIndex ≠ s.currentFilterIndex)
  ∧ s.isFocusBusy = false

/-- The collaborator side of what `captureAndSolve` needs: solver front end
ready, camera connected and not exposing. -/
def Env.cameraReady (env : Env R) : Prop :=
  env.parserInit = true ∧ env.ccdIsCapturing = false ∧ env.ccdIsConnected = true

/-- The set-up fields of `a` are those of `b`: mode, update option, camera,
optics, filter and focuser state. -/
def Align.sameSetup (a b : Align R) : Prop :=
  a.gotoR = b.gotoR ∧ a.solverUpdateCoords = b.solverUpdateCoords
  ∧ a.hasCCD = b.hasCCD ∧ a.hasFilter = b.hasFilter
  ∧ a.focal_length = b.focal_length ∧ a.aperture = b.aperture
  ∧ a.ccd_hor_pixel = b.ccd_hor_pixel ∧ a.ccd_ver_pixel = b.ccd_ver_pixel
  ∧ a.lockedFilterIndex = b.lockedFilterIndex
  ∧ a.currentFilterIndex = b.currentFilterIndex
  ∧ a.isFocusBusy = b.isFocusBusy

/-- The state in which the Slew-mode loop runs: GOTO mode with the Slew
option, coordinate updates enabled, no load-and-slew in progress, no slew
seen yet, `n` iterations counted, and a controller able to capture. -/
def Align.slewLoop (s : Align R) (n : Int) : Prop :=
  s.gotoR = true ∧ s.gotoOption = GotoOption.slewR ∧ s.solverUpdateCoords = true
  ∧ s.loadSlewMode = false ∧ s.slew_dirty = false ∧ s.solverIterations = n
  ∧ s.canCapture

/-- The `targetDiff` that `solverFinished` computes for the solution `r` when
the session target lies at RA `tra` and Dec `tdec`, in degrees. -/
def separation (env : Env R) (r : SolveResult R) (tra tdec : R) : R :=
  computeTargetDiff env (solvedCoord env r SkyPoint.zero)
    { (SkyPoint.zero : SkyPoint R) with ra := tra, dec := tdec }

/-- A turn of the loop in which the solver places the frame one degree of RA
away from the origin while the mount reports the origin throughout. -/
def SlewRound.offTarget : SlewRound ℚ :=
  { env := Env.atRest Rat.sqrt (fun _ => 1) 0 48 (0, 0)
    result := { orientation := 0, ra := 1, dec := 0, pixscale := 1 }
    moving := (0, 0)
    arrived := (0, 0) }

/-- The equipped controller with a frame of 1280 by 1024 pixels. -/
def Align.framed (opt : GotoOption) : Align R :=
  { (Align.equipped opt : Align R) with ccd_width := 1280, ccd_height := 1024 }

/-! ## Capture retries -/

/-- Slot `Align::checkCCDExposureProgress`; the chip and the remaining time
are not used by it. -/
def checkCCDExposureProgress (env : Env R) (state : IPState) (s : Align R) : Out R :=
  if state = IPState.IPS_ALERT then
    let s1 := { s with retries := s.retries + 1 }
    if s1.retries = 3 then
      Out.andThen (s1, [Effect.log Msg.captureErrorAborting]) (abort env)
    else
      Out.andThen (s1, [Effect.log Msg.restartingCapture])
        (fun x => (captureAndSolve env x).2)
  else (s, [])

/-- Method `Align::calculateFOV`: the field of view in arcminutes. -/
def calculateFOV (s : Align R) : Align R :=
  { s with
    fov_x := 206264.8062470963552 * (s.ccd_width : R) * s.ccd_hor_pixel / 1000.0
      / s.focal_length / 60.0
    fov_y := 206264.8062470963552 * (s.ccd_height : R) * s.ccd_ver_pixel / 1000.0
      / s.focal_length / 60.0 }

/-- Local `fov_lower` of `generateArgs` and of `getSolverOptionsFromFITS`. -/
def fovLower (fov_x fov_y : R) : R :=
  if fov_x < fov_y then fov_x * 0.95 else fov_y * 0.95

/-- Local `fov_upper` of `generateArgs` and of `getSolverOptionsFromFITS`. -/
def fovUpper (fov_x fov_y : R) : R :=
  if fov_x > fov_y then fov_x * 1.05 else fov_y * 1.05

/-- A coordinate entry box as `generateArgs` reads it: whether its text is
empty, whether `createDms` could parse it, and the angle `createDms` returns,
in degrees. -/
structure DmsBox (R : Type) where
  isEmpty : Bool
  ok : Bool
  value : R
  deriving DecidableEq

/-- The radius entry box as `generateArgs` reads it: whether its text is
empty, and the flag and the value `toInt` gives for it. -/
structure IntBox where
  isEmpty : Bool
  ok : Bool
  value : Int
  deriving DecidableEq

/-- The widgets `generateArgs` works on.  The text of `kcfg_solverOptions` is
held as the list of its blank-separated arguments, the empty list being the
empty text, so that `split(" ")` and `join(" ")` need no counterpart. -/
structure SolverForm (R : Type) where
  solverOptions : List String
  raBox : DmsBox R
  decBox : DmsBox R
  radiusBox : IntBox
  deriving DecidableEq

/-- The arguments put in front of every solver command line. -/
def defaultSolverArgs : List String :=
  ["--no-verify", "--no-plots", "--no-fits2fits", "--resort", "--downsample", "2", "-O"]

/-- The idiom `i = args.indexOf(flag); if (i != -1) args.replace(i+1, value)`.
A `replace` past the end of the list leaves it as it is. -/
def replaceAfter (args : List String) (flag value : String) : List String :=
  match args.indexOf? flag with
  | some i => args.set (i + 1) value
  | none => args

/-- The idiom that appends `flag value` when `indexOf(flag)` is -1 and replaces
the argument after `flag` otherwise. -/
def setOption (args : List String) (flag value : String) : List String :=
  match args.indexOf? flag with
  | some i => args.set (i + 1) value
  | none => args ++ [flag, value]

/-- First part of `generateArgs`: the argument list with the field bounds.
`num` renders a `double` as `QString` does. -/
def baseArgs (num : R → String) (s : Align R) (options : List String) : List String :=
  if options = [] then
    defaultSolverArgs ++
      ["-L", num (fovLower s.fov_x s.fov_y), "-H", num (fovUpper s.fov_x s.fov_y), "-u", "aw"]
  else
    replaceAfter (replaceAfter options "-L" (num (fovLower s.fov_x s.fov_y)))
      "-H" (num (fovUpper s.fov_x s.fov_y))

/-- Method `Align::generateArgs`.  The mount coordinates it reads and formats
are not used afterwards and are left out. -/
def generateArgs (num : R → String) (s : Align R) (f : SolverForm R) :
    SolverForm R × List (Effect R) :=
  let args := baseArgs num s f.solverOptions
  if f.raBox.isEmpty = false ∧ f.decBox.isEmpty = false then
    if f.raBox.ok = true ∧ f.decBox.ok = true
        ∧ ((dmsHours f.raBox.value < 0 ∨ dmsHours f.raBox.value > 24)
          ∨ (f.decBox.value < -90 ∨ f.decBox.value > 90)) then
      (f, [Effect.messageBox Msg.invalidCoordinates])
    else
      let radiusOk : Bool := if f.radiusBox.isEmpty = false then f.radiusBox.ok else false
      let radius : Int := if f.radiusBox.isEmpty = false then f.radiusBox.value else 30
      if radiusOk = false then (f, [Effect.messageBox Msg.invalidRadius])
      else
        let args3 := setOption args "-3" (num f.raBox.value)
        let args4 := setOption args3 "-4" (num f.decBox.value)
        ({ f with solverOptions := setOption args4 "-5" (toString radius) }, [])
  else ({ f with solverOptions := args }, [])

/-- A form with an empty options text and a hint that parsed: RA and Dec in
degrees, and the radius. -/
def SolverForm.hint (ra dec : R) (radius : Int) : SolverForm R :=
  { solverOptions := []
    raBox := { isEmpty := false, ok := true, value := ra }
    decBox := { isEmpty := false, ok := true, value := dec }
    radiusBox := { isEmpty := false, ok := true, value := radius } }

section Sexagesimal


/-- The C conversion `int(x)` of a `double`: truncation toward zero. -/
def truncInt (x : R) : Int :=
  if 0 ≤ x then ⌊x⌋ else ⌈x⌉

/-- Modelled from the spec: accessor `dms::degree` (the angle class of dms.h
is not among the sources): the whole degrees of the angle, truncated toward
zero. -/
def dmsDegree (D : R) : Int :=
  truncInt D

/-- Modelled from the spec: accessor `dms::arcmin` (dms.h is not among the
sources): the whole arcminutes left after the degrees; for an angle between
-1 and 0 degrees, where the degrees are zero, the arcminutes carry the sign. -/
def dmsArcmin (D : R) : Int :=
  let am := truncInt (60 * (|D| - |(dmsDegree D : R)|))
  if D < 0 ∧ D > -1 then -am else am

/-- Modelled from the spec: accessor `dms::arcsec` (dms.h is not among the
sources): the whole arcseconds left after degrees and arcminutes; for a
negative angle whose degrees and arcminutes are both zero the arcseconds
carry the sign. -/
def dmsArcsec (D : R) : Int :=
  let as := truncInt (60 * (60 * (|D| - |(dmsDegree D : R)|) - |(dmsArcmin D : R)|))
  if dmsDegree D = 0 ∧ dmsArcmin D = 0 ∧ D < 0 then -as else as

/-- Modelled from the spec: accessor `dms::hour` (dms.h is not among the
sources): the whole hours of the reduced angle. -/
def dmsHour (D : R) : Int :=
  truncInt (dmsReduce D / 15)

/-- Modelled from the spec: accessor `dms::minute` (dms.h is not among the
sources): the whole minutes of time left after the hours. -/
def dmsMinute (D : R) : Int :=
  truncInt (60 * (dmsReduce D / 15 - (dmsHour D : R)))

/-- Modelled from the spec: accessor `dms::second` (dms.h is not among the
sources): the whole seconds of time left after hours and minutes. -/
def dmsSecond (D : R) : Int :=
  truncInt (60 * (60 * (dmsReduce D / 15 - (dmsHour D : R)) - (dmsMinute D : R)))

/-- The numbers `getFormattedCoords` puts in the three fields of the RA text. -/
def raFields (ra : R) : Int × Int × Int :=
  (dmsHour (dmsSetH ra), dmsMinute (dmsSetH ra), dmsSecond (dmsSetH ra))

/-- The sign and the numbers `getFormattedCoords` puts in the three fields of
the Dec text: the degrees and the arcminutes go through `abs`, the arcseconds
do not. -/
def decFields (dec : R) : Bool × Int × Int × Int :=
  if dec < 0 then (true, |dmsDegree dec|, |dmsArcmin dec|, dmsArcsec dec)
  else (false, dmsDegree dec, dmsArcmin dec, dmsArcsec dec)

/-- The conversion `arg(n, 2, 10, QChar('0'))`: decimal digits, filled with
zeros on the left up to a width of two. -/
def arg2 (n : Int) : String :=
  if (toString n).length < 2 then "0" ++ toString n else toString n

/-- Method `Align::getFormattedCoords`: the texts for RA (hours) and Dec
(degrees). -/
def getFormattedCoords (ra dec : R) : String × String :=
  let r := raFields ra
  let d := decFields dec
  (arg2 r.1 ++ ":" ++ arg2 r.2.1 ++ ":" ++ arg2 r.2.2,
   (if d.1 = true then "-" else "") ++ arg2 d.2.1 ++ ":" ++ arg2 d.2.2.1 ++ ":" ++ arg2 d.2.2.2)

/-- The form the texts are specified to have: every field a non-negative
integer, minutes and seconds from 0 to 59. -/
def sexagesimalFields (a b c : Int) : Prop :=
  0 ≤ a ∧ 0 ≤ b ∧ b ≤ 59 ∧ 0 ≤ c ∧ c ≤ 59

/-- The declination in degrees that a sign and three fields stand for. -/
def decOfFields (neg : Bool) (d m s : Int) : R :=
  (if neg = true then -1 else 1) * ((d : R) + (m : R) / 60 + (s : R) / 3600)

/-- The right ascension in hours that three fields stand for. -/
def raOfFields (h m s : Int) : R :=
  (h : R) + (m : R) / 60 + (s : R) / 3600

end Sexagesimal

/-- A stand-in for the rendering of a number as text: the integer part. -/
def wholePart (q : ℚ) : String :=
  toString (Rat.floor q)

/-! ## Polar alignment: divisor and corrections -/

/-- The divisor of the local `deviation` of `calculatePolarError`:
`RATime * cos(initDEC * dms::DegToRad)`. -/
def polarDivisor (env : Env R) (initRA initDEC finalRA : R) : R :=
  polarRATime initRA finalRA * env.cos (initDEC * env.DegToRad)

/-- Local `targetLat` of `correctAltError`, in degrees. -/
def correctedLat (env : Env R) (s : Align R) : R :=
  env.lat + s.altDeviation

/-- Local `currentAz` of `correctAzError`, in degrees. -/
def correctedAz (env : Env R) (s : Align R) : R :=
  (env.equatorialToHorizontal env.lat s.telescopeCoord.ra s.telescopeCoord.dec).1
    + s.azDeviation

/-- Slot `Align::correctAltError`. -/
def correctAltError (env : Env R) (s : Align R) : Out R :=
  let hor := env.equatorialToHorizontal (correctedLat env s) s.telescopeCoord.ra
    s.telescopeCoord.dec
  let eq := env.horizontalToEquatorial env.lat hor.1 hor.2
  ({ s with altStage := ALTStage.ALT_CORRECTING },
    [Effect.telescopeSlew (dmsHours eq.1) eq.2, Effect.log Msg.slewingToCalibration])

/-- Slot `Align::correctAzError`. -/
def correctAzError (env : Env R) (s : Align R) : Out R :=
  let hor := env.equatorialToHorizontal env.lat s.telescopeCoord.ra s.telescopeCoord.dec
  let eq := env.horizontalToEquatorial env.lat (correctedAz env s) hor.2
  ({ s with azStage := AZStage.AZ_CORRECTING },
    [Effect.telescopeSlew (dmsHours eq.1) eq.2, Effect.log Msg.slewingToCalibration])

/-! ## Runs of coordinate updates and of loop turns -/

/-- The coordinate update ends in the load-and-slew or the slew-to-target
branch of `processTelescopeNumber`, both of which return before the two stage
switches. -/
def Align.updateConsumed (env : Env R) (s : Align R) : Prop :=
  s.solverUpdateCoords = true ∧ env.isSlewing = false ∧ s.slew_dirty = true
  ∧ (s.loadSlewMode = true
    ∨ (s.m_slewToTargetSelected = true ∧ ¬ s.targetDiff ≤ s.accuracy))

/-- Consecutive coordinate updates: `processTelescopeNumber` is called once for
each entry, with the collaborators' answers and the RA and Dec it reports. -/
def updateRun : List (Env R × R × R) → Align R → Out R
  | [], s => (s, [])
  | u :: rest, s =>
    Out.andThen (processTelescopeNumber u.1 u.2.1 u.2.2 s) (updateRun rest)

/-- The session target each solve of a run is compared against: `targetCoord`
as `startSovling` leaves it at the start of each turn. -/
def solveTargets : List (SlewRound R) → Align R → List (SkyPoint R)
  | [], _ => []
  | rd :: rest, s =>
    (startSovling rd.env s).1.targetCoord :: solveTargets rest (slewRound rd s).1

/-- A turn of the loop like `SlewRound.offTarget` in which the mount reports
RA 1 h and Dec 1 degree instead of the origin. -/
def SlewRound.drifted : SlewRound ℚ :=
  { env := Env.atRest Rat.sqrt (fun _ => 1) 0 48 (1, 1)
    result := { orientation := 0, ra := 1, dec := 0, pixscale := 1 }
    moving := (1, 1)
    arrived := (1, 1) }

/-- The result `p` of a step from `s` that at most presses the solve button:
loop bookkeeping, update option and sync ability are those of `s`, a state
able to capture stays so, neither `solverSlewComplete` nor
`solverComplete(false)` is raised, and either no exposure is requested and
the button is as it was, or one exposure is requested from an enabled button,
which is then disabled. -/
def Out.stageStep (p : Out R) (s : Align R) : Prop :=
  p.1.solverIterations = s.solverIterations
  ∧ p.1.m_slewToTargetSelected = s.m_slewToTargetSelected
  ∧ p.1.loadSlewMode = s.loadSlewMode ∧ p.1.loadSlewState = s.loadSlewState
  ∧ p.1.solverUpdateCoords = s.solverUpdateCoords ∧ p.1.canSync = s.canSync
  ∧ (s.canCapture → p.1.canCapture)
  ∧ (∀ e ∈ p.2, e ≠ Effect.solverSlewComplete ∧ e.isFailure = false)
  ∧ ((List.countP Effect.isCapture p.2 = 0 ∧ p.1.solveBEnabled = s.solveBEnabled)
    ∨ (List.countP Effect.isCapture p.2 = 1 ∧ s.solveBEnabled = true
      ∧ p.1.solveBEnabled = false))

/-- The equipped controller in the polar-alignment procedure, at the given
stages of the two axes. -/
def Align.atStage (az : AZStage) (alt : ALTStage) : Align ℚ :=
  { (Align.equipped GotoOption.slewR : Align ℚ) with
    azStage := az, altStage := alt, gotoR := false }

/-! ## Scheduler states -/

/-- Enumeration `Scheduler::StateChoice` of scheduler.h. -/
inductive Scheduler.StateChoice where
  | IDLE | STARTING_EKOS | EKOS_STARTED | CONNECTING | CONNECTED | READY | FINISHED
  | SHUTDOWN | PARK_TELESCOPE | WARM_CCD | CLOSE_DOME | ABORTED
  deriving DecidableEq, Repr, Fintype

/-- The integer value of each enumerator. -/
def Scheduler.StateChoice.value : Scheduler.StateChoice → Nat
  | .IDLE => 0 | .STARTING_EKOS => 1 | .EKOS_STARTED => 2 | .CONNECTING => 3
  | .CONNECTED => 4 | .READY => 5 | .FINISHED => 6 | .SHUTDOWN => 7
  | .PARK_TELESCOPE => 8 | .WARM_CCD => 9 | .CLOSE_DOME => 10 | .ABORTED => 11

/-- The phases the specification names for the per-job state machine, the
terminal state and the shutdown sequence. -/
inductive SpecPhase where
  | idle | startingDevices | connecting | connected | slewing | focusing | aligning
  | guiding | capturing | finished | aborted | parkTelescope | warmCCD | closeDome
  deriving DecidableEq, Repr, Fintype

/-- The state of `Scheduler::StateChoice` that stands for a phase of the
specification, by name (`STARTING_EKOS` for the start of the devices); `none`
when no enumerator stands for it. -/
def SpecPhase.state? : SpecPhase → Option Scheduler.StateChoice
  | .idle => some .IDLE
  | .startingDevices => some .STARTING_EKOS
  | .connecting => some .CONNECTING
  | .connected => some .CONNECTED
  | .finished => some .FINISHED
  | .aborted => some .ABORTED
  | .parkTelescope => some .PARK_TELESCOPE
  | .warmCCD => some .WARM_CCD
  | .closeDome => some .CLOSE_DOME
  | .slewing => none
  | .focusing => none
  | .aligning => none
  | .guiding => none
  | .capturing => none

/-! ## Reading the hint off the argument list -/

/-- One of the three flags of the search hint. -/
def isHintFlag (a : String) : Prop := a = "-3" ∨ a = "-4" ∨ a = "-5"

instance isHintFlag.decide (a : String) : Decidable (isHintFlag a) := by
  unfold isHintFlag
  infer_instance

/-- Every hint flag in the list is followed by an argument, and that argument
is not a hint flag itself. -/
def hintFlagsHaveValues : List String → Prop
  | [] => True
  | a :: l => (isHintFlag a → ∃ v t, l = v :: t ∧ ¬ isHintFlag v) ∧ hintFlagsHaveValues l

instance headValue.decide (l : List String) :
    Decidable (∃ v t, l = v :: t ∧ ¬ isHintFlag v) :=
  match l with
  | [] => isFalse (fun h => by obtain ⟨v, t, e, _⟩ := h; cases e)
  | v :: t =>
    if h : isHintFlag v then
      isFalse (fun c => by
        obtain ⟨w, u, e, hw⟩ := c
        cases e
        exact hw h)
    else isTrue ⟨v, t, rfl, h⟩

instance hintFlagsHaveValues.decide : (l : List String) → Decidable (hintFlagsHaveValues l)
  | [] => isTrue trivial
  | a :: l =>
    have := hintFlagsHaveValues.decide l
    inferInstanceAs (Decidable
      ((isHintFlag a → ∃ v t, l = v :: t ∧ ¬ isHintFlag v) ∧ hintFlagsHaveValues l))

/-- The `double` nearest to pi/180, which is the value `PI / 180.0` has in
binary floating point, as an exact fraction: 5030569068109113 / 2^58, about
0.017453292519943295. -/
def degToRadDouble : ℚ := 5030569068109113 / 288230376151711744

/-! ## Frame lemmas shared by the theorems below -/

set_option linter.unusedSectionVars false

theorem solverWcs_state (env : Env R) (r : SolveResult R) (s : Align R) :
    (solverWcs env r s).1 =
      { s with m_wcsSynced := s.m_wcsSynced || (s.wcsCheck && env.ccdRotation) } := by
  unfold solverWcs
  by_cases h1 : s.wcsCheck = true ∧ env.ccdRotation = true
  · rw [if_pos h1]
    by_cases h3 : s.m_wcsSynced = false
    · have e : (s.m_wcsSynced || (s.wcsCheck && env.ccdRotation)) = true := by
        simp [h1.1, h1.2]
      rw [if_pos h3, e]
    · have e : (s.m_wcsSynced || (s.wcsCheck && env.ccdRotation)) = s.m_wcsSynced := by
        cases hs : s.m_wcsSynced
        · exact absurd hs h3
        · rfl
      rw [if_neg h3, e]
  · have e : (s.m_wcsSynced || (s.wcsCheck && env.ccdRotation)) = s.m_wcsSynced := by
      cases hw : s.wcsCheck
      · simp
      · cases hr : env.ccdRotation
        · simp
        · exact absurd ⟨hw, hr⟩ h1
    rw [if_neg h1, e]

theorem executeGOTO_flags (env : Env R) (s : Align R) :
    (executeGOTO env s).1.m_isSolverComplete = s.m_isSolverComplete
    ∧ (executeGOTO env s).1.m_isSolverSuccessful = s.m_isSolverSuccessful
    ∧ (executeGOTO env s).1.solverIterations = s.solverIterations := by
  unfold executeGOTO SlewToTarget Sync
  split_ifs <;> simp

theorem solverOutcome_frame (env : Env R) (r : SolveResult R) (s : Align R) :
    (solverOutcome env r s).1.gotoR = s.gotoR
    ∧ (solverOutcome env r s).1.gotoOption = s.gotoOption
    ∧ (solverOutcome env r s).1.loadSlewMode = s.loadSlewMode := by
  unfold solverOutcome solverVerdict
  simp only [solverWcs_state, solverStore]
  split_ifs <;> simp

/-- The state `solverFinished` reaches before `executeMode`, spelled out. -/
theorem solverOutcome_state (env : Env R) (r : SolveResult R) (s : Align R) :
    (solverOutcome env r s).1 =
      if s.gotoOption = GotoOption.syncR ∨ s.gotoOption = GotoOption.nothingR
          ∨ computeTargetDiff env (solvedCoord env r s.alignCoord) s.targetCoord ≤ s.accuracy
      then
        { solverStore env r s with
          m_wcsSynced := s.m_wcsSynced || (s.wcsCheck && env.ccdRotation)
          retries := 0
          m_isSolverComplete := true
          m_isSolverSuccessful := true
          solverIterations := 0 }
      else
        { solverStore env r s with
          m_wcsSynced := s.m_wcsSynced || (s.wcsCheck && env.ccdRotation)
          retries := 0 } := by
  unfold solverOutcome solverVerdict
  simp only [solverWcs_state, solverStore]
  split_ifs <;> rfl

theorem not_mem_solverLogs (env : Env R) (r : SolveResult R) (s : Align R) (b : Bool) :
    Effect.solverComplete b ∉ solverLogs env r s := by
  unfold solverLogs
  split_ifs <;> simp

theorem not_mem_solverWcs (env : Env R) (r : SolveResult R) (s : Align R) (b : Bool) :
    Effect.solverComplete b ∉ (solverWcs env r s).2 := by
  unfold solverWcs
  split_ifs <;> simp

theorem mem_solverVerdict (s : Align R) (b : Bool) :
    Effect.solverComplete b ∈ (solverVerdict s).2 ↔
      (b = true ∧ (s.gotoOption = GotoOption.syncR ∨ s.gotoOption = GotoOption.nothingR
          ∨ s.targetDiff ≤ s.accuracy)) := by
  unfold solverVerdict
  split_ifs with h
  · simp [h]
  · simp [h]

theorem mem_solverOutcome_complete (env : Env R) (r : SolveResult R) (s : Align R) (b : Bool) :
    Effect.solverComplete b ∈ (solverOutcome env r s).2 ↔
      (b = true ∧ (s.gotoOption = GotoOption.syncR ∨ s.gotoOption = GotoOption.nothingR
          ∨ computeTargetDiff env (solvedCoord env r s.alignCoord) s.targetCoord ≤ s.accuracy)) := by
  unfold solverOutcome
  simp only [List.mem_append, not_mem_solverLogs, not_mem_solverWcs, mem_solverVerdict,
    false_or]
  have hup : ∀ (c : Prop) [Decidable c] (m : UploadMode),
      Effect.solverComplete b ∉ (if c then [Effect.ccdSetUploadMode m] else [] : List (Effect R)) := by
    intro c _ m; split_ifs <;> simp
  have hn : ∀ (c : Prop) [Decidable c],
      Effect.solverComplete b ∉ ([Effect.notification Msg.alignSuccessful,
        Effect.log Msg.solutionCoordinates] ++
        (if c then [Effect.log Msg.targetWithin] else []) : List (Effect R)) := by
    intro c _; split_ifs <;> simp
  simp only [hup, or_false]
  simp only [solverWcs_state, solverStore]
  split_ifs <;> simp

theorem Align.sameSolve_refl (s : Align R) : s.sameSolve s :=
  ⟨rfl, rfl, rfl, rfl, rfl, rfl, rfl, rfl, rfl, rfl, rfl, rfl, rfl⟩

theorem Align.sameSolve_trans {a b c : Align R} (h1 : a.sameSolve b) (h2 : b.sameSolve c) :
    a.sameSolve c := by
  unfold Align.sameSolve at *
  obtain ⟨a1, a2, a3, a4, a5, a6, a7, a8, a9, a10, a11, a12, a13⟩ := h1
  obtain ⟨b1, b2, b3, b4, b5, b6, b7, b8, b9, b10, b11, b12, b13⟩ := h2
  exact ⟨a1.trans b1, a2.trans b2, a3.trans b3, a4.trans b4, a5.trans b5, a6.trans b6,
    a7.trans b7, a8.trans b8, a9.trans b9, a10.trans b10, a11.trans b11, a12.trans b12,
    a13.trans b13⟩

theorem calculatePolarError_sameSolve (env : Env R) (a b c d e : R) (s : Align R) :
    (calculatePolarError env a b c d e s).1.sameSolve s := by
  unfold calculatePolarError
  simp only []
  split_ifs <;> exact Align.sameSolve_refl _

theorem calculatePolarError_quiet (env : Env R) (a b c d e : R) (s : Align R) :
    ∀ x ∈ (calculatePolarError env a b c d e s).2,
      x.isSolverComplete = false ∧ x.isCapture = false := by
  unfold calculatePolarError
  simp only []
  split_ifs <;> simp [Effect.isSolverComplete, Effect.isCapture]

theorem measureAzError_sameSolve (env : Env R) (s : Align R)
    (h : s.azStage ≠ AZStage.AZ_INIT ∧ s.azStage ≠ AZStage.AZ_SECOND_TARGET) :
    (measureAzError env s).1.sameSolve s
    ∧ (measureAzError env s).1.altStage = s.altStage
    ∧ ∀ x ∈ (measureAzError env s).2, x.isSolverComplete = false ∧ x.isCapture = false := by
  unfold measureAzError
  cases hs : s.azStage
  · exact absurd hs h.1
  · simp only []
    split_ifs <;>
      exact ⟨Align.sameSolve_refl _, rfl, by simp [Effect.isSolverComplete, Effect.isCapture]⟩
  · exact ⟨Align.sameSolve_refl _, rfl, by simp⟩
  · exact ⟨Align.sameSolve_refl _, rfl, by simp⟩
  · exact absurd hs h.2
  · exact ⟨Align.sameSolve_refl _, rfl, by simp⟩
  · simp only [Out.andThen]
    refine ⟨calculatePolarError_sameSolve _ _ _ _ _ _ _, ?_, ?_⟩
    · unfold calculatePolarError
      simp only []
      split_ifs <;> rfl
    · intro x hx
      rcases List.mem_append.1 hx with hx | hx
      · revert hx
        split_ifs <;> simp [Effect.isSolverComplete, Effect.isCapture] <;>
          rintro (rfl | rfl | rfl) <;> simp [Effect.isSolverComplete, Effect.isCapture]
      · exact calculatePolarError_quiet _ _ _ _ _ _ _ x hx

theorem measureAltError_sameSolve (env : Env R) (s : Align R)
    (h : s.altStage ≠ ALTStage.ALT_INIT ∧ s.altStage ≠ ALTStage.ALT_SECOND_TARGET) :
    (measureAltError env s).1.sameSolve s
    ∧ ∀ x ∈ (measureAltError env s).2, x.isSolverComplete = false ∧ x.isCapture = false := by
  unfold measureAltError
  cases hs : s.altStage
  · exact absurd hs h.1
  · simp only []
    split_ifs <;>
      exact ⟨Align.sameSolve_refl _, by simp [Effect.isSolverComplete, Effect.isCapture]⟩
  · exact ⟨Align.sameSolve_refl _, by simp⟩
  · exact ⟨Align.sameSolve_refl _, by simp⟩
  · exact absurd hs h.2
  · exact ⟨Align.sameSolve_refl _, by simp⟩
  · simp only [Out.andThen]
    refine ⟨calculatePolarError_sameSolve _ _ _ _ _ _ _, ?_⟩
    intro x hx
    rcases List.mem_append.1 hx with hx | hx
    · revert hx
      split_ifs <;> simp [Effect.isSolverComplete, Effect.isCapture] <;>
        rintro (rfl | rfl | rfl) <;> simp [Effect.isSolverComplete, Effect.isCapture]
    · exact calculatePolarError_quiet _ _ _ _ _ _ _ x hx

theorem executePolarAlign_sameSolve (env : Env R) (s : Align R) :
    (executePolarAlign env s).1.sameSolve s
    ∧ ∀ x ∈ (executePolarAlign env s).2, x.isSolverComplete = false ∧ x.isCapture = false := by
  have key : ∀ p : Out R, p.1.sameSolve s →
      (∀ x ∈ p.2, x.isSolverComplete = false ∧ x.isCapture = false) →
      (match p.1.altStage with
        | ALTStage.ALT_FIRST_TARGET => Out.andThen p (measureAltError env)
        | ALTStage.ALT_FINISHED => Out.andThen p (measureAltError env)
        | _ => p).1.sameSolve s
      ∧ ∀ x ∈ (match p.1.altStage with
        | ALTStage.ALT_FIRST_TARGET => Out.andThen p (measureAltError env)
        | ALTStage.ALT_FINISHED => Out.andThen p (measureAltError env)
        | _ => p).2, x.isSolverComplete = false ∧ x.isCapture = false := by
    intro p hp hq
    have step : p.1.altStage ≠ ALTStage.ALT_INIT ∧ p.1.altStage ≠ ALTStage.ALT_SECOND_TARGET →
        (Out.andThen p (measureAltError env)).1.sameSolve s
        ∧ ∀ x ∈ (Out.andThen p (measureAltError env)).2,
            x.isSolverComplete = false ∧ x.isCapture = false := by
      intro h
      obtain ⟨h1, h2⟩ := measureAltError_sameSolve env p.1 h
      refine ⟨Align.sameSolve_trans h1 hp, ?_⟩
      intro x hx
      rcases List.mem_append.1 hx with hx | hx
      · exact hq x hx
      · exact h2 x hx
    cases hs : p.1.altStage
    · exact ⟨hp, hq⟩
    · exact step (by simp [hs])
    · exact ⟨hp, hq⟩
    · exact ⟨hp, hq⟩
    · exact ⟨hp, hq⟩
    · exact ⟨hp, hq⟩
    · exact step (by simp [hs])
  have hlog : ∀ x ∈ [Effect.log Msg.processingPolar (R := R)],
      x.isSolverComplete = false ∧ x.isCapture = false := by
    simp [Effect.isSolverComplete, Effect.isCapture]
  have stepAz : s.azStage ≠ AZStage.AZ_INIT ∧ s.azStage ≠ AZStage.AZ_SECOND_TARGET →
      (Out.andThen (s, [Effect.log Msg.processingPolar]) (measureAzError env)).1.sameSolve s
      ∧ ∀ x ∈ (Out.andThen (s, [Effect.log Msg.processingPolar]) (measureAzError env)).2,
          x.isSolverComplete = false ∧ x.isCapture = false := by
    intro h
    obtain ⟨h1, _, h3⟩ := measureAzError_sameSolve env s h
    refine ⟨h1, ?_⟩
    intro x hx
    rcases List.mem_append.1 hx with hx | hx
    · exact hlog x hx
    · exact h3 x hx
  unfold executePolarAlign
  cases hs : s.azStage
  · exact key _ (Align.sameSolve_refl _) hlog
  · exact key _ (stepAz (by simp [hs])).1 (stepAz (by simp [hs])).2
  · exact key _ (Align.sameSolve_refl _) hlog
  · exact key _ (Align.sameSolve_refl _) hlog
  · exact key _ (Align.sameSolve_refl _) hlog
  · exact key _ (Align.sameSolve_refl _) hlog
  · exact key _ (stepAz (by simp [hs])).1 (stepAz (by simp [hs])).2

theorem executeGOTO_sameSolve (env : Env R) (s : Align R) :
    (executeGOTO env s).1.sameSolve s
    ∧ ∀ x ∈ (executeGOTO env s).2, x.isSolverComplete = false ∧ x.isCapture = false := by
  unfold executeGOTO SlewToTarget Sync
  split_ifs <;>
    exact ⟨Align.sameSolve_refl _, by simp [Effect.isSolverComplete, Effect.isCapture]⟩

theorem executeMode_sameSolve (env : Env R) (s : Align R) :
    (executeMode env s).1.sameSolve s
    ∧ ∀ x ∈ (executeMode env s).2, x.isSolverComplete = false ∧ x.isCapture = false := by
  unfold executeMode
  split_ifs
  · exact executeGOTO_sameSolve env s
  · exact executePolarAlign_sameSolve env s

theorem solverFinished_sameSolve (env : Env R) (r : SolveResult R) (s : Align R) :
    (solverFinished env r s).1.sameSolve (solverOutcome env r s).1 := by
  unfold solverFinished Out.andThen
  exact (executeMode_sameSolve env _).1

theorem mem_solverFinished_complete (env : Env R) (r : SolveResult R) (s : Align R) (b : Bool) :
    Effect.solverComplete b ∈ (solverFinished env r s).2 ↔
      (b = true ∧ (s.gotoOption = GotoOption.syncR ∨ s.gotoOption = GotoOption.nothingR
          ∨ computeTargetDiff env (solvedCoord env r s.alignCoord) s.targetCoord ≤ s.accuracy)) := by
  unfold solverFinished Out.andThen
  rw [List.mem_append, mem_solverOutcome_complete]
  constructor
  · rintro (h | h)
    · exact h
    · have := ((executeMode_sameSolve env _).2 _ h).1
      simp [Effect.isSolverComplete] at this
  · exact Or.inl

theorem solverFinished_diff_eq (env : Env R) (r : SolveResult R) (s : Align R) :
    (solverFinished env r s).1.targetDiff
      = computeTargetDiff env (solvedCoord env r s.alignCoord) s.targetCoord
    ∧ (solverFinished env r s).1.alignCoord = solvedCoord env r s.alignCoord := by
  obtain ⟨_, _, _, h4, h5, _⟩ := solverFinished_sameSolve env r s
  rw [h4, h5, solverOutcome_state]
  split_ifs <;> exact ⟨rfl, rfl⟩

/-- C1. In GOTO mode with the Sync or the NoAction option checked, every
solver result, whatever the resulting `targetDiff`, makes `solverFinished`
mark the solve complete and successful, reset `solverIterations` to 0 and
emit `solverComplete(true)`. -/
theorem solverFinished_sync_or_nothing_terminal (env : Env R) (r : SolveResult R)
    (s : Align R) (hgoto : s.gotoR = true)
    (hmode : s.gotoOption = GotoOption.syncR ∨ s.gotoOption = GotoOption.nothingR) :
    (solverFinished env r s).1.m_isSolverComplete = true
    ∧ (solverFinished env r s).1.m_isSolverSuccessful = true
    ∧ (solverFinished env r s).1.solverIterations = 0
    ∧ Effect.solverComplete true ∈ (solverFinished env r s).2 := by
  have hd : s.gotoOption = GotoOption.syncR ∨ s.gotoOption = GotoOption.nothingR
      ∨ computeTargetDiff env (solvedCoord env r s.alignCoord) s.targetCoord ≤ s.accuracy := by
    rcases hmode with h | h
    · exact Or.inl h
    · exact Or.inr (Or.inl h)
  have hg : (solverOutcome env r s).1.gotoR = true := by
    rw [(solverOutcome_frame env r s).1, hgoto]
  have hst := solverOutcome_state env r s
  rw [if_pos hd] at hst
  obtain ⟨_, _, _, _, _, h6, h7, h8, _⟩ := solverFinished_sameSolve env r s
  refine ⟨?_, ?_, ?_, ?_⟩
  · rw [h6, hst]
  · rw [h7, hst]
  · rw [h8, hst]
  · exact (mem_solverFinished_complete env r s true).2 ⟨rfl, hd⟩

/-- Witness for C1: a Sync-mode controller whose target is 10 degrees away
from the solution, far above the 30 arcsecond threshold. -/
theorem solverFinished_sync_or_nothing_terminal_witness :
    ((Align.equipped GotoOption.syncR : Align ℚ).gotoR = true
      ∧ ((Align.equipped GotoOption.syncR : Align ℚ).gotoOption = GotoOption.syncR
        ∨ (Align.equipped GotoOption.syncR : Align ℚ).gotoOption = GotoOption.nothingR))
    ∧ ((solverFinished (Env.atRest Rat.sqrt (fun _ => 1) 0 48 (0, 0))
          { orientation := 0, ra := 10, dec := 10, pixscale := 1 }
          (Align.equipped GotoOption.syncR : Align ℚ)).1.m_isSolverComplete = true
      ∧ (solverFinished (Env.atRest Rat.sqrt (fun _ => 1) 0 48 (0, 0))
          { orientation := 0, ra := 10, dec := 10, pixscale := 1 }
          (Align.equipped GotoOption.syncR : Align ℚ)).1.m_isSolverSuccessful = true
      ∧ (solverFinished (Env.atRest Rat.sqrt (fun _ => 1) 0 48 (0, 0))
          { orientation := 0, ra := 10, dec := 10, pixscale := 1 }
          (Align.equipped GotoOption.syncR : Align ℚ)).1.solverIterations = 0
      ∧ Effect.solverComplete true ∈
        (solverFinished (Env.atRest Rat.sqrt (fun _ => 1) 0 48 (0, 0))
          { orientation := 0, ra := 10, dec := 10, pixscale := 1 }
          (Align.equipped GotoOption.syncR : Align ℚ)).2) :=
  ⟨⟨rfl, Or.inl rfl⟩,
    solverFinished_sync_or_nothing_terminal _ _ _ rfl (Or.inl rfl)⟩

theorem executeGOTO_slew (env : Env R) (s : Align R)
    (hslew : s.gotoOption = GotoOption.slewR) :
    (executeGOTO env s).1.m_slewToTargetSelected = true
    ∧ Effect.telescopeSlewPoint (executeGOTO env s).1.targetCoord ∈ (executeGOTO env s).2 := by
  unfold executeGOTO SlewToTarget Sync
  split_ifs <;> simp_all

/-- C4. `solverFinished` sets `alignCoord` from the solution and stores in
`targetDiff` the planar separation, in arcseconds, between `alignCoord`
(`ra_s`, `dec_s`) and the session target (`ra_t`, `dec_t`): the square root of
`(3600 |ra_s - ra_t|)^2 + (3600 |dec_s - dec_t|)^2`, so that its square is
`3600^2 ((ra_s - ra_t)^2 + (dec_s - dec_t)^2)`; the RA term carries no factor
`cos(dec)`. -/
theorem solverFinished_targetDiff_planar (env : Env R) (r : SolveResult R) (s : Align R)
    (hsqrt : ∀ x : R, 0 ≤ x → env.sqrt x * env.sqrt x = x) :
    (solverFinished env r s).1.alignCoord = solvedCoord env r s.alignCoord
    ∧ (solverFinished env r s).1.targetDiff
        = env.sqrt ((3600 * |(solverFinished env r s).1.alignCoord.ra - s.targetCoord.ra|) ^ 2
            + (3600 * |(solverFinished env r s).1.alignCoord.dec - s.targetCoord.dec|) ^ 2)
    ∧ (solverFinished env r s).1.targetDiff ^ 2
        = 3600 ^ 2 * (((solverFinished env r s).1.alignCoord.ra - s.targetCoord.ra) ^ 2
            + ((solverFinished env r s).1.alignCoord.dec - s.targetCoord.dec) ^ 2) := by
  obtain ⟨h1, h2⟩ := solverFinished_diff_eq env r s
  rw [h1, h2]
  have e : ∀ a b : R, |a| * 3600 * (|a| * 3600) + |b| * 3600 * (|b| * 3600)
      = 3600 ^ 2 * (a ^ 2 + b ^ 2) := by
    intro a b
    have ha : |a| * |a| = a ^ 2 := by rw [abs_mul_abs_self, sq]
    have hb : |b| * |b| = b ^ 2 := by rw [abs_mul_abs_self, sq]
    calc |a| * 3600 * (|a| * 3600) + |b| * 3600 * (|b| * 3600)
        = 3600 ^ 2 * (|a| * |a| + |b| * |b|) := by ring
      _ = 3600 ^ 2 * (a ^ 2 + b ^ 2) := by rw [ha, hb]
  refine ⟨rfl, ?_, ?_⟩
  · unfold computeTargetDiff
    simp only []
    congr 1
    ring
  · unfold computeTargetDiff
    simp only []
    rw [sq, hsqrt _ (by positivity), e]

/-- Witness for C4 over the real numbers with the real square root. -/
theorem solverFinished_targetDiff_planar_witness :
    (∀ x : ℝ, 0 ≤ x →
      (Env.atRest Real.sqrt Real.cos (Real.pi / 180) 48 (0, 0)).sqrt x
        * (Env.atRest Real.sqrt Real.cos (Real.pi / 180) 48 (0, 0)).sqrt x = x)
    ∧ (solverFinished (Env.atRest Real.sqrt Real.cos (Real.pi / 180) 48 (0, 0))
        { orientation := 0, ra := 3, dec := 4, pixscale := 1 }
        (Align.equipped GotoOption.slewR : Align ℝ)).1.targetDiff ^ 2
      = 3600 ^ 2 * (((solverFinished (Env.atRest Real.sqrt Real.cos (Real.pi / 180) 48 (0, 0))
          { orientation := 0, ra := 3, dec := 4, pixscale := 1 }
          (Align.equipped GotoOption.slewR : Align ℝ)).1.alignCoord.ra
            - (Align.equipped GotoOption.slewR : Align ℝ).targetCoord.ra) ^ 2
        + ((solverFinished (Env.atRest Real.sqrt Real.cos (Real.pi / 180) 48 (0, 0))
          { orientation := 0, ra := 3, dec := 4, pixscale := 1 }
          (Align.equipped GotoOption.slewR : Align ℝ)).1.alignCoord.dec
            - (Align.equipped GotoOption.slewR : Align ℝ).targetCoord.dec) ^ 2) :=
  ⟨fun _ hx => Real.mul_self_sqrt hx,
    (solverFinished_targetDiff_planar _ _ _ (fun _ hx => Real.mul_self_sqrt hx)).2.2⟩

theorem calculatePolarError_effects (env : Env R) (initRA initDEC finalRA finalDEC initAz : R)
    (s : Align R) :
    (calculatePolarError env initRA initDEC finalRA finalDEC initAz s).2 =
      (if s.azStage = AZStage.AZ_FINISHED then
        [Effect.azError
          (deviationDirection (hemisphere env) (horizon initAz) s.azStage s.altStage
            (finalDEC - initDEC))
          |polarDeviation env initRA initDEC finalRA finalDEC|] else []) ++
      (if s.altStage = ALTStage.ALT_FINISHED then
        [Effect.altError
          (deviationDirection (hemisphere env) (horizon initAz) s.azStage s.altStage
            (finalDEC - initDEC))
          |polarDeviation env initRA initDEC finalRA finalDEC|] else []) := by
  rfl

/-- C5. `calculatePolarError` stores `decDeviation = finalDEC - initDEC`, takes
`RATime = |finalRA - initRA| * 60` and computes
`deviation = (3.81 * decDeviation * 3600) / (RATime * cos (initDEC * DegToRad)) / 60`,
which is `3.81 * decDeviation / (|finalRA - initRA| * cos (initDEC * DegToRad))`;
the offset stored for the finished axis is this value times the sign factor.
The constant `SIDRATE` does not occur. -/
theorem calculatePolarError_deviation (env : Env R)
    (initRA initDEC finalRA finalDEC initAz : R) (s : Align R)
    (hra : finalRA ≠ initRA) (hcos : env.cos (initDEC * env.DegToRad) ≠ 0) :
    (calculatePolarError env initRA initDEC finalRA finalDEC initAz s).1.decDeviation
        = finalDEC - initDEC
    ∧ polarRATime initRA finalRA = |finalRA - initRA| * 60
    ∧ polarDeviation env initRA initDEC finalRA finalDEC
        = (3.81 * ((finalDEC - initDEC) * 3600))
            / (polarRATime initRA finalRA * env.cos (initDEC * env.DegToRad)) / 60
    ∧ polarDeviation env initRA initDEC finalRA finalDEC
        = 3.81 * (finalDEC - initDEC)
            / (|finalRA - initRA| * env.cos (initDEC * env.DegToRad))
    ∧ (s.azStage = AZStage.AZ_FINISHED →
        (calculatePolarError env initRA initDEC finalRA finalDEC initAz s).1.azDeviation
          = 3.81 * (finalDEC - initDEC)
              / (|finalRA - initRA| * env.cos (initDEC * env.DegToRad))
            * (if finalDEC - initDEC > 0 then 1 else -1))
    ∧ (s.altStage = ALTStage.ALT_FINISHED →
        (calculatePolarError env initRA initDEC finalRA finalDEC initAz s).1.altDeviation
          = 3.81 * (finalDEC - initDEC)
              / (|finalRA - initRA| * env.cos (initDEC * env.DegToRad))
            * (if finalDEC - initDEC > 0 then 1 else -1)) := by
  have hm : |finalRA - initRA| ≠ 0 := abs_ne_zero.2 (sub_ne_zero.2 hra)
  have key : polarDeviation env initRA initDEC finalRA finalDEC
        = 3.81 * (finalDEC - initDEC)
            / (|finalRA - initRA| * env.cos (initDEC * env.DegToRad)) := by
    unfold polarDeviation polarRATime
    field_simp
    ring
  refine ⟨?_, rfl, rfl, key, ?_, ?_⟩
  · unfold calculatePolarError
    simp only []
    split_ifs <;> rfl
  · intro h
    rw [← key]
    unfold calculatePolarError
    simp only [h, if_true]
    first | rfl | (split_ifs <;> rfl)
  · intro h
    rw [← key]
    unfold calculatePolarError
    simp only [h, if_true]

/-- Witness for C5: a frame pair 0.5 degrees apart in RA on the equator, with
the cosine taken as 1 there. -/
theorem calculatePolarError_deviation_witness :
    ((9.5 : ℚ) ≠ 10
      ∧ (Env.atRest Rat.sqrt (fun _ => 1) 0 48 (0, 0) : Env ℚ).cos
          (0 * (Env.atRest Rat.sqrt (fun _ => 1) 0 48 (0, 0) : Env ℚ).DegToRad) ≠ 0)
    ∧ polarDeviation (Env.atRest Rat.sqrt (fun _ => 1) 0 48 (0, 0) : Env ℚ) 10 0 9.5 0.01
        = 3.81 * (0.01 - 0)
            / (|9.5 - 10| * (Env.atRest Rat.sqrt (fun _ => 1) 0 48 (0, 0) : Env ℚ).cos
                (0 * (Env.atRest Rat.sqrt (fun _ => 1) 0 48 (0, 0) : Env ℚ).DegToRad)) :=
  ⟨⟨by norm_num, by simp [Env.atRest]⟩,
    (calculatePolarError_deviation (Env.atRest Rat.sqrt (fun _ => 1) 0 48 (0, 0)) 10 0 9.5 0.01 0
      (Align.equipped GotoOption.syncR) (by norm_num) (by simp [Env.atRest])).2.2.2.1⟩

/-- C6. When the azimuth axis is the finished one, `calculatePolarError`
reports: northern hemisphere, `decDeviation > 0` too far west and
`decDeviation < 0` too far east; southern hemisphere, `decDeviation > 0` too
far east and `decDeviation < 0` too far west; the outcome does not depend on
`initAz`. -/
theorem calculatePolarError_azimuth_direction (env : Env R)
    (initRA initDEC finalRA finalDEC initAz : R) (s : Align R)
    (haz : s.azStage = AZStage.AZ_FINISHED) :
    (0 < env.lat → 0 < finalDEC - initDEC →
      Effect.azError (some Direction.tooFarWest)
          |polarDeviation env initRA initDEC finalRA finalDEC|
        ∈ (calculatePolarError env initRA initDEC finalRA finalDEC initAz s).2)
    ∧ (0 < env.lat → finalDEC - initDEC < 0 →
      Effect.azError (some Direction.tooFarEast)
          |polarDeviation env initRA initDEC finalRA finalDEC|
        ∈ (calculatePolarError env initRA initDEC finalRA finalDEC initAz s).2)
    ∧ (env.lat ≤ 0 → 0 < finalDEC - initDEC →
      Effect.azError (some Direction.tooFarEast)
          |polarDeviation env initRA initDEC finalRA finalDEC|
        ∈ (calculatePolarError env initRA initDEC finalRA finalDEC initAz s).2)
    ∧ (env.lat ≤ 0 → finalDEC - initDEC < 0 →
      Effect.azError (some Direction.tooFarWest)
          |polarDeviation env initRA initDEC finalRA finalDEC|
        ∈ (calculatePolarError env initRA initDEC finalRA finalDEC initAz s).2)
    ∧ (∀ otherAz : R,
        calculatePolarError env initRA initDEC finalRA finalDEC otherAz s
          = calculatePolarError env initRA initDEC finalRA finalDEC initAz s) := by
  have hdir : ∀ az : R, deviationDirection (hemisphere env) (horizon az) s.azStage s.altStage
      (finalDEC - initDEC)
      = if 0 < env.lat then
          (if finalDEC - initDEC > 0 then some Direction.tooFarWest
            else some Direction.tooFarEast)
        else
          (if finalDEC - initDEC > 0 then some Direction.tooFarEast
            else some Direction.tooFarWest) := by
    intro az
    unfold hemisphere
    by_cases hl : 0 < env.lat
    · simp [hl, deviationDirection, haz]
    · simp [hl, deviationDirection, haz]
  refine ⟨?_, ?_, ?_, ?_, ?_⟩
  · intro hl hd
    rw [calculatePolarError_effects, hdir]
    simp [haz, hl, hd]
  · intro hl hd
    rw [calculatePolarError_effects, hdir]
    simp [haz, hl, not_lt.2 hd.le]
  · intro hl hd
    rw [calculatePolarError_effects, hdir]
    simp [haz, not_lt.2 hl, hd]
  · intro hl hd
    rw [calculatePolarError_effects, hdir]
    simp [haz, not_lt.2 hl, not_lt.2 hd.le]
  · intro az
    unfold calculatePolarError
    simp only [hdir]

/-- Witness for C6: northern site, declination grew between the frames. -/
theorem calculatePolarError_azimuth_direction_witness :
    ({ (Align.equipped GotoOption.syncR : Align ℚ) with
        azStage := AZStage.AZ_FINISHED }).azStage = AZStage.AZ_FINISHED
    ∧ ((0 : ℚ) < (Env.atRest Rat.sqrt (fun _ => 1) 0 48 (0, 0) : Env ℚ).lat →
        (0 : ℚ) < 0.01 - 0 →
        Effect.azError (some Direction.tooFarWest)
            |polarDeviation (Env.atRest Rat.sqrt (fun _ => 1) 0 48 (0, 0) : Env ℚ) 10 0 9.5 0.01|
          ∈ (calculatePolarError (Env.atRest Rat.sqrt (fun _ => 1) 0 48 (0, 0) : Env ℚ)
              10 0 9.5 0.01 180
              { (Align.equipped GotoOption.syncR : Align ℚ) with
                azStage := AZStage.AZ_FINISHED }).2) :=
  ⟨rfl, (calculatePolarError_azimuth_direction _ 10 0 9.5 0.01 180 _ rfl).1⟩

/-- C7. When the altitude axis is the finished one and the azimuth axis is
not, the mount counts as east exactly when `0 < initAz` and `initAz ≤ 180`,
and `calculatePolarError` reports: north and east, `decDeviation > 0` high and
`< 0` low; north and west, `> 0` low and `< 0` high; south and east, `> 0` low
and `< 0` high; south and west, `> 0` high and `< 0` low.  The wording chosen
is always high or low, and it flips when the hemisphere or the horizon side
is swapped. -/
theorem calculatePolarError_altitude_direction (env : Env R)
    (initRA initDEC finalRA finalDEC initAz : R) (s : Align R)
    (halt : s.altStage = ALTStage.ALT_FINISHED) (haz : s.azStage ≠ AZStage.AZ_FINISHED) :
    (horizon initAz = 0 ↔ (0 < initAz ∧ initAz ≤ 180))
    ∧ horizon (180 : R) = 0 ∧ horizon (0 : R) = 1
    ∧ Effect.altError
        (deviationDirection (hemisphere env) (horizon initAz) s.azStage s.altStage
          (finalDEC - initDEC))
        |polarDeviation env initRA initDEC finalRA finalDEC|
        ∈ (calculatePolarError env initRA initDEC finalRA finalDEC initAz s).2
    ∧ (0 < env.lat → (0 < initAz ∧ initAz ≤ 180) →
        (0 < finalDEC - initDEC →
          deviationDirection (hemisphere env) (horizon initAz) s.azStage s.altStage
            (finalDEC - initDEC) = some Direction.tooFarHigh)
        ∧ (finalDEC - initDEC < 0 →
          deviationDirection (hemisphere env) (horizon initAz) s.azStage s.altStage
            (finalDEC - initDEC) = some Direction.tooFarLow))
    ∧ (0 < env.lat → ¬ (0 < initAz ∧ initAz ≤ 180) →
        (0 < finalDEC - initDEC →
          deviationDirection (hemisphere env) (horizon initAz) s.azStage s.altStage
            (finalDEC - initDEC) = some Direction.tooFarLow)
        ∧ (finalDEC - initDEC < 0 →
          deviationDirection (hemisphere env) (horizon initAz) s.azStage s.altStage
            (finalDEC - initDEC) = some Direction.tooFarHigh))
    ∧ (env.lat ≤ 0 → (0 < initAz ∧ initAz ≤ 180) →
        (0 < finalDEC - initDEC →
          deviationDirection (hemisphere env) (horizon initAz) s.azStage s.altStage
            (finalDEC - initDEC) = some Direction.tooFarLow)
        ∧ (finalDEC - initDEC < 0 →
          deviationDirection (hemisphere env) (horizon initAz) s.azStage s.altStage
            (finalDEC - initDEC) = some Direction.tooFarHigh))
    ∧ (env.lat ≤ 0 → ¬ (0 < initAz ∧ initAz ≤ 180) →
        (0 < finalDEC - initDEC →
          deviationDirection (hemisphere env) (horizon initAz) s.azStage s.altStage
            (finalDEC - initDEC) = some Direction.tooFarHigh)
        ∧ (finalDEC - initDEC < 0 →
          deviationDirection (hemisphere env) (horizon initAz) s.azStage s.altStage
            (finalDEC - initDEC) = some Direction.tooFarLow))
    ∧ (deviationDirection (hemisphere env) (horizon initAz) s.azStage s.altStage
          (finalDEC - initDEC) = some Direction.tooFarHigh
        ∨ deviationDirection (hemisphere env) (horizon initAz) s.azStage s.altStage
          (finalDEC - initDEC) = some Direction.tooFarLow)
    ∧ (∀ other : Env R, hemisphere other ≠ hemisphere env →
        deviationDirection (hemisphere other) (horizon initAz) s.azStage s.altStage
            (finalDEC - initDEC)
          ≠ deviationDirection (hemisphere env) (horizon initAz) s.azStage s.altStage
            (finalDEC - initDEC)
        ∧ (deviationDirection (hemisphere other) (horizon initAz) s.azStage s.altStage
              (finalDEC - initDEC) = some Direction.tooFarHigh
          ∨ deviationDirection (hemisphere other) (horizon initAz) s.azStage s.altStage
              (finalDEC - initDEC) = some Direction.tooFarLow))
    ∧ (∀ otherAz : R, horizon otherAz ≠ horizon initAz →
        deviationDirection (hemisphere env) (horizon otherAz) s.azStage s.altStage
            (finalDEC - initDEC)
          ≠ deviationDirection (hemisphere env) (horizon initAz) s.azStage s.altStage
            (finalDEC - initDEC)
        ∧ (deviationDirection (hemisphere env) (horizon otherAz) s.azStage s.altStage
              (finalDEC - initDEC) = some Direction.tooFarHigh
          ∨ deviationDirection (hemisphere env) (horizon otherAz) s.azStage s.altStage
              (finalDEC - initDEC) = some Direction.tooFarLow)) := by
  have hhor : ∀ az : R, horizon az = 0 ∨ horizon az = 1 := by
    intro az; unfold horizon; split_ifs <;> simp
  have hhem : ∀ e : Env R, hemisphere e = 0 ∨ hemisphere e = 1 := by
    intro e; unfold hemisphere; split_ifs <;> simp
  have hN : ∀ e : Env R, 0 < e.lat → hemisphere e = 0 := by
    intro e h; unfold hemisphere; rw [if_pos h]
  have hS : ∀ e : Env R, e.lat ≤ 0 → hemisphere e = 1 := by
    intro e h; unfold hemisphere; rw [if_neg (not_lt.2 h)]
  have hE : ∀ az : R, (0 < az ∧ az ≤ 180) → horizon az = 0 := by
    intro az h; unfold horizon; rw [if_pos h]
  have hW : ∀ az : R, ¬ (0 < az ∧ az ≤ 180) → horizon az = 1 := by
    intro az h; unfold horizon; rw [if_neg h]
  refine ⟨?_, ?_, ?_, ?_, ?_, ?_, ?_, ?_, ?_, ?_, ?_⟩
  · unfold horizon; split_ifs with h <;> simp [h]
  · exact hE 180 ⟨by norm_num, le_refl _⟩
  · exact hW 0 (fun h => lt_irrefl _ h.1)
  · rw [calculatePolarError_effects]
    simp [halt]
  · intro hl he
    rw [hN env hl, hE initAz he]
    constructor
    · intro hd; simp [deviationDirection, haz, halt, hd]
    · intro hd; simp [deviationDirection, haz, halt, not_lt.2 hd.le]
  · intro hl he
    rw [hN env hl, hW initAz he]
    constructor
    · intro hd; simp [deviationDirection, haz, halt, hd]
    · intro hd; simp [deviationDirection, haz, halt, not_lt.2 hd.le]
  · intro hl he
    rw [hS env hl, hE initAz he]
    constructor
    · intro hd; simp [deviationDirection, haz, halt, hd]
    · intro hd; simp [deviationDirection, haz, halt, not_lt.2 hd.le]
  · intro hl he
    rw [hS env hl, hW initAz he]
    constructor
    · intro hd; simp [deviationDirection, haz, halt, hd]
    · intro hd; simp [deviationDirection, haz, halt, not_lt.2 hd.le]
  · rcases hhem env with h | h <;> rcases hhor initAz with h2 | h2 <;>
      rw [h, h2] <;> by_cases hd : finalDEC - initDEC > 0 <;>
      simp [deviationDirection, haz, halt, hd]
  · intro other hne
    rcases hhem env with h | h <;> rcases hhem other with h1 | h1 <;>
      rcases hhor initAz with h2 | h2 <;> rw [h, h1] at hne <;>
      first
      | exact absurd rfl hne
      | (rw [h, h1, h2]; by_cases hd : finalDEC - initDEC > 0 <;>
          simp [deviationDirection, haz, halt, hd])
  · intro otherAz hne
    rcases hhem env with h | h <;> rcases hhor otherAz with h1 | h1 <;>
      rcases hhor initAz with h2 | h2 <;> rw [h1, h2] at hne <;>
      first
      | exact absurd rfl hne
      | (rw [h, h1, h2]; by_cases hd : finalDEC - initDEC > 0 <;>
          simp [deviationDirection, haz, halt, hd])

/-- Witness for C7: northern site, first frame due east (azimuth 90). -/
theorem calculatePolarError_altitude_direction_witness :
    (({ (Align.equipped GotoOption.syncR : Align ℚ) with
        altStage := ALTStage.ALT_FINISHED }).altStage = ALTStage.ALT_FINISHED
      ∧ ({ (Align.equipped GotoOption.syncR : Align ℚ) with
        altStage := ALTStage.ALT_FINISHED }).azStage ≠ AZStage.AZ_FINISHED)
    ∧ (horizon (90 : ℚ) = 0 ↔ ((0 : ℚ) < 90 ∧ (90 : ℚ) ≤ 180)) :=
  ⟨⟨rfl, by decide⟩,
    (calculatePolarError_altitude_direction
      (Env.atRest Rat.sqrt (fun _ => 1) 0 48 (0, 0) : Env ℚ) 10 0 9.5 0.01 90
      { (Align.equipped GotoOption.syncR : Align ℚ) with altStage := ALTStage.ALT_FINISHED }
      rfl (by decide)).1⟩

/-- C8. `abort` resets the session (both polar stages at Init, no load-and-slew,
idle load state, solver flags false, no pending slew to target, zero
iterations and retries) and is idempotent: a second `abort`, whatever the
collaborators answer then, leaves every field as the first one set it. -/
theorem abort_resets_and_is_idempotent (env env2 : Env R) (s : Align R) :
    (abort env s).1.azStage = AZStage.AZ_INIT
    ∧ (abort env s).1.altStage = ALTStage.ALT_INIT
    ∧ (abort env s).1.loadSlewMode = false
    ∧ (abort env s).1.loadSlewState = IPState.IPS_IDLE
    ∧ (abort env s).1.m_isSolverComplete = false
    ∧ (abort env s).1.m_isSolverSuccessful = false
    ∧ (abort env s).1.m_slewToTargetSelected = false
    ∧ (abort env s).1.solverIterations = 0
    ∧ (abort env s).1.retries = 0
    ∧ (abort env2 (abort env s).1).1 = (abort env s).1 := by
  refine ⟨rfl, rfl, rfl, rfl, rfl, rfl, rfl, rfl, rfl, rfl⟩

/-- C10. When the focal length, the aperture or a pixel size still holds the
sentinel -1, `captureAndSolve` returns false, sends no exposure request and
no filter command, and changes no field but `m_isSolverComplete`, which it
sets to false. -/
theorem captureAndSolve_unknown_geometry (env : Env R) (s : Align R)
    (h : s.focal_length = -1 ∨ s.aperture = -1 ∨ s.ccd_hor_pixel = -1
      ∨ s.ccd_ver_pixel = -1) :
    (captureAndSolve env s).1 = false
    ∧ (captureAndSolve env s).2.1 = { s with m_isSolverComplete := false }
    ∧ ∀ e ∈ (captureAndSolve env s).2.2, e.isCapture = false ∧ e.isFilterCommand = false := by
  unfold captureAndSolve
  by_cases h1 : s.hasCCD = false
  · simp [h1]
  by_cases h2 : env.parserInit = false
  · simp [h1, h2]
  by_cases h3 : s.focal_length = -1 ∨ s.aperture = -1
  · simp [h1, h2, h3, Effect.isCapture, Effect.isFilterCommand]
  have h4 : s.ccd_hor_pixel = -1 ∨ s.ccd_ver_pixel = -1 := by
    rcases h with h | h | h | h
    · exact absurd (Or.inl h) h3
    · exact absurd (Or.inr h) h3
    · exact Or.inl h
    · exact Or.inr h
  simp [h1, h2, h3, h4, Effect.isCapture, Effect.isFilterCommand]

/-- Witness for C10: a freshly constructed controller knows no optics yet. -/
theorem captureAndSolve_unknown_geometry_witness :
    ((Align.fresh GotoOption.syncR : Align ℚ).focal_length = -1
      ∨ (Align.fresh GotoOption.syncR : Align ℚ).aperture = -1
      ∨ (Align.fresh GotoOption.syncR : Align ℚ).ccd_hor_pixel = -1
      ∨ (Align.fresh GotoOption.syncR : Align ℚ).ccd_ver_pixel = -1)
    ∧ ((captureAndSolve (Env.atRest Rat.sqrt (fun _ => 1) 0 48 (0, 0))
          (Align.fresh GotoOption.syncR : Align ℚ)).1 = false
      ∧ (captureAndSolve (Env.atRest Rat.sqrt (fun _ => 1) 0 48 (0, 0))
          (Align.fresh GotoOption.syncR : Align ℚ)).2.1
          = { (Align.fresh GotoOption.syncR : Align ℚ) with m_isSolverComplete := false }
      ∧ ∀ e ∈ (captureAndSolve (Env.atRest Rat.sqrt (fun _ => 1) 0 48 (0, 0))
          (Align.fresh GotoOption.syncR : Align ℚ)).2.2,
          e.isCapture = false ∧ e.isFilterCommand = false) :=
  ⟨Or.inl rfl, captureAndSolve_unknown_geometry _ _ (Or.inl rfl)⟩

theorem Align.sameSetup_refl (s : Align R) : s.sameSetup s :=
  ⟨rfl, rfl, rfl, rfl, rfl, rfl, rfl, rfl, rfl, rfl, rfl⟩

theorem Align.canCapture_of_sameSetup {a b : Align R} (h : a.sameSetup b)
    (hb : b.canCapture) : a.canCapture := by
  unfold Align.sameSetup at h
  unfold Align.canCapture at *
  obtain ⟨_, _, h3, h4, h5, h6, h7, h8, h9, h10, h11⟩ := h
  rw [h3, h4, h5, h6, h7, h8, h9, h10, h11]
  exact hb

theorem startSovling_slewLoop (env : Env R) (s : Align R) (n : Int) (h : s.slewLoop n) :
    (startSovling env s).1.slewLoop n
    ∧ (startSovling env s).1.accuracy = s.accuracy
    ∧ ∀ e ∈ (startSovling env s).2, e.isFailure = false ∧ e.isCapture = false := by
  unfold startSovling
  refine ⟨?_, ?_, ?_⟩
  · simp only []
    split_ifs <;> exact h
  · simp only []
    split_ifs <;> rfl
  · simp only []
    split_ifs <;> simp [Effect.isFailure, Effect.isCapture]

theorem solverLogs_no_capture (env : Env R) (r : SolveResult R) (s : Align R) :
    ∀ e ∈ solverLogs env r s, e.isCapture = false := by
  unfold solverLogs
  split_ifs <;> simp [Effect.isCapture]

theorem solverWcs_no_capture (env : Env R) (r : SolveResult R) (s : Align R) :
    ∀ e ∈ (solverWcs env r s).2, e.isCapture = false := by
  unfold solverWcs
  split_ifs <;> simp [Effect.isCapture]

theorem solverVerdict_no_capture (s : Align R) :
    ∀ e ∈ (solverVerdict s).2, e.isCapture = false := by
  unfold solverVerdict
  split_ifs <;> simp [Effect.isCapture]

theorem solverOutcome_sameSetup (env : Env R) (r : SolveResult R) (s : Align R) :
    (solverOutcome env r s).1.sameSetup s
    ∧ (solverOutcome env r s).1.slew_dirty = s.slew_dirty
    ∧ (solverOutcome env r s).1.accuracy = s.accuracy
    ∧ ∀ e ∈ (solverOutcome env r s).2, e.isCapture = false := by
  refine ⟨?_, ?_, ?_, ?_⟩
  · rw [solverOutcome_state]
    split_ifs <;> exact Align.sameSetup_refl _
  · rw [solverOutcome_state]
    split_ifs <;> rfl
  · rw [solverOutcome_state]
    split_ifs <;> rfl
  · unfold solverOutcome
    simp only [List.forall_mem_append]
    refine ⟨⟨⟨⟨solverLogs_no_capture env r s, solverWcs_no_capture env r _⟩, ?_⟩,
      solverVerdict_no_capture _⟩, ?_⟩
    · split_ifs <;> simp [Effect.isCapture]
    · split_ifs <;> simp [Effect.isCapture]

theorem executeGOTO_sameSetup (env : Env R) (s : Align R) :
    (executeGOTO env s).1.sameSetup s
    ∧ (executeGOTO env s).1.slew_dirty = s.slew_dirty := by
  unfold executeGOTO SlewToTarget Sync
  split_ifs <;> exact ⟨Align.sameSetup_refl _, rfl⟩

theorem Align.sameSetup_trans {a b c : Align R} (h1 : a.sameSetup b) (h2 : b.sameSetup c) :
    a.sameSetup c := by
  unfold Align.sameSetup at *
  obtain ⟨a1, a2, a3, a4, a5, a6, a7, a8, a9, a10, a11⟩ := h1
  obtain ⟨b1, b2, b3, b4, b5, b6, b7, b8, b9, b10, b11⟩ := h2
  exact ⟨a1.trans b1, a2.trans b2, a3.trans b3, a4.trans b4, a5.trans b5, a6.trans b6,
    a7.trans b7, a8.trans b8, a9.trans b9, a10.trans b10, a11.trans b11⟩

theorem Effect.isFailure_eq_true (e : Effect R) :
    e.isFailure = true ↔ e = Effect.solverComplete false := by
  cases e <;> simp [Effect.isFailure]
  rename_i b
  cases b <;> simp [Effect.isFailure]

theorem solverFinished_no_failure (env : Env R) (r : SolveResult R) (s : Align R) :
    ∀ e ∈ (solverFinished env r s).2, e.isFailure = false := by
  intro e he
  by_contra hc
  have h1 : e.isFailure = true := by
    cases h : e.isFailure
    · exact absurd h hc
    · rfl
  rw [Effect.isFailure_eq_true] at h1
  rw [h1] at he
  have := ((mem_solverFinished_complete env r s false).1 he).1
  exact Bool.noConfusion this

theorem solverFinished_goto_no_capture (env : Env R) (r : SolveResult R) (s : Align R) :
    ∀ e ∈ (solverFinished env r s).2, e.isCapture = false := by
  unfold solverFinished Out.andThen
  intro e he
  rcases List.mem_append.1 he with he | he
  · exact (solverOutcome_sameSetup env r s).2.2.2 e he
  · exact ((executeMode_sameSolve env _).2 e he).2

theorem solverFinished_slewLoop (env : Env R) (r : SolveResult R) (s : Align R) (n : Int)
    (h : s.slewLoop n) (hfar : s.accuracy < (solverFinished env r s).1.targetDiff) :
    (solverFinished env r s).1.slewLoop n
    ∧ (solverFinished env r s).1.m_slewToTargetSelected = true
    ∧ (solverFinished env r s).1.accuracy = s.accuracy
    ∧ ∀ e ∈ (solverFinished env r s).2, e.isFailure = false ∧ e.isCapture = false := by
  obtain ⟨hgoto, hslew, hupd, hload, hdirty, hiter, hcap⟩ := h
  rw [(solverFinished_diff_eq env r s).1] at hfar
  have hn : ¬ (s.gotoOption = GotoOption.syncR ∨ s.gotoOption = GotoOption.nothingR
      ∨ computeTargetDiff env (solvedCoord env r s.alignCoord) s.targetCoord ≤ s.accuracy) := by
    rw [hslew]; simpa using hfar
  have hst := solverOutcome_state env r s
  rw [if_neg hn] at hst
  obtain ⟨f1, f2, f3⟩ := solverOutcome_frame env r s
  obtain ⟨g1, g2, g3, _⟩ := solverOutcome_sameSetup env r s
  have hg : (solverOutcome env r s).1.gotoR = true := by rw [f1, hgoto]
  have hs : (solverOutcome env r s).1.gotoOption = GotoOption.slewR := by rw [f2, hslew]
  have hfin : (solverFinished env r s).1 = (executeGOTO env (solverOutcome env r s).1).1 := by
    unfold solverFinished Out.andThen executeMode
    rw [if_pos hg]
  obtain ⟨k1, k2⟩ := executeGOTO_sameSetup env (solverOutcome env r s).1
  obtain ⟨_, _, _, _, _, _, _, m8, _, m10, _, m12, m13⟩ :=
    (executeGOTO_sameSolve env (solverOutcome env r s).1).1
  have hset : (solverFinished env r s).1.sameSetup s := by
    rw [hfin]; exact Align.sameSetup_trans k1 g1
  refine ⟨⟨?_, ?_, ?_, ?_, ?_, ?_, ?_⟩, ?_, ?_, ?_⟩
  · rw [hset.1, hgoto]
  · rw [hfin, m12, hs]
  · rw [hset.2.1, hupd]
  · rw [hfin, m10, f3, hload]
  · rw [hfin, k2, g2, hdirty]
  · rw [hfin, m8, hst]; exact hiter
  · exact Align.canCapture_of_sameSetup hset hcap
  · rw [hfin]; exact (executeGOTO_slew env _ hs).1
  · rw [hfin, m13, g3]
  · intro e he
    exact ⟨solverFinished_no_failure env r s e he, solverFinished_goto_no_capture env r s e he⟩

theorem telescopeAzStage_slewing (env : Env R) (s : Align R) (h : env.isSlewing = true) :
    (telescopeAzStage env s).2 = []
    ∧ (telescopeAzStage env s).1
        = { s with azStage :=
              if s.azStage = AZStage.AZ_SYNCING then AZStage.AZ_SLEWING else s.azStage } := by
  unfold telescopeAzStage
  cases hs : s.azStage <;>
    simp only [h, if_true, Bool.true_eq_false, if_false, reduceCtorEq, true_and] <;>
    first
    | rfl
    | (rw [← hs])

theorem telescopeAltStage_slewing (env : Env R) (s : Align R) (h : env.isSlewing = true) :
    (telescopeAltStage env s).2 = []
    ∧ (telescopeAltStage env s).1
        = { s with altStage :=
              if s.altStage = ALTStage.ALT_SYNCING then ALTStage.ALT_SLEWING
              else s.altStage } := by
  unfold telescopeAltStage
  cases hs : s.altStage <;>
    simp only [h, if_true, Bool.true_eq_false, if_false, reduceCtorEq, true_and] <;>
    first
    | rfl
    | (rw [← hs])

theorem processTelescopeNumber_slewing (env : Env R) (ra dec : R) (s : Align R) (n : Int)
    (hmove : env.isSlewing = true) (h : s.slewLoop n) :
    (processTelescopeNumber env ra dec s).2 = []
    ∧ (processTelescopeNumber env ra dec s).1.sameSetup s
    ∧ (processTelescopeNumber env ra dec s).1.sameSolve s
    ∧ (processTelescopeNumber env ra dec s).1.slew_dirty = true
    ∧ (processTelescopeNumber env ra dec s).1.m_slewToTargetSelected
        = s.m_slewToTargetSelected := by
  obtain ⟨hgoto, hslew, hupd, hload, hdirty, hiter, hcap⟩ := h
  refine ⟨?_, ?_, ?_, ?_, ?_⟩ <;> unfold processTelescopeNumber <;>
    simp only [storeTelescopeCoord, hupd, hmove, hdirty, if_true, and_self, telescopeStages,
      Out.andThen,
      telescopeAzStage_slewing _ _ hmove, telescopeAltStage_slewing _ _ hmove]
  · rfl
  · unfold Align.sameSetup
    simp only [hupd, and_self]
  · exact Align.sameSolve_refl _

theorem captureAndSolve_ready (env : Env R) (s : Align R)
    (hs : s.canCapture) (he : env.cameraReady) :
    (captureAndSolve env s).2.1.sameSetup s
    ∧ (captureAndSolve env s).2.1.gotoOption = s.gotoOption
    ∧ (captureAndSolve env s).2.1.loadSlewMode = s.loadSlewMode
    ∧ (captureAndSolve env s).2.1.slew_dirty = s.slew_dirty
    ∧ (captureAndSolve env s).2.1.solverIterations = s.solverIterations
    ∧ (captureAndSolve env s).2.1.accuracy = s.accuracy
    ∧ (captureAndSolve env s).2.1.m_slewToTargetSelected = s.m_slewToTargetSelected
    ∧ List.countP Effect.isCapture (captureAndSolve env s).2.2 = 1
    ∧ List.countP Effect.isFailure (captureAndSolve env s).2.2 = 0 := by
  obtain ⟨c1, c2, c3, c4, c5, c6, c7⟩ := hs
  obtain ⟨e1, e2, e3⟩ := he
  unfold captureAndSolve
  simp only [c1, c2, c3, c4, c5, c6, c7, e1, e2, e3, Bool.true_eq_false, if_false, or_self,
    Bool.false_eq_true]
  refine ⟨?_, ?_, ?_, ?_, ?_, ?_, ?_, ?_, ?_⟩
  · split_ifs <;> (unfold Align.sameSetup; simp [c1, c7])
  · split_ifs <;> rfl
  · split_ifs <;> rfl
  · split_ifs <;> rfl
  · split_ifs <;> rfl
  · split_ifs <;> rfl
  · split_ifs <;> rfl
  · split_ifs <;> simp [List.countP_cons, Effect.isCapture]
  · split_ifs <;> simp [List.countP_cons, Effect.isFailure]

theorem processTelescopeNumber_arrived (env : Env R) (ra dec : R) (s : Align R)
    (hstill : env.isSlewing = false) (hupd : s.solverUpdateCoords = true)
    (hdirty : s.slew_dirty = true) (hload : s.loadSlewMode = false)
    (hsel : s.m_slewToTargetSelected = true) (hfar : s.accuracy < s.targetDiff) :
    processTelescopeNumber env ra dec s =
      if s.solverIterations + 1 = MAXIMUM_SOLVER_ITERATIONS then
        Out.andThen
          ({ storeTelescopeCoord env ra dec s with
              slew_dirty := false
              solverIterations := s.solverIterations + 1 },
            [Effect.copyCoordsToBoxes, Effect.log Msg.maxIterations])
          solverFailed
      else
        Out.andThen
          ({ storeTelescopeCoord env ra dec s with
              slew_dirty := false
              solverIterations := s.solverIterations + 1 },
            [Effect.copyCoordsToBoxes, Effect.log Msg.accuracyNotMet])
          (fun x => (captureAndSolve env x).2) := by
  have hnle : ¬ s.targetDiff ≤ s.accuracy := not_le.2 hfar
  unfold processTelescopeNumber
  simp only [storeTelescopeCoord, hupd, hstill, hdirty, hload, hsel, hnle, if_true, if_false,
    and_self, Bool.false_eq_true, false_and, Bool.true_eq_false, and_false]
  split_ifs <;> rfl

theorem countP_eq_zero_of_quiet (p : Effect R → Bool) (l : List (Effect R))
    (h : ∀ e ∈ l, p e = false) : List.countP p l = 0 := by
  rw [List.countP_eq_zero]
  intro e he
  rw [h e he]
  exact Bool.false_ne_true

/-- One turn of the loop from a loop state with `n` iterations counted, with
the camera ready and the solve above the threshold: unless this is the tenth
iteration the turn ends with one exposure request and no failure; the tenth
ends with the failure and no exposure request. -/
theorem slewRound_step (rd : SlewRound R) (s : Align R) (n : Int)
    (h : s.slewLoop n) (hcam : rd.env.cameraReady) (hfar : s.accuracy < solveDiff rd s) :
    (n + 1 ≠ 10 →
      (slewRound rd s).1.slewLoop (n + 1)
      ∧ List.countP Effect.isFailure (slewRound rd s).2 = 0
      ∧ List.countP Effect.isCapture (slewRound rd s).2 = 1)
    ∧ (n + 1 = 10 →
      (slewRound rd s).1.m_isSolverComplete = true
      ∧ (slewRound rd s).1.m_isSolverSuccessful = false
      ∧ (slewRound rd s).1.m_slewToTargetSelected = false
      ∧ (slewRound rd s).1.solverIterations = 0
      ∧ List.countP Effect.isFailure (slewRound rd s).2 = 1
      ∧ List.countP Effect.isCapture (slewRound rd s).2 = 0) := by
  have hround : slewRound rd s =
      ((processTelescopeNumber { rd.env with isSlewing := false } rd.arrived.1 rd.arrived.2
          (processTelescopeNumber { rd.env with isSlewing := true } rd.moving.1 rd.moving.2
            (solverFinished rd.env rd.result (startSovling rd.env s).1).1).1).1,
        (startSovling rd.env s).2
          ++ (solverFinished rd.env rd.result (startSovling rd.env s).1).2
          ++ (processTelescopeNumber { rd.env with isSlewing := true } rd.moving.1 rd.moving.2
            (solverFinished rd.env rd.result (startSovling rd.env s).1).1).2
          ++ (processTelescopeNumber { rd.env with isSlewing := false } rd.arrived.1
            rd.arrived.2
            (processTelescopeNumber { rd.env with isSlewing := true } rd.moving.1 rd.moving.2
              (solverFinished rd.env rd.result (startSovling rd.env s).1).1).1).2) := rfl
  have hdiff : solveDiff rd s
      = (solverFinished rd.env rd.result (startSovling rd.env s).1).1.targetDiff := rfl
  rw [hround]
  rw [hdiff] at hfar
  -- startSovling
  obtain ⟨a1, a2, a3⟩ := startSovling_slewLoop rd.env s n h
  -- solverFinished
  have hfar1 : (startSovling rd.env s).1.accuracy
      < (solverFinished rd.env rd.result (startSovling rd.env s).1).1.targetDiff := by
    rw [a2]; exact hfar
  obtain ⟨b1, b2, b3, b4⟩ :=
    solverFinished_slewLoop rd.env rd.result (startSovling rd.env s).1 n a1 hfar1
  -- the update while the mount slews
  obtain ⟨c1, c2, c3, c4, c5⟩ :=
    processTelescopeNumber_slewing { rd.env with isSlewing := true } rd.moving.1 rd.moving.2
      (solverFinished rd.env rd.result (startSovling rd.env s).1).1 n rfl b1
  -- name the intermediate results
  generalize (startSovling rd.env s) = p1 at *
  generalize (solverFinished rd.env rd.result p1.1) = p2 at *
  generalize (processTelescopeNumber { rd.env with isSlewing := true } rd.moving.1
    rd.moving.2 p2.1) = p3 at *
  obtain ⟨bg, bo, bu, bl, _, bi, bc⟩ := b1
  obtain ⟨_, _, _, _, d5, _, _, d8, _, d10, _, d12, d13⟩ := c3
  have e3goto : p3.1.gotoR = true := by rw [c2.1, bg]
  have e3opt : p3.1.gotoOption = GotoOption.slewR := by rw [d12, bo]
  have e3upd : p3.1.solverUpdateCoords = true := by rw [c2.2.1, bu]
  have e3load : p3.1.loadSlewMode = false := by rw [d10, bl]
  have e3sel : p3.1.m_slewToTargetSelected = true := by rw [c5, b2]
  have e3far : p3.1.accuracy < p3.1.targetDiff := by
    rw [d13, d5, b3]; exact hfar1
  have e3iter : p3.1.solverIterations = n := by rw [d8, bi]
  have e3cap : p3.1.canCapture := Align.canCapture_of_sameSetup c2 bc
  have harr := processTelescopeNumber_arrived { rd.env with isSlewing := false }
    rd.arrived.1 rd.arrived.2 p3.1 rfl e3upd c4 e3load e3sel e3far
  rw [e3iter] at harr
  have q12 : List.countP Effect.isFailure (p1.2 ++ p2.2 ++ p3.2) = 0
      ∧ List.countP Effect.isCapture (p1.2 ++ p2.2 ++ p3.2) = 0 := by
    rw [c1, List.append_nil]
    constructor
    · apply countP_eq_zero_of_quiet
      intro e he
      rcases List.mem_append.1 he with he | he
      · exact (a3 e he).1
      · exact (b4 e he).1
    · apply countP_eq_zero_of_quiet
      intro e he
      rcases List.mem_append.1 he with he | he
      · exact (a3 e he).2
      · exact (b4 e he).2
  constructor
  · intro hne
    have hne2 : ¬ (n + 1 = MAXIMUM_SOLVER_ITERATIONS) := hne
    rw [if_neg hne2] at harr
    have hcap3 : ({ storeTelescopeCoord { rd.env with isSlewing := false } rd.arrived.1
        rd.arrived.2 p3.1 with
          slew_dirty := false, solverIterations := n + 1 } : Align R).canCapture := e3cap
    obtain ⟨k1, k2, k3, k4, k5, k6, k7, k8, k9⟩ :=
      captureAndSolve_ready { rd.env with isSlewing := false } _ hcap3 hcam
    rw [harr]
    simp only [Out.andThen, List.countP_append, q12.1, q12.2, k8, k9]
    refine ⟨⟨?_, ?_, ?_, ?_, ?_, ?_, ?_⟩, ?_, ?_⟩
    · rw [k1.1]; exact e3goto
    · rw [k2]; exact e3opt
    · rw [k1.2.1]; exact e3upd
    · rw [k3]; exact e3load
    · rw [k4]
    · rw [k5]
    · exact Align.canCapture_of_sameSetup k1 hcap3
    · simp [Effect.isFailure]
    · simp [Effect.isCapture]
  · intro heq
    have heq2 : n + 1 = MAXIMUM_SOLVER_ITERATIONS := heq
    rw [if_pos heq2] at harr
    rw [harr]
    simp only [Out.andThen, List.countP_append, q12.1, q12.2, solverFailed]
    refine ⟨trivial, trivial, trivial, trivial, ?_, ?_⟩
    · simp [Effect.isFailure]
    · simp [Effect.isCapture]

/-- The run from a loop state with `n` iterations counted, over rounds that
end at or before the tenth iteration. -/
theorem slewRun_counts (rounds : List (SlewRound R)) :
    ∀ (s : Align R) (n : Int), s.slewLoop n → (∀ rd ∈ rounds, rd.env.cameraReady) →
      alwaysAbove rounds s → n + rounds.length ≤ 10 →
      (n + rounds.length < 10 →
        (slewRun rounds s).1.slewLoop (n + rounds.length)
        ∧ List.countP Effect.isFailure (slewRun rounds s).2 = 0
        ∧ List.countP Effect.isCapture (slewRun rounds s).2 = rounds.length)
      ∧ (n + rounds.length = 10 → 0 < rounds.length →
        (slewRun rounds s).1.m_isSolverComplete = true
        ∧ (slewRun rounds s).1.m_isSolverSuccessful = false
        ∧ (slewRun rounds s).1.m_slewToTargetSelected = false
        ∧ (slewRun rounds s).1.solverIterations = 0
        ∧ List.countP Effect.isFailure (slewRun rounds s).2 = 1
        ∧ List.countP Effect.isCapture (slewRun rounds s).2 + 1 = rounds.length) := by
  induction rounds with
  | nil =>
    intro s n h _ _ _
    constructor
    · intro _
      simp only [slewRun, List.length_nil, Nat.cast_zero, add_zero, List.countP_nil]
      exact ⟨h, trivial, trivial⟩
    · intro _ hpos
      exact absurd hpos (lt_irrefl _)
  | cons rd rest ih =>
    intro s n h hcam habove hlen
    obtain ⟨hfar, hrest⟩ := habove
    obtain ⟨st1, st2⟩ := slewRound_step rd s n h (hcam rd (List.mem_cons_self _ _)) hfar
    have hcam2 : ∀ x ∈ rest, x.env.cameraReady :=
      fun x hx => hcam x (List.mem_cons_of_mem _ hx)
    simp only [List.length_cons, Nat.cast_add, Nat.cast_one] at hlen ⊢
    by_cases hten : n + 1 = 10
    · have hnil : rest = [] := by
        apply List.eq_nil_of_length_eq_zero
        omega
      subst hnil
      obtain ⟨t1, t2, t3, t4, t5, t6⟩ := st2 hten
      constructor
      · intro hlt
        simp only [List.length_nil, Nat.cast_zero] at hlt
        omega
      · intro _ _
        simp only [slewRun, Out.andThen, List.append_nil, List.length_nil, t5, t6]
        exact ⟨t1, t2, t3, t4, trivial, trivial⟩
    · obtain ⟨u1, u2, u3⟩ := st1 hten
      obtain ⟨ih1, ih2⟩ := ih (slewRound rd s).1 (n + 1) u1 hcam2 hrest (by omega)
      constructor
      · intro hlt
        obtain ⟨v1, v2, v3⟩ := ih1 (by omega)
        simp only [slewRun, Out.andThen, List.countP_append, u2, u3, v2, v3]
        refine ⟨?_, trivial, by omega⟩
        have e : n + ((rest.length : Int) + 1) = n + 1 + rest.length := by ring
        rw [e]; exact v1
      · intro heq _
        have hpos : 0 < rest.length := by omega
        obtain ⟨w1, w2, w3, w4, w5, w6⟩ := ih2 (by omega) hpos
        simp only [slewRun, Out.andThen, List.countP_append, u2, u3, w5]
        refine ⟨w1, w2, w3, w4, trivial, by omega⟩

theorem solveDiff_eq_separation (rd : SlewRound R) (s : Align R) :
    solveDiff rd s = separation rd.env rd.result
      (startSovling rd.env s).1.targetCoord.ra (startSovling rd.env s).1.targetCoord.dec := by
  unfold solveDiff
  rw [(solverFinished_diff_eq _ _ _).1]
  rfl

theorem startSovling_target (env : Env R) (s : Align R) :
    (startSovling env s).1.targetCoord.ra
        = (if s.solverIterations = 0 then dmsSetH env.eqCoords.1 else s.targetCoord.ra)
    ∧ (startSovling env s).1.targetCoord.dec
        = (if s.solverIterations = 0 then env.eqCoords.2 else s.targetCoord.dec) := by
  unfold startSovling
  simp only []
  split_ifs <;> exact ⟨rfl, rfl⟩

theorem solverFinished_slew_target (env : Env R) (r : SolveResult R) (s : Align R)
    (hgoto : s.gotoR = true) (hload : s.loadSlewMode = false) :
    (solverFinished env r s).1.targetCoord = s.targetCoord := by
  obtain ⟨f1, f2, f3⟩ := solverOutcome_frame env r s
  have hg : (solverOutcome env r s).1.gotoR = true := by rw [f1, hgoto]
  have hl : (solverOutcome env r s).1.loadSlewMode = false := by rw [f3, hload]
  have ht : (solverOutcome env r s).1.targetCoord = s.targetCoord := by
    rw [solverOutcome_state]
    split_ifs <;> rfl
  unfold solverFinished Out.andThen executeMode
  rw [if_pos hg, ← ht]
  unfold executeGOTO SlewToTarget Sync
  simp only [hl, Bool.false_eq_true, if_false]
  split_ifs <;> rfl

theorem processTelescopeNumber_slewing_target (env : Env R) (ra dec : R) (s : Align R)
    (n : Int) (hmove : env.isSlewing = true) (h : s.slewLoop n) :
    (processTelescopeNumber env ra dec s).1.targetCoord = s.targetCoord := by
  obtain ⟨hgoto, hslew, hupd, hload, hdirty, hiter, hcap⟩ := h
  unfold processTelescopeNumber
  simp only [storeTelescopeCoord, hupd, hmove, hdirty, if_true, and_self, telescopeStages,
    Out.andThen, telescopeAzStage_slewing _ _ hmove, telescopeAltStage_slewing _ _ hmove]

theorem captureAndSolve_ready_target (env : Env R) (s : Align R)
    (hs : s.canCapture) (he : env.cameraReady) :
    (captureAndSolve env s).2.1.targetCoord = s.targetCoord := by
  obtain ⟨c1, c2, c3, c4, c5, c6, c7⟩ := hs
  obtain ⟨e1, e2, e3⟩ := he
  unfold captureAndSolve
  simp only [c1, c2, c3, c4, c5, c6, c7, e1, e2, e3, Bool.true_eq_false, if_false, or_self,
    Bool.false_eq_true]
  split_ifs <;> rfl

/-- After a turn that is not the tenth, the target and the threshold are those
the solve of that turn was compared against. -/
theorem slewRound_target (rd : SlewRound R) (s : Align R) (n : Int)
    (h : s.slewLoop n) (hcam : rd.env.cameraReady) (hfar : s.accuracy < solveDiff rd s)
    (hne : n + 1 ≠ 10) :
    (slewRound rd s).1.targetCoord = (startSovling rd.env s).1.targetCoord
    ∧ (slewRound rd s).1.accuracy = s.accuracy := by
  have hround : (slewRound rd s).1 =
      (processTelescopeNumber { rd.env with isSlewing := false } rd.arrived.1 rd.arrived.2
          (processTelescopeNumber { rd.env with isSlewing := true } rd.moving.1 rd.moving.2
            (solverFinished rd.env rd.result (startSovling rd.env s).1).1).1).1 := rfl
  have hdiff : solveDiff rd s
      = (solverFinished rd.env rd.result (startSovling rd.env s).1).1.targetDiff := rfl
  rw [hround]
  rw [hdiff] at hfar
  obtain ⟨a1, a2, a3⟩ := startSovling_slewLoop rd.env s n h
  have hfar1 : (startSovling rd.env s).1.accuracy
      < (solverFinished rd.env rd.result (startSovling rd.env s).1).1.targetDiff := by
    rw [a2]; exact hfar
  obtain ⟨b1, b2, b3, b4⟩ :=
    solverFinished_slewLoop rd.env rd.result (startSovling rd.env s).1 n a1 hfar1
  have bt := solverFinished_slew_target rd.env rd.result (startSovling rd.env s).1 a1.1
    a1.2.2.2.1
  obtain ⟨c1, c2, c3, c4, c5⟩ :=
    processTelescopeNumber_slewing { rd.env with isSlewing := true } rd.moving.1 rd.moving.2
      (solverFinished rd.env rd.result (startSovling rd.env s).1).1 n rfl b1
  have ct := processTelescopeNumber_slewing_target { rd.env with isSlewing := true }
    rd.moving.1 rd.moving.2
    (solverFinished rd.env rd.result (startSovling rd.env s).1).1 n rfl b1
  generalize (startSovling rd.env s) = p1 at *
  generalize (solverFinished rd.env rd.result p1.1) = p2 at *
  generalize (processTelescopeNumber { rd.env with isSlewing := true } rd.moving.1
    rd.moving.2 p2.1) = p3 at *
  obtain ⟨bg, bo, bu, bl, _, bi, bc⟩ := b1
  obtain ⟨_, _, _, _, d5, _, _, d8, _, d10, _, d12, d13⟩ := c3
  have e3upd : p3.1.solverUpdateCoords = true := by rw [c2.2.1, bu]
  have e3load : p3.1.loadSlewMode = false := by rw [d10, bl]
  have e3sel : p3.1.m_slewToTargetSelected = true := by rw [c5, b2]
  have e3far : p3.1.accuracy < p3.1.targetDiff := by
    rw [d13, d5, b3]; exact hfar1
  have e3iter : p3.1.solverIterations = n := by rw [d8, bi]
  have e3cap : p3.1.canCapture := Align.canCapture_of_sameSetup c2 bc
  have harr := processTelescopeNumber_arrived { rd.env with isSlewing := false }
    rd.arrived.1 rd.arrived.2 p3.1 rfl e3upd c4 e3load e3sel e3far
  rw [e3iter] at harr
  have hne2 : ¬ (n + 1 = MAXIMUM_SOLVER_ITERATIONS) := hne
  rw [if_neg hne2] at harr
  have hcap3 : ({ storeTelescopeCoord { rd.env with isSlewing := false } rd.arrived.1
      rd.arrived.2 p3.1 with
        slew_dirty := false, solverIterations := n + 1 } : Align R).canCapture := e3cap
  obtain ⟨k1, k2, k3, k4, k5, k6, k7, k8, k9⟩ :=
    captureAndSolve_ready { rd.env with isSlewing := false } _ hcap3 hcam
  have kt := captureAndSolve_ready_target { rd.env with isSlewing := false } _ hcap3 hcam
  rw [harr]
  simp only [Out.andThen]
  constructor
  · rw [kt]
    show p3.1.targetCoord = p1.1.targetCoord
    rw [ct, bt]
  · rw [k6]
    show p3.1.accuracy = s.accuracy
    rw [d13, b3, a2]

/-- When every solution lies further than the threshold from the point `T`,
and the session target is `T` (the mount position at the first solve, or
the target already held once iterations have been counted), every solve of
the run is above the threshold. -/
theorem alwaysAbove_of_separation (tra tdec : R) (rounds : List (SlewRound R)) :
    ∀ (s : Align R) (n : Int), s.slewLoop n → (∀ rd ∈ rounds, rd.env.cameraReady) →
      n + rounds.length ≤ 10 →
      (∀ rd ∈ rounds, s.accuracy < separation rd.env rd.result tra tdec) →
      (∀ rd ∈ rounds, dmsSetH rd.env.eqCoords.1 = tra ∧ rd.env.eqCoords.2 = tdec) →
      (n ≠ 0 → s.targetCoord.ra = tra ∧ s.targetCoord.dec = tdec) →
      alwaysAbove rounds s := by
  induction rounds with
  | nil => intro _ _ _ _ _ _ _ _; trivial
  | cons rd rest ih =>
    intro s n h hcam hlen hsep hmount htarget
    have hT : (startSovling rd.env s).1.targetCoord.ra = tra
        ∧ (startSovling rd.env s).1.targetCoord.dec = tdec := by
      obtain ⟨t1, t2⟩ := startSovling_target rd.env s
      rw [t1, t2]
      by_cases h0 : s.solverIterations = 0
      · rw [if_pos h0, if_pos h0]
        exact hmount rd (List.mem_cons_self _ _)
      · rw [if_neg h0, if_neg h0]
        apply htarget
        rw [← h.2.2.2.2.2.1]
        exact h0
    have hfar : s.accuracy < solveDiff rd s := by
      rw [solveDiff_eq_separation, hT.1, hT.2]
      exact hsep rd (List.mem_cons_self _ _)
    refine ⟨hfar, ?_⟩
    simp only [List.length_cons, Nat.cast_add, Nat.cast_one] at hlen
    by_cases hten : n + 1 = 10
    · have hnil : rest = [] := by
        apply List.eq_nil_of_length_eq_zero
        omega
      subst hnil
      trivial
    · obtain ⟨u1, _, _⟩ :=
        (slewRound_step rd s n h (hcam rd (List.mem_cons_self _ _)) hfar).1 hten
      obtain ⟨v1, v2⟩ :=
        slewRound_target rd s n h (hcam rd (List.mem_cons_self _ _)) hfar hten
      apply ih (slewRound rd s).1 (n + 1) u1
        (fun x hx => hcam x (List.mem_cons_of_mem _ hx)) (by omega)
      · intro x hx
        rw [v2]
        exact hsep x (List.mem_cons_of_mem _ hx)
      · exact fun x hx => hmount x (List.mem_cons_of_mem _ hx)
      · intro _
        rw [v1]
        exact hT

/-- C2. From a GOTO session with the Slew option, coordinate updates enabled
and `solverIterations = 0`, with a camera able to capture, a run of turns
whose solves all stay above the accuracy threshold behaves as follows: as
long as fewer than ten turns have ended, no `solverComplete(false)` has been
emitted, every turn has ended with one new exposure request and
`solverIterations` counts the turns; the tenth turn ends with exactly one
`solverComplete(false)`, raised by `solverFailed` (complete, not successful,
iterations back at 0), and starts no further exposure. -/
theorem slew_run_fails_exactly_at_iteration_ten (rounds : List (SlewRound R)) (s : Align R)
    (hgoto : s.gotoR = true) (hslew : s.gotoOption = GotoOption.slewR)
    (hupd : s.solverUpdateCoords = true) (hload : s.loadSlewMode = false)
    (hdirty : s.slew_dirty = false) (hiter : s.solverIterations = 0)
    (hcap : s.canCapture) (hcam : ∀ rd ∈ rounds, rd.env.cameraReady)
    (hlen : rounds.length ≤ 10) (habove : alwaysAbove rounds s) :
    (rounds.length < 10 →
      List.countP Effect.isFailure (slewRun rounds s).2 = 0
      ∧ List.countP Effect.isCapture (slewRun rounds s).2 = rounds.length
      ∧ (slewRun rounds s).1.solverIterations = rounds.length)
    ∧ (rounds.length = 10 →
      List.countP Effect.isFailure (slewRun rounds s).2 = 1
      ∧ List.countP Effect.isCapture (slewRun rounds s).2 = 9
      ∧ (slewRun rounds s).1.m_isSolverComplete = true
      ∧ (slewRun rounds s).1.m_isSolverSuccessful = false
      ∧ (slewRun rounds s).1.m_slewToTargetSelected = false
      ∧ (slewRun rounds s).1.solverIterations = 0) := by
  have hloop : s.slewLoop 0 := ⟨hgoto, hslew, hupd, hload, hdirty, hiter, hcap⟩
  obtain ⟨r1, r2⟩ := slewRun_counts rounds s 0 hloop hcam habove (by omega)
  constructor
  · intro hlt
    obtain ⟨⟨_, _, _, _, _, v6, _⟩, v2, v3⟩ := r1 (by omega)
    refine ⟨v2, v3, ?_⟩
    rw [v6, zero_add]
  · intro heq
    obtain ⟨w1, w2, w3, w4, w5, w6⟩ := r2 (by omega) (by omega)
    exact ⟨w5, by omega, w1, w2, w3, w4⟩

theorem separation_offTarget :
    separation SlewRound.offTarget.env SlewRound.offTarget.result 0 0 = 3600 := by
  simp [separation, computeTargetDiff, solvedCoord, SlewRound.offTarget, Env.atRest,
    SkyPoint.zero, dmsSetH]
  norm_num

theorem offTarget_rounds_ready (k : Nat) :
    (∀ rd ∈ List.replicate k SlewRound.offTarget, rd.env.cameraReady)
    ∧ (∀ rd ∈ List.replicate k SlewRound.offTarget,
        (Align.equipped GotoOption.slewR : Align ℚ).accuracy
          < separation rd.env rd.result 0 0)
    ∧ (∀ rd ∈ List.replicate k SlewRound.offTarget,
        dmsSetH rd.env.eqCoords.1 = 0 ∧ rd.env.eqCoords.2 = 0) := by
  refine ⟨?_, ?_, ?_⟩
  · intro rd h
    rw [List.eq_of_mem_replicate h]
    exact ⟨rfl, rfl, rfl⟩
  · intro rd h
    rw [List.eq_of_mem_replicate h, separation_offTarget]
    norm_num [Align.equipped, Align.fresh, Align.init]
  · intro rd h
    rw [List.eq_of_mem_replicate h]
    simp [SlewRound.offTarget, Env.atRest, dmsSetH]

theorem equipped_slewLoop : (Align.equipped GotoOption.slewR : Align ℚ).slewLoop 0 := by
  refine ⟨rfl, rfl, rfl, rfl, rfl, rfl, ?_⟩
  norm_num [Align.canCapture, Align.equipped, Align.fresh, Align.init]

/-- Witness for C2: ten turns in which the solver keeps placing the frame one
degree (3600 arcseconds) from the target, against a threshold of 30. -/
theorem slew_run_fails_exactly_at_iteration_ten_witness :
    ((Align.equipped GotoOption.slewR : Align ℚ).gotoR = true
      ∧ (Align.equipped GotoOption.slewR : Align ℚ).gotoOption = GotoOption.slewR
      ∧ (Align.equipped GotoOption.slewR : Align ℚ).solverUpdateCoords = true
      ∧ (Align.equipped GotoOption.slewR : Align ℚ).loadSlewMode = false
      ∧ (Align.equipped GotoOption.slewR : Align ℚ).slew_dirty = false
      ∧ (Align.equipped GotoOption.slewR : Align ℚ).solverIterations = 0
      ∧ (Align.equipped GotoOption.slewR : Align ℚ).canCapture
      ∧ (∀ rd ∈ List.replicate 10 SlewRound.offTarget, rd.env.cameraReady)
      ∧ (List.replicate 10 SlewRound.offTarget).length ≤ 10
      ∧ alwaysAbove (List.replicate 10 SlewRound.offTarget)
          (Align.equipped GotoOption.slewR : Align ℚ))
    ∧ (List.countP Effect.isFailure
          (slewRun (List.replicate 10 SlewRound.offTarget)
            (Align.equipped GotoOption.slewR : Align ℚ)).2 = 1
      ∧ List.countP Effect.isCapture
          (slewRun (List.replicate 10 SlewRound.offTarget)
            (Align.equipped GotoOption.slewR : Align ℚ)).2 = 9
      ∧ (slewRun (List.replicate 10 SlewRound.offTarget)
            (Align.equipped GotoOption.slewR : Align ℚ)).1.m_isSolverComplete = true
      ∧ (slewRun (List.replicate 10 SlewRound.offTarget)
            (Align.equipped GotoOption.slewR : Align ℚ)).1.m_isSolverSuccessful = false
      ∧ (slewRun (List.replicate 10 SlewRound.offTarget)
            (Align.equipped GotoOption.slewR : Align ℚ)).1.m_slewToTargetSelected = false
      ∧ (slewRun (List.replicate 10 SlewRound.offTarget)
            (Align.equipped GotoOption.slewR : Align ℚ)).1.solverIterations = 0) :=
  have habove : alwaysAbove (List.replicate 10 SlewRound.offTarget)
      (Align.equipped GotoOption.slewR : Align ℚ) :=
    alwaysAbove_of_separation 0 0 _ _ 0 equipped_slewLoop (offTarget_rounds_ready 10).1
      (by simp) (offTarget_rounds_ready 10).2.1 (offTarget_rounds_ready 10).2.2
      (fun h => absurd rfl h)
  ⟨⟨rfl, rfl, rfl, rfl, rfl, rfl, equipped_slewLoop.2.2.2.2.2.2,
      (offTarget_rounds_ready 10).1, by simp, habove⟩,
    (slew_run_fails_exactly_at_iteration_ten (List.replicate 10 SlewRound.offTarget)
      (Align.equipped GotoOption.slewR) rfl rfl rfl rfl rfl rfl
      equipped_slewLoop.2.2.2.2.2.2 (offTarget_rounds_ready 10).1 (by simp) habove).2
      (by simp)⟩

theorem solverFinished_verdict (env : Env R) (r : SolveResult R) (s : Align R) :
    ((s.gotoOption = GotoOption.syncR ∨ s.gotoOption = GotoOption.nothingR
        ∨ computeTargetDiff env (solvedCoord env r s.alignCoord) s.targetCoord ≤ s.accuracy) →
      (solverFinished env r s).1.m_isSolverComplete = true
      ∧ (solverFinished env r s).1.m_isSolverSuccessful = true
      ∧ (solverFinished env r s).1.solverIterations = 0)
    ∧ (¬ (s.gotoOption = GotoOption.syncR ∨ s.gotoOption = GotoOption.nothingR
        ∨ computeTargetDiff env (solvedCoord env r s.alignCoord) s.targetCoord ≤ s.accuracy) →
      (solverFinished env r s).1.m_isSolverComplete = s.m_isSolverComplete
      ∧ (solverFinished env r s).1.m_isSolverSuccessful = s.m_isSolverSuccessful
      ∧ (solverFinished env r s).1.solverIterations = s.solverIterations) := by
  obtain ⟨_, _, _, _, _, h6, h7, h8, _⟩ := solverFinished_sameSolve env r s
  have hst := solverOutcome_state env r s
  constructor
  · intro hc
    rw [if_pos hc] at hst
    rw [h6, h7, h8, hst]
    exact ⟨rfl, rfl, rfl⟩
  · intro hc
    rw [if_neg hc] at hst
    rw [h6, h7, h8, hst]
    exact ⟨rfl, rfl, rfl⟩

theorem solverFinished_record (env : Env R) (r : SolveResult R) (s : Align R) :
    (solverFinished env r s).1.sOrientation = r.orientation
    ∧ (solverFinished env r s).1.sRA = r.ra
    ∧ (solverFinished env r s).1.sDEC = r.dec
    ∧ (solverFinished env r s).1.retries = 0
    ∧ (solverFinished env r s).1.loadSlewMode = s.loadSlewMode
    ∧ (solverFinished env r s).1.loadSlewState = s.loadSlewState := by
  obtain ⟨h1, h2, h3, _, _, _, _, _, h9, h10, h11, _⟩ := solverFinished_sameSolve env r s
  rw [h1, h2, h3, h9, h10, h11, solverOutcome_state]
  split_ifs <;> exact ⟨rfl, rfl, rfl, rfl, rfl, rfl⟩

theorem executeMode_init_stages (env : Env R) (s : Align R)
    (haz : s.azStage = AZStage.AZ_INIT) (halt : s.altStage = ALTStage.ALT_INIT) :
    (executeMode env s).1.azStage = AZStage.AZ_INIT
    ∧ (executeMode env s).1.altStage = ALTStage.ALT_INIT := by
  unfold executeMode
  split_ifs
  · unfold executeGOTO SlewToTarget Sync
    split_ifs <;> exact ⟨haz, halt⟩
  · unfold executePolarAlign
    simp only [haz, halt]
    exact ⟨trivial, trivial⟩

theorem solverFinished_init_stages (env : Env R) (r : SolveResult R) (s : Align R)
    (haz : s.azStage = AZStage.AZ_INIT) (halt : s.altStage = ALTStage.ALT_INIT) :
    (solverFinished env r s).1.azStage = AZStage.AZ_INIT
    ∧ (solverFinished env r s).1.altStage = ALTStage.ALT_INIT := by
  unfold solverFinished Out.andThen
  apply executeMode_init_stages
  · rw [solverOutcome_state]; split_ifs <;> exact haz
  · rw [solverOutcome_state]; split_ifs <;> exact halt

theorem solverFinished_goto_sync (env : Env R) (r : SolveResult R) (s : Align R)
    (hgoto : s.gotoR = true) (hload : s.loadSlewMode = false)
    (hsync : s.gotoOption = GotoOption.syncR) :
    Effect.telescopeSyncPoint (solvedCoord env r s.alignCoord)
      ∈ (solverFinished env r s).2 := by
  obtain ⟨f1, f2, f3⟩ := solverOutcome_frame env r s
  have hg : (solverOutcome env r s).1.gotoR = true := by rw [f1, hgoto]
  have hl : (solverOutcome env r s).1.loadSlewMode = false := by rw [f3, hload]
  have hs : (solverOutcome env r s).1.gotoOption = GotoOption.syncR := by rw [f2, hsync]
  have ha : (solverOutcome env r s).1.alignCoord = solvedCoord env r s.alignCoord := by
    rw [solverOutcome_state]; split_ifs <;> rfl
  unfold solverFinished Out.andThen executeMode
  rw [if_pos hg]
  apply List.mem_append_right
  unfold executeGOTO Sync
  simp only [hl, hs, ha, Bool.false_eq_true, if_false, if_true]
  exact List.mem_cons_self _ _

/-- C9, as the code has it.  `abort` asks the solver front end to stop the
solve; `solverFinished` itself has no guard against a result that is
delivered all the same.  Delivered to an aborted session it records the
solution (`sOrientation`, `sRA`, `sDEC`, `alignCoord`, `targetDiff`), emits
`solverComplete(true)` and marks the solve complete and successful exactly
when the option is Sync or NoAction or `targetDiff` is within the threshold
(otherwise both flags stay false), never emits `solverComplete(false)`, and in
GOTO mode sends the sync (Sync option) or the slew to the target (Slew
option).  The polar stages stay at Init, `loadSlewMode` stays false, the load
state idle, and iterations and retries stay 0. -/
theorem solverFinished_after_abort (env env2 : Env R) (r : SolveResult R) (s : Align R) :
    Effect.parserStopSolver ∈ (abort env s).2
    ∧ (solverFinished env2 r (abort env s).1).1.sOrientation = r.orientation
    ∧ (solverFinished env2 r (abort env s).1).1.sRA = r.ra
    ∧ (solverFinished env2 r (abort env s).1).1.sDEC = r.dec
    ∧ (solverFinished env2 r (abort env s).1).1.alignCoord = solvedCoord env2 r s.alignCoord
    ∧ (solverFinished env2 r (abort env s).1).1.targetDiff
        = computeTargetDiff env2 (solvedCoord env2 r s.alignCoord) s.targetCoord
    ∧ (Effect.solverComplete true ∈ (solverFinished env2 r (abort env s).1).2
        ↔ (s.gotoOption = GotoOption.syncR ∨ s.gotoOption = GotoOption.nothingR
            ∨ (solverFinished env2 r (abort env s).1).1.targetDiff ≤ s.accuracy))
    ∧ Effect.solverComplete false ∉ (solverFinished env2 r (abort env s).1).2
    ∧ ((s.gotoOption = GotoOption.syncR ∨ s.gotoOption = GotoOption.nothingR
          ∨ (solverFinished env2 r (abort env s).1).1.targetDiff ≤ s.accuracy) →
        (solverFinished env2 r (abort env s).1).1.m_isSolverComplete = true
        ∧ (solverFinished env2 r (abort env s).1).1.m_isSolverSuccessful = true)
    ∧ (¬ (s.gotoOption = GotoOption.syncR ∨ s.gotoOption = GotoOption.nothingR
          ∨ (solverFinished env2 r (abort env s).1).1.targetDiff ≤ s.accuracy) →
        (solverFinished env2 r (abort env s).1).1.m_isSolverComplete = false
        ∧ (solverFinished env2 r (abort env s).1).1.m_isSolverSuccessful = false)
    ∧ (solverFinished env2 r (abort env s).1).1.azStage = AZStage.AZ_INIT
    ∧ (solverFinished env2 r (abort env s).1).1.altStage = ALTStage.ALT_INIT
    ∧ (solverFinished env2 r (abort env s).1).1.loadSlewMode = false
    ∧ (solverFinished env2 r (abort env s).1).1.loadSlewState = IPState.IPS_IDLE
    ∧ (solverFinished env2 r (abort env s).1).1.solverIterations = 0
    ∧ (solverFinished env2 r (abort env s).1).1.retries = 0
    ∧ (s.gotoR = true → s.gotoOption = GotoOption.syncR →
        Effect.telescopeSyncPoint (solvedCoord env2 r s.alignCoord)
          ∈ (solverFinished env2 r (abort env s).1).2)
    ∧ (s.gotoR = true → s.gotoOption = GotoOption.slewR →
        Effect.telescopeSlewPoint s.targetCoord ∈ (solverFinished env2 r (abort env s).1).2
        ∧ (solverFinished env2 r (abort env s).1).1.m_slewToTargetSelected = true) := by
  obtain ⟨t1, t2⟩ := solverFinished_diff_eq env2 r (abort env s).1
  obtain ⟨r1, r2, r3, r4, r5, r6⟩ := solverFinished_record env2 r (abort env s).1
  obtain ⟨v1, v2⟩ := solverFinished_verdict env2 r (abort env s).1
  obtain ⟨g1, g2⟩ := solverFinished_init_stages env2 r (abort env s).1 rfl rfl
  have hm := mem_solverFinished_complete env2 r (abort env s).1
  rw [t1]
  refine ⟨?_, r1, r2, r3, t2, rfl, ?_, ?_, ?_, ?_, g1, g2, ?_, ?_, ?_, r4, ?_, ?_⟩
  · unfold abort
    simp
  · rw [hm true]
    exact ⟨fun h => h.2, fun h => ⟨rfl, h⟩⟩
  · intro h
    exact Bool.noConfusion ((hm false).1 h).1
  · intro hc
    exact ⟨(v1 hc).1, (v1 hc).2.1⟩
  · intro hc
    exact ⟨(v2 hc).1, (v2 hc).2.1⟩
  · rw [r5]; rfl
  · rw [r6]; rfl
  · by_cases hc : (s.gotoOption = GotoOption.syncR ∨ s.gotoOption = GotoOption.nothingR
        ∨ computeTargetDiff env2 (solvedCoord env2 r s.alignCoord) s.targetCoord ≤ s.accuracy)
    · exact (v1 hc).2.2
    · exact (v2 hc).2.2
  · intro hg hs
    exact solverFinished_goto_sync env2 r (abort env s).1 hg rfl hs
  · intro hg hs
    have hfin : (solverFinished env2 r (abort env s).1).1
        = (executeGOTO env2 (solverOutcome env2 r (abort env s).1).1).1 := by
      have hg2 : (solverOutcome env2 r (abort env s).1).1.gotoR = true := by
        rw [(solverOutcome_frame env2 r (abort env s).1).1]; exact hg
      unfold solverFinished Out.andThen executeMode
      rw [if_pos hg2]
    have hs2 : (solverOutcome env2 r (abort env s).1).1.gotoOption = GotoOption.slewR := by
      rw [(solverOutcome_frame env2 r (abort env s).1).2.1]; exact hs
    have hg2 : (solverOutcome env2 r (abort env s).1).1.gotoR = true := by
      rw [(solverOutcome_frame env2 r (abort env s).1).1]; exact hg
    have htc := solverFinished_slew_target env2 r (abort env s).1 hg rfl
    have hmem := (executeGOTO_slew env2 (solverOutcome env2 r (abort env s).1).1 hs2)
    constructor
    · have : Effect.telescopeSlewPoint (solverFinished env2 r (abort env s).1).1.targetCoord
          ∈ (solverFinished env2 r (abort env s).1).2 := by
        rw [hfin]
        unfold solverFinished Out.andThen executeMode
        rw [if_pos hg2]
        exact List.mem_append_right _ hmem.2
      rw [htc] at this
      exact this
    · rw [hfin]; exact hmem.1

/-- Counterexample to C9 as stated: a Sync-mode session is aborted and the
solver result arrives afterwards.  The state does not stay as `abort` left
it: the solve is marked complete, `solverComplete(true)` is emitted and the
mount is synced. -/
theorem late_result_after_abort_is_processed :
    (solverFinished SlewRound.offTarget.env SlewRound.offTarget.result
        (abort SlewRound.offTarget.env (Align.equipped GotoOption.syncR : Align ℚ)).1).1
      ≠ (abort SlewRound.offTarget.env (Align.equipped GotoOption.syncR : Align ℚ)).1
    ∧ (abort SlewRound.offTarget.env
        (Align.equipped GotoOption.syncR : Align ℚ)).1.m_isSolverComplete = false
    ∧ (solverFinished SlewRound.offTarget.env SlewRound.offTarget.result
        (abort SlewRound.offTarget.env
          (Align.equipped GotoOption.syncR : Align ℚ)).1).1.m_isSolverComplete = true
    ∧ Effect.solverComplete true
        ∈ (solverFinished SlewRound.offTarget.env SlewRound.offTarget.result
            (abort SlewRound.offTarget.env (Align.equipped GotoOption.syncR : Align ℚ)).1).2
    ∧ (∃ e ∈ (solverFinished SlewRound.offTarget.env SlewRound.offTarget.result
            (abort SlewRound.offTarget.env (Align.equipped GotoOption.syncR : Align ℚ)).1).2,
          e.isMountCommand = true) := by
  have hc : (solverFinished SlewRound.offTarget.env SlewRound.offTarget.result
        (abort SlewRound.offTarget.env
          (Align.equipped GotoOption.syncR : Align ℚ)).1).1.m_isSolverComplete = true :=
    ((solverFinished_verdict _ _ _).1 (Or.inl rfl)).1
  refine ⟨?_, rfl, hc, ?_, ?_⟩
  · intro h
    rw [h] at hc
    exact Bool.noConfusion hc
  · exact (mem_solverFinished_complete _ _ _ true).2 ⟨rfl, Or.inl rfl⟩
  · exact ⟨_, solverFinished_goto_sync _ _ _ rfl rfl rfl, rfl⟩

theorem solverOutcome_no_mount (env : Env R) (r : SolveResult R) (s : Align R) :
    ∀ e ∈ (solverOutcome env r s).2, e.isMountCommand = false := by
  have h1 : ∀ e ∈ solverLogs env r s, e.isMountCommand = false := by
    unfold solverLogs
    split_ifs <;> simp [Effect.isMountCommand]
  have h2 : ∀ x : Align R, ∀ e ∈ (solverWcs env r x).2, e.isMountCommand = false := by
    intro x
    unfold solverWcs
    split_ifs <;> simp [Effect.isMountCommand]
  have h3 : ∀ x : Align R, ∀ e ∈ (solverVerdict x).2, e.isMountCommand = false := by
    intro x
    unfold solverVerdict
    split_ifs <;> simp [Effect.isMountCommand]
  unfold solverOutcome
  simp only [List.forall_mem_append]
  refine ⟨⟨⟨⟨h1, h2 _⟩, ?_⟩, h3 _⟩, ?_⟩
  · split_ifs <;> simp [Effect.isMountCommand]
  · split_ifs <;> simp [Effect.isMountCommand]

theorem executeMode_polar_init (env : Env R) (s : Align R) (hpolar : s.gotoR = false)
    (haz : s.azStage = AZStage.AZ_INIT) (halt : s.altStage = ALTStage.ALT_INIT) :
    executeMode env s = (s, [Effect.log Msg.processingPolar]) := by
  unfold executeMode
  rw [if_neg (by rw [hpolar]; exact Bool.false_ne_true)]
  unfold executePolarAlign
  simp only [haz, halt]

theorem solverFinished_polar_init_no_mount (env : Env R) (r : SolveResult R) (s : Align R)
    (hpolar : s.gotoR = false)
    (haz : s.azStage = AZStage.AZ_INIT) (halt : s.altStage = ALTStage.ALT_INIT) :
    ∀ e ∈ (solverFinished env r s).2, e.isMountCommand = false := by
  have hg : (solverOutcome env r s).1.gotoR = false := by
    rw [(solverOutcome_frame env r s).1, hpolar]
  have ha : (solverOutcome env r s).1.azStage = AZStage.AZ_INIT := by
    rw [solverOutcome_state]; split_ifs <;> exact haz
  have hl : (solverOutcome env r s).1.altStage = ALTStage.ALT_INIT := by
    rw [solverOutcome_state]; split_ifs <;> exact halt
  unfold solverFinished Out.andThen
  rw [executeMode_polar_init env _ hg ha hl]
  intro e he
  rcases List.mem_append.1 he with he | he
  · exact solverOutcome_no_mount env r s e he
  · rw [List.mem_singleton.1 he]; rfl

theorem offTarget_diff (s : Align ℚ) (hra : s.targetCoord.ra = 0) (hdec : s.targetCoord.dec = 0) :
    (solverFinished SlewRound.offTarget.env SlewRound.offTarget.result s).1.targetDiff
      = 3600 := by
  rw [(solverFinished_diff_eq _ _ _).1]
  simp [computeTargetDiff, solvedCoord, SlewRound.offTarget, Env.atRest, dmsSetH, hra, hdec]
  norm_num

/-- C3, as the code has it.  With the Slew option checked, `solverFinished`
emits `solverComplete(true)` exactly when the new `targetDiff` is within the
accuracy threshold, and then marks the solve complete and successful.  When
`targetDiff` is above the threshold it emits no completion event, leaves
`m_isSolverComplete` and `m_isSolverSuccessful` as they were (false after
`startSovling`) and keeps `solverIterations`; when moreover the GOTO procedure
is the active one (`gotoR` checked) it commands a slew to the target and arms
`m_slewToTargetSelected`, so that the loop goes on. -/
theorem solverFinished_slew_completes_iff_within (env : Env R) (r : SolveResult R)
    (s : Align R) (hslew : s.gotoOption = GotoOption.slewR) :
    (Effect.solverComplete true ∈ (solverFinished env r s).2
        ↔ (solverFinished env r s).1.targetDiff ≤ s.accuracy)
    ∧ ((solverFinished env r s).1.targetDiff ≤ s.accuracy →
        (solverFinished env r s).1.m_isSolverComplete = true
        ∧ (solverFinished env r s).1.m_isSolverSuccessful = true)
    ∧ (s.accuracy < (solverFinished env r s).1.targetDiff →
        (∀ e ∈ (solverFinished env r s).2, e.isSolverComplete = false)
        ∧ (solverFinished env r s).1.m_isSolverComplete = s.m_isSolverComplete
        ∧ (solverFinished env r s).1.m_isSolverSuccessful = s.m_isSolverSuccessful
        ∧ (solverFinished env r s).1.solverIterations = s.solverIterations
        ∧ (s.gotoR = true →
            Effect.telescopeSlewPoint (solverFinished env r s).1.targetCoord
              ∈ (solverFinished env r s).2
            ∧ (solverFinished env r s).1.m_slewToTargetSelected = true)) := by
  have htd := (solverFinished_diff_eq env r s).1
  obtain ⟨v1, v2⟩ := solverFinished_verdict env r s
  have hiff : (s.gotoOption = GotoOption.syncR ∨ s.gotoOption = GotoOption.nothingR
      ∨ computeTargetDiff env (solvedCoord env r s.alignCoord) s.targetCoord ≤ s.accuracy)
      ↔ computeTargetDiff env (solvedCoord env r s.alignCoord) s.targetCoord ≤ s.accuracy := by
    rw [hslew]; simp
  rw [htd]
  refine ⟨?_, ?_, ?_⟩
  · rw [mem_solverFinished_complete, hiff]; simp
  · intro h
    exact ⟨(v1 (hiff.2 h)).1, (v1 (hiff.2 h)).2.1⟩
  · intro h
    have hn : ¬ (s.gotoOption = GotoOption.syncR ∨ s.gotoOption = GotoOption.nothingR
      ∨ computeTargetDiff env (solvedCoord env r s.alignCoord) s.targetCoord ≤ s.accuracy) := by
      rw [hiff]; exact not_le.2 h
    refine ⟨?_, (v2 hn).1, (v2 hn).2.1, (v2 hn).2.2, ?_⟩
    · intro e he
      cases e <;> try rfl
      rename_i b
      exact absurd ((mem_solverFinished_complete env r s b).1 he).2 hn
    · intro hgoto
      have hg : (solverOutcome env r s).1.gotoR = true := by
        rw [(solverOutcome_frame env r s).1, hgoto]
      have hs : (solverOutcome env r s).1.gotoOption = GotoOption.slewR := by
        rw [(solverOutcome_frame env r s).2.1, hslew]
      constructor
      · unfold solverFinished Out.andThen executeMode
        rw [if_pos hg]
        exact List.mem_append_right _ (executeGOTO_slew env _ hs).2
      · unfold solverFinished Out.andThen executeMode
        rw [if_pos hg]
        exact (executeGOTO_slew env _ hs).1

/-- Witness for C3: GOTO mode with the Slew option and a solution 3600
arcseconds from the target, against a threshold of 30. -/
theorem solverFinished_slew_completes_iff_within_witness :
    (Align.equipped GotoOption.slewR : Align ℚ).gotoOption = GotoOption.slewR
    ∧ (Align.equipped GotoOption.slewR : Align ℚ).accuracy
        < (solverFinished SlewRound.offTarget.env SlewRound.offTarget.result
            (Align.equipped GotoOption.slewR : Align ℚ)).1.targetDiff
    ∧ (∀ e ∈ (solverFinished SlewRound.offTarget.env SlewRound.offTarget.result
            (Align.equipped GotoOption.slewR : Align ℚ)).2, e.isSolverComplete = false)
    ∧ (solverFinished SlewRound.offTarget.env SlewRound.offTarget.result
          (Align.equipped GotoOption.slewR : Align ℚ)).1.solverIterations
        = (Align.equipped GotoOption.slewR : Align ℚ).solverIterations
    ∧ Effect.telescopeSlewPoint
        (solverFinished SlewRound.offTarget.env SlewRound.offTarget.result
          (Align.equipped GotoOption.slewR : Align ℚ)).1.targetCoord
        ∈ (solverFinished SlewRound.offTarget.env SlewRound.offTarget.result
          (Align.equipped GotoOption.slewR : Align ℚ)).2
    ∧ (solverFinished SlewRound.offTarget.env SlewRound.offTarget.result
          (Align.equipped GotoOption.slewR : Align ℚ)).1.m_slewToTargetSelected = true :=
  have hfar : (Align.equipped GotoOption.slewR : Align ℚ).accuracy
      < (solverFinished SlewRound.offTarget.env SlewRound.offTarget.result
          (Align.equipped GotoOption.slewR : Align ℚ)).1.targetDiff := by
    rw [offTarget_diff _ rfl rfl]
    norm_num [Align.equipped, Align.fresh, Align.init]
  have hall := (solverFinished_slew_completes_iff_within SlewRound.offTarget.env
      SlewRound.offTarget.result (Align.equipped GotoOption.slewR) rfl).2.2 hfar
  ⟨rfl, hfar, hall.1, hall.2.2.2.1, (hall.2.2.2.2 rfl).1, (hall.2.2.2.2 rfl).2⟩

/-- Counterexample to C3 as stated: the Slew option is checked while the
polar-alignment procedure is the active one (`gotoR` unchecked, both stages
at Init).  The solution lies 3600 arcseconds from the target, above the
threshold of 30, and `solverFinished` sends no command to the mount at all. -/
theorem slew_option_in_polar_mode_sends_no_slew :
    ({ (Align.equipped GotoOption.slewR : Align ℚ) with gotoR := false }).gotoOption
        = GotoOption.slewR
    ∧ ({ (Align.equipped GotoOption.slewR : Align ℚ) with gotoR := false }).accuracy
        < (solverFinished SlewRound.offTarget.env SlewRound.offTarget.result
            { (Align.equipped GotoOption.slewR : Align ℚ) with gotoR := false }).1.targetDiff
    ∧ (∀ e ∈ (solverFinished SlewRound.offTarget.env SlewRound.offTarget.result
            { (Align.equipped GotoOption.slewR : Align ℚ) with gotoR := false }).2,
          e.isMountCommand = false)
    ∧ (∀ p, Effect.telescopeSlewPoint p
          ∉ (solverFinished SlewRound.offTarget.env SlewRound.offTarget.result
            { (Align.equipped GotoOption.slewR : Align ℚ) with gotoR := false }).2) := by
  have hq := solverFinished_polar_init_no_mount SlewRound.offTarget.env
    SlewRound.offTarget.result
    { (Align.equipped GotoOption.slewR : Align ℚ) with gotoR := false } rfl rfl rfl
  refine ⟨rfl, ?_, hq, ?_⟩
  · rw [offTarget_diff _ rfl rfl]
    norm_num [Align.equipped, Align.fresh, Align.init]
  · intro p hp
    have := hq _ hp
    simp [Effect.isMountCommand] at this

/-! ## Busy rejection, capture retries, solver failure -/

theorem startSovling_canCapture (env : Env R) (s : Align R) (h : s.canCapture) :
    (startSovling env s).1.canCapture := by
  unfold startSovling
  simp only []
  split_ifs <;> exact h

/-- With controller and camera ready `captureAndSolve` is accepted and asks
for an exposure of the configured length. -/
theorem captureAndSolve_accepts (env : Env R) (s : Align R)
    (hs : s.canCapture) (he : env.cameraReady) :
    (captureAndSolve env s).1 = true
    ∧ Effect.ccdCapture s.exposure ∈ (captureAndSolve env s).2.2
    ∧ (captureAndSolve env s).2.1.retries = s.retries
    ∧ Effect.parserStopSolver ∉ (captureAndSolve env s).2.2 := by
  obtain ⟨c1, c2, c3, c4, c5, c6, c7⟩ := hs
  obtain ⟨e1, e2, e3⟩ := he
  unfold captureAndSolve
  simp only [c1, c2, c3, c4, c5, c6, c7, e1, e2, e3, Bool.true_eq_false, if_false, or_self,
    Bool.false_eq_true]
  refine ⟨?_, ?_, ?_, ?_⟩
  · trivial
  · split_ifs <;> simp
  · split_ifs <;> rfl
  · split_ifs <;> simp

/-- While the camera is exposing `captureAndSolve` asks for no exposure, and
it returns false unless it has sent the filter wheel to the locked filter. -/
theorem captureAndSolve_capturing (env : Env R) (s : Align R)
    (hbusy : env.ccdIsCapturing = true) :
    List.countP Effect.isCapture (captureAndSolve env s).2.2 = 0
    ∧ (¬ (s.hasFilter = true ∧ s.lockedFilterIndex ≠ -1
            ∧ s.lockedFilterIndex ≠ s.currentFilterIndex) →
        (captureAndSolve env s).1 = false) := by
  unfold captureAndSolve
  simp only [hbusy, if_true]
  refine ⟨?_, ?_⟩
  · split_ifs <;> simp [List.countP_cons, Effect.isCapture]
  · intro hf
    split_ifs <;> rfl

/-- C11 (amended): `captureAndSolve` looks at the camera, not at the solver.
While the camera is exposing it issues no exposure request, and it returns
false unless it has started a change to the locked filter.  A solve in flight
does not stop it: in the state `startSovling` leaves, with controller and
camera ready, it returns true and requests an exposure. -/
theorem captureAndSolve_rejects_on_exposure_only (env : Env R) (s : Align R) :
    (env.ccdIsCapturing = true →
      List.countP Effect.isCapture (captureAndSolve env s).2.2 = 0
      ∧ (¬ (s.hasFilter = true ∧ s.lockedFilterIndex ≠ -1
              ∧ s.lockedFilterIndex ≠ s.currentFilterIndex) →
          (captureAndSolve env s).1 = false))
    ∧ (s.canCapture → env.cameraReady →
        Effect.parserStartSolver ∈ (startSovling env s).2
        ∧ (startSovling env s).1.m_isSolverComplete = false
        ∧ (captureAndSolve env (startSovling env s).1).1 = true
        ∧ List.countP Effect.isCapture
            (captureAndSolve env (startSovling env s).1).2.2 = 1) := by
  refine ⟨captureAndSolve_capturing env s, ?_⟩
  intro hs he
  have hc := startSovling_canCapture env s hs
  refine ⟨?_, rfl, (captureAndSolve_accepts env _ hc he).1,
    (captureAndSolve_ready env _ hc he).2.2.2.2.2.2.2.1⟩
  unfold startSovling
  simp

/-- Counterexample to C11 as stated: the solver has been started on a frame
and has not reported back; the camera is idle.  `captureAndSolve` is not
rejected: it returns true and requests an exposure. -/
theorem capture_accepted_while_solve_in_flight :
    Effect.parserStartSolver
      ∈ (startSovling SlewRound.offTarget.env (Align.equipped GotoOption.syncR : Align ℚ)).2
    ∧ (startSovling SlewRound.offTarget.env
        (Align.equipped GotoOption.syncR : Align ℚ)).1.m_isSolverComplete = false
    ∧ (captureAndSolve SlewRound.offTarget.env
        (startSovling SlewRound.offTarget.env
          (Align.equipped GotoOption.syncR : Align ℚ)).1).1 = true
    ∧ Effect.ccdCapture 1
      ∈ (captureAndSolve SlewRound.offTarget.env
          (startSovling SlewRound.offTarget.env
            (Align.equipped GotoOption.syncR : Align ℚ)).1).2.2 := by
  have hs : (Align.equipped GotoOption.syncR : Align ℚ).canCapture := by
    unfold Align.canCapture
    norm_num [Align.equipped, Align.fresh, Align.init]
  have he : SlewRound.offTarget.env.cameraReady := ⟨rfl, rfl, rfl⟩
  have hc := startSovling_canCapture SlewRound.offTarget.env _ hs
  have ha := captureAndSolve_accepts SlewRound.offTarget.env _ hc he
  refine ⟨?_, rfl, ha.1, ha.2.1⟩
  unfold startSovling
  simp

/-- C15 (amended): a solver failure ends the session in every mode, the Slew
option included and whatever the number of iterations used: `solverFailed`
marks the solve complete and unsuccessful, clears the iteration counter,
leaves the mode as it is, emits `solverComplete(false)` and starts no
capture. -/
theorem solverFailed_terminal_in_every_mode (s : Align R) :
    (solverFailed s).1.m_isSolverComplete = true
    ∧ (solverFailed s).1.m_isSolverSuccessful = false
    ∧ (solverFailed s).1.solverIterations = 0
    ∧ (solverFailed s).1.gotoOption = s.gotoOption
    ∧ (solverFailed s).1.gotoR = s.gotoR
    ∧ (solverFailed s).2 = [Effect.notification Msg.alignFailed, Effect.solverComplete false]
    ∧ List.countP Effect.isCapture (solverFailed s).2 = 0 :=
  ⟨rfl, rfl, rfl, rfl, rfl, rfl, rfl⟩

/-- Counterexample to C15 as stated: GOTO mode with the Slew option and three
of the ten iterations used.  The failure is not retried: `solverComplete(false)`
is emitted and no exposure is requested. -/
theorem solver_failure_in_slew_mode_ends_session :
    ({ (Align.equipped GotoOption.slewR : Align ℚ) with solverIterations := 3 }).gotoOption
        = GotoOption.slewR
    ∧ ({ (Align.equipped GotoOption.slewR : Align ℚ) with solverIterations := 3 }).gotoR = true
    ∧ ({ (Align.equipped GotoOption.slewR : Align ℚ) with solverIterations := 3 }).solverIterations
        < MAXIMUM_SOLVER_ITERATIONS
    ∧ Effect.solverComplete false
        ∈ (solverFailed
            { (Align.equipped GotoOption.slewR : Align ℚ) with solverIterations := 3 }).2
    ∧ List.countP Effect.isCapture
        (solverFailed
          { (Align.equipped GotoOption.slewR : Align ℚ) with solverIterations := 3 }).2 = 0 := by
  refine ⟨rfl, rfl, by decide, ?_, rfl⟩
  unfold solverFailed
  simp

/-! ## Field of view -/

theorem calculateFOV_fov_x (s : Align R) :
    (calculateFOV s).fov_x
      = 206264.8062470963552 * (s.ccd_width : R) * s.ccd_hor_pixel / 1000
          / s.focal_length / 60 := by
  show 206264.8062470963552 * (s.ccd_width : R) * s.ccd_hor_pixel / 1000.0
      / s.focal_length / 60.0 = _
  norm_num

theorem calculateFOV_fov_y (s : Align R) :
    (calculateFOV s).fov_y
      = 206264.8062470963552 * (s.ccd_height : R) * s.ccd_ver_pixel / 1000
          / s.focal_length / 60 := by
  show 206264.8062470963552 * (s.ccd_height : R) * s.ccd_ver_pixel / 1000.0
      / s.focal_length / 60.0 = _
  norm_num

/-- The constant of `calculateFOV` and its rounding to twelve digits give
values that agree to one part in 10^12. -/
theorem fov_rounding (w p f : R) :
    |206264.8062470963552 * w * p / 1000 / f / 60 - 206264.806247 * w * p / 1000 / f / 60|
      ≤ |206264.806247 * w * p / 1000 / f / 60| / 10 ^ 12 := by
  have h1 : (206264.8062470963552 : R) * w * p / 1000 / f / 60
      - 206264.806247 * w * p / 1000 / f / 60 = (963552 / 10 ^ 13) * (w * p / 1000 / f / 60) := by
    norm_num
    ring
  have h2 : (206264.806247 : R) * w * p / 1000 / f / 60
      = 206264.806247 * (w * p / 1000 / f / 60) := by ring
  rw [h1, h2, abs_mul, abs_mul]
  have hX := abs_nonneg (w * p / 1000 / f / 60)
  rw [abs_of_pos (by norm_num : (0 : R) < 963552 / 10 ^ 13),
    abs_of_pos (by norm_num : (0 : R) < 206264.806247)]
  have h3 : (963552 / 10 ^ 13 : R) ≤ 206264.806247 / 10 ^ 12 := by norm_num
  calc 963552 / 10 ^ 13 * |w * p / 1000 / f / 60|
      ≤ 206264.806247 / 10 ^ 12 * |w * p / 1000 / f / 60| :=
        mul_le_mul_of_nonneg_right h3 hX
    _ = 206264.806247 * |w * p / 1000 / f / 60| / 10 ^ 12 := by ring

/-- C16 (amended): `calculateFOV` yields, in arcminutes,
fov_x = 206264.8062470963552 * w * px / 1000 / f / 60 and
fov_y = 206264.8062470963552 * h * py / 1000 / f / 60, with the constant of
the code; the binning settings do not enter; each value agrees with the
formula written with the rounded constant 206264.806247 to one part in 10^12. -/
theorem calculateFOV_formula (s : Align R) :
    (calculateFOV s).fov_x
      = 206264.8062470963552 * (s.ccd_width : R) * s.ccd_hor_pixel / 1000
          / s.focal_length / 60
    ∧ (calculateFOV s).fov_y
      = 206264.8062470963552 * (s.ccd_height : R) * s.ccd_ver_pixel / 1000
          / s.focal_length / 60
    ∧ (∀ bx cy : Int,
        (calculateFOV { s with binX := bx, binY := cy }).fov_x = (calculateFOV s).fov_x
        ∧ (calculateFOV { s with binX := bx, binY := cy }).fov_y = (calculateFOV s).fov_y)
    ∧ |(calculateFOV s).fov_x
          - 206264.806247 * (s.ccd_width : R) * s.ccd_hor_pixel / 1000 / s.focal_length / 60|
        ≤ |206264.806247 * (s.ccd_width : R) * s.ccd_hor_pixel / 1000 / s.focal_length / 60|
            / 10 ^ 12
    ∧ |(calculateFOV s).fov_y
          - 206264.806247 * (s.ccd_height : R) * s.ccd_ver_pixel / 1000 / s.focal_length / 60|
        ≤ |206264.806247 * (s.ccd_height : R) * s.ccd_ver_pixel / 1000 / s.focal_length / 60|
            / 10 ^ 12 := by
  refine ⟨calculateFOV_fov_x s, calculateFOV_fov_y s, fun _ _ => ⟨rfl, rfl⟩, ?_, ?_⟩
  · rw [calculateFOV_fov_x]
    exact fov_rounding _ _ _
  · rw [calculateFOV_fov_y]
    exact fov_rounding _ _ _

/-- Counterexample to C16 as stated: f = 1000, px = py = 5.4, w = 1280,
h = 1024.  The values `calculateFOV` yields are those of the constant
206264.8062470963552, not those of 206264.806247. -/
theorem calculateFOV_sample_not_rounded_constant :
    (Align.framed GotoOption.syncR : Align ℚ).focal_length = 1000
    ∧ (Align.framed GotoOption.syncR : Align ℚ).ccd_hor_pixel = 5.4
    ∧ (Align.framed GotoOption.syncR : Align ℚ).ccd_ver_pixel = 5.4
    ∧ (calculateFOV (Align.framed GotoOption.syncR : Align ℚ)).fov_x
        ≠ 206264.806247 * 1280 * 5.4 / 1000 / 1000 / 60
    ∧ (calculateFOV (Align.framed GotoOption.syncR : Align ℚ)).fov_y
        ≠ 206264.806247 * 1024 * 5.4 / 1000 / 1000 / 60
    ∧ (calculateFOV (Align.framed GotoOption.syncR : Align ℚ)).fov_x
        = 206264.8062470963552 * 1280 * 5.4 / 1000 / 1000 / 60
    ∧ (calculateFOV (Align.framed GotoOption.syncR : Align ℚ)).fov_y
        = 206264.8062470963552 * 1024 * 5.4 / 1000 / 1000 / 60 := by
  have hx : (calculateFOV (Align.framed GotoOption.syncR : Align ℚ)).fov_x
      = 206264.8062470963552 * 1280 * 5.4 / 1000 / 1000 / 60 := by
    rw [calculateFOV_fov_x]
    norm_num [Align.framed, Align.equipped, Align.fresh, Align.init]
  have hy : (calculateFOV (Align.framed GotoOption.syncR : Align ℚ)).fov_y
      = 206264.8062470963552 * 1024 * 5.4 / 1000 / 1000 / 60 := by
    rw [calculateFOV_fov_y]
    norm_num [Align.framed, Align.equipped, Align.fresh, Align.init]
  refine ⟨rfl, rfl, rfl, ?_, ?_, hx, hy⟩
  · rw [hx]; norm_num
  · rw [hy]; norm_num

/-- C17: the field of view is strictly decreasing in the focal length: for a
positive frame size and positive pixel sizes and focal lengths 0 < f1 < f2,
`calculateFOV` gives a smaller fov_x and a smaller fov_y at f2 than at f1. -/
theorem calculateFOV_decreasing_in_focal_length (s : Align R) (f1 f2 : R)
    (hw : 0 < s.ccd_width) (hh : 0 < s.ccd_height)
    (hpx : 0 < s.ccd_hor_pixel) (hpy : 0 < s.ccd_ver_pixel)
    (hf1 : 0 < f1) (hf : f1 < f2) :
    (calculateFOV { s with focal_length := f2 }).fov_x
      < (calculateFOV { s with focal_length := f1 }).fov_x
    ∧ (calculateFOV { s with focal_length := f2 }).fov_y
      < (calculateFOV { s with focal_length := f1 }).fov_y := by
  have hwR : (0 : R) < (s.ccd_width : R) := Int.cast_pos.2 hw
  have hhR : (0 : R) < (s.ccd_height : R) := Int.cast_pos.2 hh
  have h60 : (0 : R) < 60.0 := by norm_num
  have hk : (0 : R) < 206264.8062470963552 := by norm_num
  have h1000 : (0 : R) < 1000.0 := by norm_num
  constructor
  · show 206264.8062470963552 * (s.ccd_width : R) * s.ccd_hor_pixel / 1000.0 / f2 / 60.0
      < 206264.8062470963552 * (s.ccd_width : R) * s.ccd_hor_pixel / 1000.0 / f1 / 60.0
    apply div_lt_div_of_pos_right _ h60
    exact div_lt_div_of_pos_left (div_pos (mul_pos (mul_pos hk hwR) hpx) h1000) hf1 hf
  · show 206264.8062470963552 * (s.ccd_height : R) * s.ccd_ver_pixel / 1000.0 / f2 / 60.0
      < 206264.8062470963552 * (s.ccd_height : R) * s.ccd_ver_pixel / 1000.0 / f1 / 60.0
    apply div_lt_div_of_pos_right _ h60
    exact div_lt_div_of_pos_left (div_pos (mul_pos (mul_pos hk hhR) hpy) h1000) hf1 hf

theorem calculateFOV_decreasing_in_focal_length_witness :
    (calculateFOV
        { (Align.framed GotoOption.syncR : Align ℚ) with focal_length := 1000 }).fov_x
      < (calculateFOV
        { (Align.framed GotoOption.syncR : Align ℚ) with focal_length := 500 }).fov_x
    ∧ (calculateFOV
        { (Align.framed GotoOption.syncR : Align ℚ) with focal_length := 1000 }).fov_y
      < (calculateFOV
        { (Align.framed GotoOption.syncR : Align ℚ) with focal_length := 500 }).fov_y :=
  calculateFOV_decreasing_in_focal_length (Align.framed GotoOption.syncR : Align ℚ) 500 1000
    (by decide) (by decide)
    (by norm_num [Align.framed, Align.equipped, Align.fresh, Align.init])
    (by norm_num [Align.framed, Align.equipped, Align.fresh, Align.init])
    (by norm_num) (by norm_num)

/-! ## Solver arguments -/

theorem indexOf?_eq_none_of_not_mem (a : String) (l : List String) (h : a ∉ l) :
    l.indexOf? a = none := by
  unfold List.indexOf?
  rw [List.findIdx?_eq_none_iff]
  intro x hx
  simp only [beq_eq_false_iff_ne, ne_eq]
  intro hxa
  exact h (hxa ▸ hx)

theorem setOption_of_not_mem (args : List String) (flag value : String) (h : flag ∉ args) :
    setOption args flag value = args ++ [flag, value] := by
  unfold setOption
  rw [indexOf?_eq_none_of_not_mem flag args h]

/-- Both coordinate boxes filled, no range complaint, and a radius text that
`toInt` cannot read: `generateArgs` shows the message box and returns with the
form as it was. -/
theorem generateArgs_bad_radius (num : R → String) (s : Align R) (f : SolverForm R)
    (hra : f.raBox.isEmpty = false) (hdec : f.decBox.isEmpty = false)
    (hin : ¬ (f.raBox.ok = true ∧ f.decBox.ok = true
      ∧ ((dmsHours f.raBox.value < 0 ∨ dmsHours f.raBox.value > 24)
        ∨ (f.decBox.value < -90 ∨ f.decBox.value > 90))))
    (hrad : f.radiusBox.isEmpty = false) (hradOk : f.radiusBox.ok = false) :
    generateArgs num s f = (f, [Effect.messageBox Msg.invalidRadius]) := by
  unfold generateArgs
  simp only []
  rw [if_pos ⟨hra, hdec⟩, if_neg hin]
  simp only [hrad, hradOk, if_true]

/-- Both coordinate boxes filled, no range complaint, a radius that `toInt`
reads, and no argument equal to one of the flags `-3`, `-4`, `-5` around:
`generateArgs` appends the hint to the argument list. -/
theorem generateArgs_writes_hint (num : R → String) (s : Align R) (f : SolverForm R)
    (hra : f.raBox.isEmpty = false) (hdec : f.decBox.isEmpty = false)
    (hin : ¬ (f.raBox.ok = true ∧ f.decBox.ok = true
      ∧ ((dmsHours f.raBox.value < 0 ∨ dmsHours f.raBox.value > 24)
        ∨ (f.decBox.value < -90 ∨ f.decBox.value > 90))))
    (hrad : f.radiusBox.isEmpty = false) (hradOk : f.radiusBox.ok = true)
    (h3 : "-3" ∉ baseArgs num s f.solverOptions)
    (h4 : "-4" ∉ baseArgs num s f.solverOptions)
    (h5 : "-5" ∉ baseArgs num s f.solverOptions)
    (hr4 : num f.raBox.value ≠ "-4") (hr5 : num f.raBox.value ≠ "-5")
    (hd5 : num f.decBox.value ≠ "-5") :
    (generateArgs num s f).1.solverOptions
      = baseArgs num s f.solverOptions
          ++ ["-3", num f.raBox.value, "-4", num f.decBox.value,
              "-5", toString f.radiusBox.value]
    ∧ (generateArgs num s f).2 = [] := by
  have e3 := setOption_of_not_mem (baseArgs num s f.solverOptions) "-3" (num f.raBox.value) h3
  have m4 : "-4" ∉ baseArgs num s f.solverOptions ++ ["-3", num f.raBox.value] := by
    intro h
    rcases List.mem_append.1 h with h | h
    · exact h4 h
    · simp only [List.mem_cons, List.mem_singleton, List.not_mem_nil, or_false] at h
      rcases h with h | h
      · exact absurd h (by decide)
      · exact hr4 h.symm
  have e4 := setOption_of_not_mem _ "-4" (num f.decBox.value) m4
  have m5 : "-5" ∉ baseArgs num s f.solverOptions ++ ["-3", num f.raBox.value]
      ++ ["-4", num f.decBox.value] := by
    intro h
    rcases List.mem_append.1 h with h | h
    · rcases List.mem_append.1 h with h | h
      · exact h5 h
      · simp only [List.mem_cons, List.mem_singleton, List.not_mem_nil, or_false] at h
        rcases h with h | h
        · exact absurd h (by decide)
        · exact hr5 h.symm
    · simp only [List.mem_cons, List.mem_singleton, List.not_mem_nil, or_false] at h
      rcases h with h | h
      · exact absurd h (by decide)
      · exact hd5 h.symm
  have e5 := setOption_of_not_mem _ "-5" (toString f.radiusBox.value) m5
  unfold generateArgs
  simp only []
  rw [if_pos ⟨hra, hdec⟩, if_neg hin]
  simp only [hrad, hradOk, if_true, Bool.true_eq_false, if_false]
  rw [e3, e4, e5]
  simp

/-- The argument list of the framed sample, whose field of view is still 0. -/
theorem baseArgs_framed (opt : GotoOption) :
    baseArgs wholePart (Align.framed opt : Align ℚ) []
      = defaultSolverArgs ++ ["-L", "0", "-H", "0", "-u", "aw"] := by
  have h1 : fovLower (0 : ℚ) 0 = 0 := by norm_num [fovLower]
  have h2 : fovUpper (0 : ℚ) 0 = 0 := by norm_num [fovUpper]
  have h3 : wholePart 0 = "0" := by decide
  show defaultSolverArgs ++ ["-L", wholePart (fovLower 0 0), "-H", wholePart (fovUpper 0 0),
    "-u", "aw"] = _
  rw [h1, h2, h3]

theorem hintFlagsHaveValues_tail (a : String) (l : List String)
    (h : hintFlagsHaveValues (a :: l)) : hintFlagsHaveValues l :=
  h.2

theorem dmsReduce_range (D : R) : 0 ≤ dmsReduce D ∧ dmsReduce D < 360 := by
  unfold dmsReduce
  have h1 := Int.floor_le (D / 360)
  have h2 := Int.lt_floor_add_one (D / 360)
  have e : D / 360 * 360 = D := by field_simp
  constructor
  · nlinarith
  · nlinarith

/-- The hours `dms::Hours` reports lie from 0 up to but not including 24. -/
theorem dmsHours_range (d : R) : 0 ≤ dmsHours d ∧ dmsHours d < 24 := by
  obtain ⟨h1, h2⟩ := dmsReduce_range d
  unfold dmsHours
  constructor
  · positivity
  · rw [div_lt_iff₀ (by norm_num)]
    linarith

/-- The range test of `generateArgs` is decided by the Dec alone. -/
theorem generateArgs_range_test (d dec : R) :
    ((dmsHours d < 0 ∨ dmsHours d > 24) ∨ (dec < -90 ∨ dec > 90)) ↔ (dec < -90 ∨ dec > 90) := by
  obtain ⟨h1, h2⟩ := dmsHours_range d
  constructor
  · rintro ((h | h) | h)
    · exact absurd h (not_lt.2 h1)
    · exact absurd h (not_lt.2 h2.le)
    · exact h
  · exact Or.inr

/-- A parsed hint with the Dec from -90 to 90 degrees draws no range complaint,
whatever its RA. -/
theorem hint_dec_in_range (ra dec : ℚ) (radius : Int) (h3 : -90 ≤ dec) (h4 : dec ≤ 90) :
    ¬ ((SolverForm.hint ra dec radius).raBox.ok = true
      ∧ (SolverForm.hint ra dec radius).decBox.ok = true
      ∧ ((dmsHours (SolverForm.hint ra dec radius).raBox.value < 0
          ∨ dmsHours (SolverForm.hint ra dec radius).raBox.value > 24)
        ∨ ((SolverForm.hint ra dec radius).decBox.value < -90
          ∨ (SolverForm.hint ra dec radius).decBox.value > 90))) := by
  rintro ⟨_, _, h⟩
  rcases (generateArgs_range_test _ _).1 h with h | h
  · have : dec < -90 := h
    linarith
  · have : dec > 90 := h
    linarith

theorem hint_in_range (ra dec : ℚ) (radius : Int)
    (_h1 : 0 ≤ ra) (_h2 : ra ≤ 360) (h3 : -90 ≤ dec) (h4 : dec ≤ 90) :
    ¬ ((SolverForm.hint ra dec radius).raBox.ok = true
      ∧ (SolverForm.hint ra dec radius).decBox.ok = true
      ∧ ((dmsHours (SolverForm.hint ra dec radius).raBox.value < 0
          ∨ dmsHours (SolverForm.hint ra dec radius).raBox.value > 24)
        ∨ ((SolverForm.hint ra dec radius).decBox.value < -90
          ∨ (SolverForm.hint ra dec radius).decBox.value > 90))) :=
  hint_dec_in_range ra dec radius h3 h4

/-- C13 (amended): for a hint with RA and Dec filled, parsed and in range and
a radius box that is filled in, `generateArgs` rejects the input, leaving the
options text as it was, when `toInt` cannot read the radius.  A radius that
`toInt` reads is written after `-5` whatever its sign, zero and negative
values included (no argument equal to one of the flags `-3`, `-4`, `-5`
around). -/
theorem generateArgs_radius_check (num : R → String) (s : Align R) (f : SolverForm R)
    (hra : f.raBox.isEmpty = false) (hdec : f.decBox.isEmpty = false)
    (hin : ¬ (f.raBox.ok = true ∧ f.decBox.ok = true
      ∧ ((dmsHours f.raBox.value < 0 ∨ dmsHours f.raBox.value > 24)
        ∨ (f.decBox.value < -90 ∨ f.decBox.value > 90))))
    (hrad : f.radiusBox.isEmpty = false) :
    (f.radiusBox.ok = false →
      generateArgs num s f = (f, [Effect.messageBox Msg.invalidRadius]))
    ∧ (f.radiusBox.ok = true →
        "-3" ∉ baseArgs num s f.solverOptions →
        "-4" ∉ baseArgs num s f.solverOptions →
        "-5" ∉ baseArgs num s f.solverOptions →
        num f.raBox.value ≠ "-4" → num f.raBox.value ≠ "-5" →
        num f.decBox.value ≠ "-5" →
        (generateArgs num s f).1.solverOptions
          = baseArgs num s f.solverOptions
              ++ ["-3", num f.raBox.value, "-4", num f.decBox.value,
                  "-5", toString f.radiusBox.value]
        ∧ (generateArgs num s f).2 = []) :=
  ⟨fun hbad => generateArgs_bad_radius num s f hra hdec hin hrad hbad,
   fun hok h3 h4 h5 hr4 hr5 hd5 =>
    generateArgs_writes_hint num s f hra hdec hin hrad hok h3 h4 h5 hr4 hr5 hd5⟩

theorem generateArgs_radius_check_witness :
    (generateArgs wholePart (Align.framed GotoOption.syncR : Align ℚ)
        (SolverForm.hint 180 45 0)).1.solverOptions
      = baseArgs wholePart (Align.framed GotoOption.syncR : Align ℚ) []
          ++ ["-3", wholePart 180, "-4", wholePart 45, "-5", toString (0 : Int)]
    ∧ (generateArgs wholePart (Align.framed GotoOption.syncR : Align ℚ)
        (SolverForm.hint 180 45 0)).2 = [] :=
  (generateArgs_radius_check wholePart (Align.framed GotoOption.syncR : Align ℚ)
    (SolverForm.hint 180 45 0) rfl rfl
    (hint_in_range 180 45 0 (by norm_num) (by norm_num) (by norm_num) (by norm_num)) rfl).2
    rfl
    (by rw [SolverForm.hint, baseArgs_framed]; decide)
    (by rw [SolverForm.hint, baseArgs_framed]; decide)
    (by rw [SolverForm.hint, baseArgs_framed]; decide)
    (by decide) (by decide) (by decide)

/-- Counterexample to C13 as stated: a hint with RA = 12 h (180 degrees),
Dec = 45 and radius -5.  It is not rejected: no message box is shown and
`-5 -5` is written at the end of the options. -/
theorem negative_radius_is_written :
    (SolverForm.hint (180 : ℚ) 45 (-5)).radiusBox.value ≤ 0
    ∧ (generateArgs wholePart (Align.framed GotoOption.syncR : Align ℚ)
        (SolverForm.hint 180 45 (-5))).2 = []
    ∧ (generateArgs wholePart (Align.framed GotoOption.syncR : Align ℚ)
        (SolverForm.hint 180 45 (-5))).1.solverOptions
      = ["--no-verify", "--no-plots", "--no-fits2fits", "--resort", "--downsample", "2", "-O",
         "-L", "0", "-H", "0", "-u", "aw", "-3", "180", "-4", "45", "-5", "-5"] := by
  have h := generateArgs_writes_hint wholePart (Align.framed GotoOption.syncR : Align ℚ)
    (SolverForm.hint 180 45 (-5)) rfl rfl
    (hint_in_range 180 45 (-5) (by norm_num) (by norm_num) (by norm_num) (by norm_num)) rfl rfl
    (by rw [SolverForm.hint, baseArgs_framed]; decide)
    (by rw [SolverForm.hint, baseArgs_framed]; decide)
    (by rw [SolverForm.hint, baseArgs_framed]; decide)
    (by decide) (by decide) (by decide)
  refine ⟨by decide, h.2, ?_⟩
  rw [h.1]
  rw [SolverForm.hint, baseArgs_framed]
  decide

/-! ## Solver arguments from an image file -/

section SexagesimalFacts


theorem truncInt_of_nonneg (x : R) (h : 0 ≤ x) : truncInt x = ⌊x⌋ := by
  unfold truncInt
  rw [if_pos h]

theorem truncInt_of_neg (x : R) (h : x < 0) : truncInt x = ⌈x⌉ := by
  unfold truncInt
  rw [if_neg (not_le.2 h)]

/-- Whole part, sixtieths and sixtieths of sixtieths of a non-negative number:
the two lower parts lie in 0..59 and what is left over is less than 1/3600. -/
theorem sexagesimal_split (x : R) (hx : 0 ≤ x) :
    0 ≤ ⌊x⌋
    ∧ 0 ≤ 60 * (x - (⌊x⌋ : R))
    ∧ 0 ≤ ⌊60 * (x - (⌊x⌋ : R))⌋ ∧ ⌊60 * (x - (⌊x⌋ : R))⌋ ≤ 59
    ∧ 0 ≤ 60 * (60 * (x - (⌊x⌋ : R)) - (⌊60 * (x - (⌊x⌋ : R))⌋ : R))
    ∧ 0 ≤ ⌊60 * (60 * (x - (⌊x⌋ : R)) - (⌊60 * (x - (⌊x⌋ : R))⌋ : R))⌋
    ∧ ⌊60 * (60 * (x - (⌊x⌋ : R)) - (⌊60 * (x - (⌊x⌋ : R))⌋ : R))⌋ ≤ 59
    ∧ 0 ≤ x - ((⌊x⌋ : R) + (⌊60 * (x - (⌊x⌋ : R))⌋ : R) / 60
        + (⌊60 * (60 * (x - (⌊x⌋ : R)) - (⌊60 * (x - (⌊x⌋ : R))⌋ : R))⌋ : R) / 3600)
    ∧ x - ((⌊x⌋ : R) + (⌊60 * (x - (⌊x⌋ : R))⌋ : R) / 60
        + (⌊60 * (60 * (x - (⌊x⌋ : R)) - (⌊60 * (x - (⌊x⌋ : R))⌋ : R))⌋ : R) / 3600)
      < 1 / 3600 := by
  have ha1 : (⌊x⌋ : R) ≤ x := Int.floor_le x
  have ha2 : x < (⌊x⌋ : R) + 1 := Int.lt_floor_add_one x
  have hy0 : 0 ≤ 60 * (x - (⌊x⌋ : R)) := by linarith
  have hy1 : 60 * (x - (⌊x⌋ : R)) < 60 := by linarith
  have hb1 := Int.floor_le (60 * (x - (⌊x⌋ : R)))
  have hb2 := Int.lt_floor_add_one (60 * (x - (⌊x⌋ : R)))
  have hb60 : ⌊60 * (x - (⌊x⌋ : R))⌋ < 60 := Int.floor_lt.2 (by exact_mod_cast hy1)
  have hz0 : 0 ≤ 60 * (60 * (x - (⌊x⌋ : R)) - (⌊60 * (x - (⌊x⌋ : R))⌋ : R)) := by linarith
  have hz1 : 60 * (60 * (x - (⌊x⌋ : R)) - (⌊60 * (x - (⌊x⌋ : R))⌋ : R)) < 60 := by linarith
  have hc1 := Int.floor_le (60 * (60 * (x - (⌊x⌋ : R)) - (⌊60 * (x - (⌊x⌋ : R))⌋ : R)))
  have hc2 := Int.lt_floor_add_one
    (60 * (60 * (x - (⌊x⌋ : R)) - (⌊60 * (x - (⌊x⌋ : R))⌋ : R)))
  have hc60 : ⌊60 * (60 * (x - (⌊x⌋ : R)) - (⌊60 * (x - (⌊x⌋ : R))⌋ : R))⌋ < 60 :=
    Int.floor_lt.2 (by exact_mod_cast hz1)
  refine ⟨Int.floor_nonneg.2 hx, hy0, Int.floor_nonneg.2 hy0, by omega, hz0,
    Int.floor_nonneg.2 hz0, by omega, ?_, ?_⟩
  · linarith
  · linarith

theorem raFields_eq (r : R) (h0 : 0 ≤ r) (h24 : r < 24) :
    raFields r
      = (⌊r⌋, ⌊60 * (r - (⌊r⌋ : R))⌋,
          ⌊60 * (60 * (r - (⌊r⌋ : R)) - (⌊60 * (r - (⌊r⌋ : R))⌋ : R))⌋) := by
  obtain ⟨_, hy0, _, _, hz0, _⟩ := sexagesimal_split r h0
  have hfl : ⌊dmsSetH r / 360⌋ = 0 := by
    rw [Int.floor_eq_zero_iff]
    unfold dmsSetH
    constructor
    · positivity
    · linarith
  have hred : dmsReduce (dmsSetH r) / 15 = r := by
    unfold dmsReduce
    rw [hfl]
    unfold dmsSetH
    norm_num
  unfold raFields dmsSecond dmsMinute dmsHour
  rw [hred, truncInt_of_nonneg r h0, truncInt_of_nonneg _ hy0, truncInt_of_nonneg _ hz0]

theorem decFields_of_nonneg (d : R) (hd : 0 ≤ d) :
    decFields d
      = (false, ⌊d⌋, ⌊60 * (d - (⌊d⌋ : R))⌋,
          ⌊60 * (60 * (d - (⌊d⌋ : R)) - (⌊60 * (d - (⌊d⌋ : R))⌋ : R))⌋) := by
  obtain ⟨ha, hy0, hb, _, hz0, _⟩ := sexagesimal_split d hd
  have hdeg : dmsDegree d = ⌊d⌋ := truncInt_of_nonneg d hd
  have haR : (0 : R) ≤ (⌊d⌋ : R) := Int.cast_nonneg.2 ha
  have hbR : (0 : R) ≤ (⌊60 * (d - (⌊d⌋ : R))⌋ : R) := Int.cast_nonneg.2 hb
  have hmin : dmsArcmin d = ⌊60 * (d - (⌊d⌋ : R))⌋ := by
    unfold dmsArcmin
    simp only []
    rw [if_neg (fun h => absurd h.1 (not_lt.2 hd)), hdeg, abs_of_nonneg hd, abs_of_nonneg haR,
      truncInt_of_nonneg _ hy0]
  have hsec : dmsArcsec d
      = ⌊60 * (60 * (d - (⌊d⌋ : R)) - (⌊60 * (d - (⌊d⌋ : R))⌋ : R))⌋ := by
    unfold dmsArcsec
    simp only []
    rw [if_neg (fun h => absurd h.2.2 (not_lt.2 hd)), hmin, hdeg, abs_of_nonneg hd,
      abs_of_nonneg haR, abs_of_nonneg hbR, truncInt_of_nonneg _ hz0]
  unfold decFields
  rw [if_neg (not_lt.2 hd), hdeg, hmin, hsec]

theorem decFields_of_neg (d : R) (hd : d ≤ -(1 / 60)) :
    decFields d
      = (true, ⌊-d⌋, ⌊60 * (-d - (⌊-d⌋ : R))⌋,
          ⌊60 * (60 * (-d - (⌊-d⌋ : R)) - (⌊60 * (-d - (⌊-d⌋ : R))⌋ : R))⌋) := by
  have hneg : d < 0 := by
    have : (0 : R) < 1 / 60 := by norm_num
    linarith
  have he : (0 : R) ≤ -d := by linarith
  obtain ⟨ha, hy0, hb, _, hz0, _⟩ := sexagesimal_split (-d) he
  have hdeg : dmsDegree d = -⌊-d⌋ := by
    have h1 : dmsDegree d = ⌈d⌉ := truncInt_of_neg d hneg
    rw [h1, Int.floor_neg, neg_neg]
  have haR : (0 : R) ≤ (⌊-d⌋ : R) := Int.cast_nonneg.2 ha
  have hbR : (0 : R) ≤ (⌊60 * (-d - (⌊-d⌋ : R))⌋ : R) := Int.cast_nonneg.2 hb
  have hdegR : |((dmsDegree d : Int) : R)| = (⌊-d⌋ : R) := by
    rw [hdeg, Int.cast_neg, abs_neg, abs_of_nonneg haR]
  have hmin : |dmsArcmin d| = ⌊60 * (-d - (⌊-d⌋ : R))⌋ := by
    unfold dmsArcmin
    simp only []
    rw [hdegR, abs_of_neg hneg, truncInt_of_nonneg _ hy0]
    split_ifs
    · rw [abs_neg, abs_of_nonneg hb]
    · rw [abs_of_nonneg hb]
  have hminR : |((dmsArcmin d : Int) : R)| = (⌊60 * (-d - (⌊-d⌋ : R))⌋ : R) := by
    rw [← Int.cast_abs, hmin]
  have hsec : dmsArcsec d
      = ⌊60 * (60 * (-d - (⌊-d⌋ : R)) - (⌊60 * (-d - (⌊-d⌋ : R))⌋ : R))⌋ := by
    have hcond : ¬ (dmsDegree d = 0 ∧ dmsArcmin d = 0 ∧ d < 0) := by
      rintro ⟨h1, h2, _⟩
      have hfl : ⌊-d⌋ = 0 := by
        rw [hdeg] at h1
        omega
      have hfm : ⌊60 * (-d - (⌊-d⌋ : R))⌋ = 0 := by
        rw [← hmin, h2]
        rfl
      have h3 := Int.lt_floor_add_one (60 * (-d - (⌊-d⌋ : R)))
      rw [hfm, hfl] at h3
      norm_num at h3
      linarith
    unfold dmsArcsec
    simp only []
    rw [if_neg hcond, hdegR, hminR, abs_of_neg hneg, truncInt_of_nonneg _ hz0]
  unfold decFields
  rw [if_pos hneg, hmin, hsec, hdeg, abs_neg, abs_of_nonneg ha]

/-- C20 (amended): for RA r in [0, 24) hours and Dec d in [-90, 90] degrees
that is not between -1 arcminute and 0, every field of the two texts of
`getFormattedCoords` is a non-negative integer with minutes and seconds in
0..59 (hours at most 23, degrees at most 90, a leading `-` exactly when
d < 0); reading the Dec text back gives d to within 1 arcsecond, and reading
the RA text back gives r to within 1 second of time, which is 15 arcseconds. -/
theorem getFormattedCoords_round_trip (r d : R) (hr0 : 0 ≤ r) (hr1 : r < 24)
    (hd0 : -90 ≤ d) (hd1 : d ≤ 90) (hd : 0 ≤ d ∨ d ≤ -(1 / 60)) :
    getFormattedCoords r d
      = (arg2 (raFields r).1 ++ ":" ++ arg2 (raFields r).2.1 ++ ":" ++ arg2 (raFields r).2.2,
         (if (decFields d).1 = true then "-" else "") ++ arg2 (decFields d).2.1 ++ ":"
           ++ arg2 (decFields d).2.2.1 ++ ":" ++ arg2 (decFields d).2.2.2)
    ∧ sexagesimalFields (raFields r).1 (raFields r).2.1 (raFields r).2.2
    ∧ (raFields r).1 ≤ 23
    ∧ 0 ≤ r - raOfFields (raFields r).1 (raFields r).2.1 (raFields r).2.2
    ∧ r - raOfFields (raFields r).1 (raFields r).2.1 (raFields r).2.2 < 1 / 3600
    ∧ sexagesimalFields (decFields d).2.1 (decFields d).2.2.1 (decFields d).2.2.2
    ∧ (decFields d).2.1 ≤ 90
    ∧ ((decFields d).1 = true ↔ d < 0)
    ∧ |d - decOfFields (decFields d).1 (decFields d).2.1 (decFields d).2.2.1
          (decFields d).2.2.2| < 1 / 3600 := by
  obtain ⟨a1, _, a2, a3, _, a4, a5, a6, a7⟩ := sexagesimal_split r hr0
  have hh : ⌊r⌋ ≤ 23 := by
    have : ⌊r⌋ < 24 := Int.floor_lt.2 (by exact_mod_cast hr1)
    omega
  refine ⟨rfl, ?_, ?_, ?_, ?_, ?_⟩
  · rw [raFields_eq r hr0 hr1]
    exact ⟨a1, a2, a3, a4, a5⟩
  · rw [raFields_eq r hr0 hr1]
    exact hh
  · rw [raFields_eq r hr0 hr1]
    exact a6
  · rw [raFields_eq r hr0 hr1]
    exact a7
  · rcases hd with hd | hd
    · obtain ⟨b1, _, b2, b3, _, b4, b5, b6, b7⟩ := sexagesimal_split d hd
      rw [decFields_of_nonneg d hd]
      refine ⟨⟨b1, b2, b3, b4, b5⟩, ?_, ?_, ?_⟩
      · show ⌊d⌋ ≤ 90
        exact Int.floor_le_iff.2 (by push_cast; linarith)
      · constructor
        · intro h
          exact absurd h Bool.false_ne_true
        · intro h
          exact absurd h (not_lt.2 hd)
      · show |d - decOfFields false _ _ _| < 1 / 3600
        unfold decOfFields
        rw [if_neg (by decide), one_mul, abs_of_nonneg b6]
        exact b7
    · have hneg : d < 0 := by
        have : (0 : R) < 1 / 60 := by norm_num
        linarith
      have he : (0 : R) ≤ -d := by linarith
      obtain ⟨b1, _, b2, b3, _, b4, b5, b6, b7⟩ := sexagesimal_split (-d) he
      rw [decFields_of_neg d hd]
      refine ⟨⟨b1, b2, b3, b4, b5⟩, ?_, ?_, ?_⟩
      · show ⌊-d⌋ ≤ 90
        exact Int.floor_le_iff.2 (by push_cast; linarith)
      · constructor
        · intro _
          exact hneg
        · intro _
          rfl
      · show |d - decOfFields true _ _ _| < 1 / 3600
        unfold decOfFields
        rw [if_pos rfl, abs_lt]
        constructor <;> linarith

theorem getFormattedCoords_round_trip_witness :
    sexagesimalFields (raFields (25 / 2 : ℚ)).1 (raFields (25 / 2 : ℚ)).2.1
        (raFields (25 / 2 : ℚ)).2.2
    ∧ |(-181 / 4 : ℚ) - decOfFields (decFields (-181 / 4 : ℚ)).1 (decFields (-181 / 4 : ℚ)).2.1
          (decFields (-181 / 4 : ℚ)).2.2.1 (decFields (-181 / 4 : ℚ)).2.2.2| < 1 / 3600 :=
  ⟨(getFormattedCoords_round_trip (25 / 2 : ℚ) (-181 / 4) (by norm_num) (by norm_num)
      (by norm_num) (by norm_num) (Or.inr (by norm_num))).2.1,
   (getFormattedCoords_round_trip (25 / 2 : ℚ) (-181 / 4) (by norm_num) (by norm_num)
      (by norm_num) (by norm_num) (Or.inr (by norm_num))).2.2.2.2.2.2.2.2⟩

/-- Counterexample to C20 as stated: RA = 1/7200 h (half a second of time)
and Dec = 0.  Both texts are `00:00:00`; read back, the RA is 0 h, which is
7.5 arcseconds away from the input. -/
theorem ra_half_second_is_lost :
    raFields (1 / 7200 : ℚ) = (0, 0, 0)
    ∧ getFormattedCoords (1 / 7200 : ℚ) 0 = ("00:00:00", "00:00:00")
    ∧ (1 : ℚ) < ((1 / 7200 : ℚ) - raOfFields 0 0 0) * 15 * 3600 := by
  have f1 : ⌊(1 / 7200 : ℚ)⌋ = 0 := by
    rw [Int.floor_eq_zero_iff]
    constructor <;> norm_num
  have f2 : ⌊(60 : ℚ) * (1 / 7200 - ((0 : Int) : ℚ))⌋ = 0 := by
    rw [Int.floor_eq_zero_iff]
    constructor <;> norm_num
  have f3 : ⌊(60 : ℚ) * (60 * (1 / 7200 - ((0 : Int) : ℚ)) - ((0 : Int) : ℚ))⌋ = 0 := by
    rw [Int.floor_eq_zero_iff]
    constructor <;> norm_num
  have hra : raFields (1 / 7200 : ℚ) = (0, 0, 0) := by
    rw [raFields_eq _ (by norm_num) (by norm_num), f1, f2, f3]
  have g1 : ⌊(0 : ℚ)⌋ = 0 := Int.floor_zero
  have g2 : ⌊(60 : ℚ) * (0 - ((0 : Int) : ℚ))⌋ = 0 := by
    rw [Int.floor_eq_zero_iff]
    constructor <;> norm_num
  have g3 : ⌊(60 : ℚ) * (60 * (0 - ((0 : Int) : ℚ)) - ((0 : Int) : ℚ))⌋ = 0 := by
    rw [Int.floor_eq_zero_iff]
    constructor <;> norm_num
  have hdec : decFields (0 : ℚ) = (false, 0, 0, 0) := by
    rw [decFields_of_nonneg _ le_rfl, g1, g2, g3]
  refine ⟨hra, ?_, ?_⟩
  · unfold getFormattedCoords
    simp only []
    rw [hra, hdec]
    decide
  · unfold raOfFields
    norm_num

/-- A declination of -18 arcseconds (-1/200 degree): degrees and arcminutes
are zero, so the arcseconds carry the sign, and since they do not go through
`abs` the Dec text is `-00:00:-18`. -/
theorem getFormattedCoords_dec_minus_18_arcsec :
    decFields (-1 / 200 : ℚ) = (true, 0, 0, -18)
    ∧ getFormattedCoords (0 : ℚ) (-1 / 200) = ("00:00:00", "-00:00:-18")
    ∧ ¬ sexagesimalFields 0 0 (-18) := by
  have hneg : (-1 / 200 : ℚ) < 0 := by norm_num
  have hdeg : dmsDegree (-1 / 200 : ℚ) = 0 := by
    have h1 : dmsDegree (-1 / 200 : ℚ) = ⌈(-1 / 200 : ℚ)⌉ := truncInt_of_neg _ hneg
    rw [h1, Int.ceil_eq_iff]
    constructor <;> norm_num
  have hmin : dmsArcmin (-1 / 200 : ℚ) = 0 := by
    have h2 : truncInt ((60 : ℚ) * (|(-1 / 200 : ℚ)| - |((0 : Int) : ℚ)|)) = 0 := by
      rw [truncInt_of_nonneg _ (by norm_num [abs_of_neg]), Int.floor_eq_zero_iff]
      constructor <;> norm_num [abs_of_neg]
    unfold dmsArcmin
    simp only []
    rw [hdeg, h2]
    norm_num
  have hsec : dmsArcsec (-1 / 200 : ℚ) = -18 := by
    have h3 : truncInt ((60 : ℚ) * (60 * (|(-1 / 200 : ℚ)| - |((0 : Int) : ℚ)|)
        - |((0 : Int) : ℚ)|)) = 18 := by
      rw [truncInt_of_nonneg _ (by norm_num [abs_of_neg]), Int.floor_eq_iff]
      constructor <;> norm_num [abs_of_neg]
    unfold dmsArcsec
    simp only []
    rw [hmin, hdeg, h3]
    norm_num
  have hd : decFields (-1 / 200 : ℚ) = (true, 0, 0, -18) := by
    unfold decFields
    rw [if_pos hneg, hdeg, hmin, hsec]
    rfl
  have g1 : ⌊(0 : ℚ)⌋ = 0 := Int.floor_zero
  have g2 : ⌊(60 : ℚ) * (0 - ((0 : Int) : ℚ))⌋ = 0 := by
    rw [Int.floor_eq_zero_iff]
    constructor <;> norm_num
  have g3 : ⌊(60 : ℚ) * (60 * (0 - ((0 : Int) : ℚ)) - ((0 : Int) : ℚ))⌋ = 0 := by
    rw [Int.floor_eq_zero_iff]
    constructor <;> norm_num
  have hra : raFields (0 : ℚ) = (0, 0, 0) := by
    rw [raFields_eq _ le_rfl (by norm_num), g1, g2, g3]
  refine ⟨hd, ?_, ?_⟩
  · unfold getFormattedCoords
    simp only []
    rw [hra, hd]
    decide
  · unfold sexagesimalFields
    decide

end SexagesimalFacts

/-! ## Scheduler states -/

/-- C21 (amended): `Scheduler::StateChoice` has twelve states with the values
0 to 11.  Nine phases of the specification have a state of their own: Idle,
StartingDevices (`STARTING_EKOS`), Connecting, Connected, Finished, Aborted,
ParkTelescope, WarmCCD and CloseDome, and these states are pairwise distinct.
Slewing, Focusing, Aligning, Guiding and Capturing have none; the remaining
enumerators are `EKOS_STARTED`, `READY` and `SHUTDOWN`. -/
theorem stateChoice_covers_nine_phases :
    Fintype.card Scheduler.StateChoice = 12
    ∧ Function.Injective Scheduler.StateChoice.value
    ∧ (∀ s : Scheduler.StateChoice, s.value < 12)
    ∧ (∀ p q : SpecPhase, ∀ s : Scheduler.StateChoice,
        p.state? = some s → q.state? = some s → p = q)
    ∧ (∀ p : SpecPhase, p.state? = none ↔
        p = SpecPhase.slewing ∨ p = SpecPhase.focusing ∨ p = SpecPhase.aligning
          ∨ p = SpecPhase.guiding ∨ p = SpecPhase.capturing)
    ∧ (∀ s : Scheduler.StateChoice, (∀ p : SpecPhase, p.state? ≠ some s) ↔
        s = Scheduler.StateChoice.EKOS_STARTED ∨ s = Scheduler.StateChoice.READY
          ∨ s = Scheduler.StateChoice.SHUTDOWN) := by
  refine ⟨by decide, ?_, by decide, by decide, by decide, by decide⟩
  intro a b h
  cases a <;> cases b <;> first | rfl | exact absurd h (by decide)

/-- Counterexample to C21 as stated: the specification names fourteen phases
and the state type has twelve values, so no assignment gives every phase a
state of its own. -/
theorem no_distinct_state_for_every_phase :
    Fintype.card SpecPhase = 14
    ∧ Fintype.card Scheduler.StateChoice = 12
    ∧ ¬ ∃ f : SpecPhase → Scheduler.StateChoice, Function.Injective f := by
  refine ⟨by decide, by decide, ?_⟩
  rintro ⟨f, hf⟩
  have h := Fintype.card_le_of_injective f hf
  have h1 : Fintype.card SpecPhase = 14 := by decide
  have h2 : Fintype.card Scheduler.StateChoice = 12 := by decide
  omega

/-! ## Polar alignment: the FirstTarget and Finished stages -/

/-- C22: in the FirstTarget stage of either axis the solved position is stored
as (initRA, initDEC, initAz) and the mount is moved by `RAMotion` = 0.5
degrees (30 arcminutes, 1/30 hour) in RA with Dec unchanged.  A mount that
can sync is synced to (initRA/15, initDEC) and slewed to
((initRA - 0.5)/15, initDEC), and the stage becomes Syncing; otherwise it is
slewed to (telescope RA in hours - 0.5/15, telescope Dec) and the stage
becomes Slewing.  Both axes use the same offset. -/
theorem firstTarget_moves_half_degree_in_ra (env : Env R) (s : Align R) :
    ((RAMotion : R) = 0.5 ∧ (RAMotion : R) = 30 / 60 ∧ (RAMotion : R) / 15 = 1 / 30
      ∧ (s.alignCoord.ra - RAMotion) / 15 = s.alignCoord.ra / 15 - 1 / 30)
    ∧ (s.azStage = AZStage.AZ_FIRST_TARGET → s.canSync = true →
        (measureAzError env s).2
            = [Effect.telescopeSync (s.alignCoord.ra / 15) s.alignCoord.dec,
               Effect.telescopeSlew ((s.alignCoord.ra - 0.5) / 15) s.alignCoord.dec,
               Effect.log Msg.slewing30]
        ∧ (measureAzError env s).1.azStage = AZStage.AZ_SYNCING
        ∧ (measureAzError env s).1.azInitRA = s.alignCoord.ra
        ∧ (measureAzError env s).1.azInitDEC = s.alignCoord.dec
        ∧ (measureAzError env s).1.azInitAz = s.alignCoord.az)
    ∧ (s.azStage = AZStage.AZ_FIRST_TARGET → s.canSync = false →
        (measureAzError env s).2
            = [Effect.telescopeSlew (dmsHours s.telescopeCoord.ra - 0.5 / 15)
                 s.telescopeCoord.dec,
               Effect.log Msg.slewing30]
        ∧ (measureAzError env s).1.azStage = AZStage.AZ_SLEWING
        ∧ (measureAzError env s).1.azInitRA = s.alignCoord.ra
        ∧ (measureAzError env s).1.azInitDEC = s.alignCoord.dec
        ∧ (measureAzError env s).1.azInitAz = s.alignCoord.az)
    ∧ (s.altStage = ALTStage.ALT_FIRST_TARGET → s.canSync = true →
        (measureAltError env s).2
            = [Effect.telescopeSync (s.alignCoord.ra / 15) s.alignCoord.dec,
               Effect.telescopeSlew ((s.alignCoord.ra - 0.5) / 15) s.alignCoord.dec,
               Effect.log Msg.slewing30]
        ∧ (measureAltError env s).1.altStage = ALTStage.ALT_SYNCING
        ∧ (measureAltError env s).1.altInitRA = s.alignCoord.ra
        ∧ (measureAltError env s).1.altInitDEC = s.alignCoord.dec
        ∧ (measureAltError env s).1.altInitAz = s.alignCoord.az)
    ∧ (s.altStage = ALTStage.ALT_FIRST_TARGET → s.canSync = false →
        (measureAltError env s).2
            = [Effect.telescopeSlew (dmsHours s.telescopeCoord.ra - 0.5 / 15)
                 s.telescopeCoord.dec,
               Effect.log Msg.slewing30]
        ∧ (measureAltError env s).1.altStage = ALTStage.ALT_SLEWING
        ∧ (measureAltError env s).1.altInitRA = s.alignCoord.ra
        ∧ (measureAltError env s).1.altInitDEC = s.alignCoord.dec
        ∧ (measureAltError env s).1.altInitAz = s.alignCoord.az) := by
  have hm : (RAMotion : R) = 0.5 := rfl
  refine ⟨⟨hm, ?_, ?_, ?_⟩, ?_, ?_, ?_, ?_⟩
  · rw [hm]; norm_num
  · rw [hm]; norm_num
  · rw [hm]; ring_nf
  · intro h hc
    unfold measureAzError
    simp only [h, hc, if_true, hm]
    refine ⟨?_, ?_, ?_, ?_, ?_⟩ <;> first | rfl | trivial
  · intro h hc
    unfold measureAzError
    simp only [h, hc, Bool.false_eq_true, if_false, hm]
    refine ⟨?_, ?_, ?_, ?_, ?_⟩ <;> first | rfl | trivial
  · intro h hc
    unfold measureAltError
    simp only [h, hc, if_true, hm]
    refine ⟨?_, ?_, ?_, ?_, ?_⟩ <;> first | rfl | trivial
  · intro h hc
    unfold measureAltError
    simp only [h, hc, Bool.false_eq_true, if_false, hm]
    refine ⟨?_, ?_, ?_, ?_, ?_⟩ <;> first | rfl | trivial

/-- The Finished stage of `measureAzError`, written out. -/
theorem measureAzError_finished (env : Env R) (s : Align R)
    (h : s.azStage = AZStage.AZ_FINISHED) :
    measureAzError env s
      = ({ (calculatePolarError env s.azInitRA s.azInitDEC s.alignCoord.ra s.alignCoord.dec
              s.azInitAz
              { s with azFinalRA := s.alignCoord.ra, azFinalDEC := s.alignCoord.dec }).1 with
            azStage := AZStage.AZ_INIT },
          [Effect.log Msg.calcAzError,
           (if s.canSync = true then Effect.telescopeSlew (s.azInitRA / 15) s.azInitDEC
            else Effect.telescopeSlew (dmsHours s.telescopeCoord.ra + RAMotion / 15)
              s.telescopeCoord.dec),
           Effect.log Msg.slewingBack]
          ++ (calculatePolarError env s.azInitRA s.azInitDEC s.alignCoord.ra s.alignCoord.dec
              s.azInitAz
              { s with azFinalRA := s.alignCoord.ra, azFinalDEC := s.alignCoord.dec }).2) := by
  unfold measureAzError
  simp only [h, Out.andThen]

/-- The Finished stage of `measureAltError`, written out. -/
theorem measureAltError_finished (env : Env R) (s : Align R)
    (h : s.altStage = ALTStage.ALT_FINISHED) :
    measureAltError env s
      = ({ (calculatePolarError env s.altInitRA s.altInitDEC s.alignCoord.ra s.alignCoord.dec
              s.altInitAz
              { s with altFinalRA := s.alignCoord.ra, altFinalDEC := s.alignCoord.dec }).1 with
            altStage := ALTStage.ALT_INIT },
          [Effect.log Msg.calcAltError,
           (if s.canSync = true then Effect.telescopeSlew (s.altInitRA / 15) s.altInitDEC
            else Effect.telescopeSlew (dmsHours s.telescopeCoord.ra + RAMotion / 15)
              s.telescopeCoord.dec),
           Effect.log Msg.slewingBack]
          ++ (calculatePolarError env s.altInitRA s.altInitDEC s.alignCoord.ra s.alignCoord.dec
              s.altInitAz
              { s with altFinalRA := s.alignCoord.ra, altFinalDEC := s.alignCoord.dec }).2) := by
  unfold measureAltError
  simp only [h, Out.andThen]

/-- What `calculatePolarError` stores for the axis that is finished. -/
theorem calculatePolarError_stored (env : Env R) (initRA initDEC finalRA finalDEC initAz : R)
    (s : Align R) :
    (s.azStage = AZStage.AZ_FINISHED →
      (calculatePolarError env initRA initDEC finalRA finalDEC initAz s).1.azDeviation
        = polarDeviation env initRA initDEC finalRA finalDEC
            * (if finalDEC - initDEC > 0 then 1 else -1))
    ∧ (s.altStage = ALTStage.ALT_FINISHED →
      (calculatePolarError env initRA initDEC finalRA finalDEC initAz s).1.altDeviation
        = polarDeviation env initRA initDEC finalRA finalDEC
            * (if finalDEC - initDEC > 0 then 1 else -1)) := by
  constructor
  · intro h
    unfold calculatePolarError
    simp only [h, if_true]
    split_ifs <;> rfl
  · intro h
    unfold calculatePolarError
    simp only [h, if_true]

/-- C24: in the Finished stage of either axis the current solution is stored
as (finalRA, finalDEC), the mount is sent back by the reverse of the
FirstTarget offset, the deviation is computed by `calculatePolarError` from
the stored (initRA, initDEC, finalRA, finalDEC, initAz) and the stage of that
axis ends at Init.  With a syncing mount the return target is
(initRA/15, initDEC), which is the FirstTarget target plus 0.5/15 h; without
sync it is (telescope RA + 0.5/15, telescope Dec), which is (ra0, dec0) when
the mount sits at (ra0 - 0.5/15, dec0). -/
theorem finished_stage_slews_back_and_resets (env : Env R) (s : Align R) (ra0 dec0 : R) :
    (s.azStage = AZStage.AZ_FINISHED →
      (measureAzError env s).1.azStage = AZStage.AZ_INIT
      ∧ (measureAzError env s).1.azFinalRA = s.alignCoord.ra
      ∧ (measureAzError env s).1.azFinalDEC = s.alignCoord.dec
      ∧ (measureAzError env s).1.azDeviation
          = polarDeviation env s.azInitRA s.azInitDEC s.alignCoord.ra s.alignCoord.dec
              * (if s.alignCoord.dec - s.azInitDEC > 0 then 1 else -1)
      ∧ (measureAzError env s).2
          = [Effect.log Msg.calcAzError,
             (if s.canSync = true then Effect.telescopeSlew (s.azInitRA / 15) s.azInitDEC
              else Effect.telescopeSlew (dmsHours s.telescopeCoord.ra + RAMotion / 15)
                s.telescopeCoord.dec),
             Effect.log Msg.slewingBack]
            ++ (calculatePolarError env s.azInitRA s.azInitDEC s.alignCoord.ra
                  s.alignCoord.dec s.azInitAz
                  { s with azFinalRA := s.alignCoord.ra, azFinalDEC := s.alignCoord.dec }).2)
    ∧ (s.altStage = ALTStage.ALT_FINISHED →
      (measureAltError env s).1.altStage = ALTStage.ALT_INIT
      ∧ (measureAltError env s).1.altFinalRA = s.alignCoord.ra
      ∧ (measureAltError env s).1.altFinalDEC = s.alignCoord.dec
      ∧ (measureAltError env s).1.altDeviation
          = polarDeviation env s.altInitRA s.altInitDEC s.alignCoord.ra s.alignCoord.dec
              * (if s.alignCoord.dec - s.altInitDEC > 0 then 1 else -1)
      ∧ (measureAltError env s).2
          = [Effect.log Msg.calcAltError,
             (if s.canSync = true then Effect.telescopeSlew (s.altInitRA / 15) s.altInitDEC
              else Effect.telescopeSlew (dmsHours s.telescopeCoord.ra + RAMotion / 15)
                s.telescopeCoord.dec),
             Effect.log Msg.slewingBack]
            ++ (calculatePolarError env s.altInitRA s.altInitDEC s.alignCoord.ra
                  s.alignCoord.dec s.altInitAz
                  { s with altFinalRA := s.alignCoord.ra, altFinalDEC := s.alignCoord.dec }).2)
    ∧ (s.azInitRA / 15 = (s.azInitRA - RAMotion) / 15 + RAMotion / 15
      ∧ s.altInitRA / 15 = (s.altInitRA - RAMotion) / 15 + RAMotion / 15)
    ∧ (dmsHours s.telescopeCoord.ra = ra0 - RAMotion / 15 → s.telescopeCoord.dec = dec0 →
        Effect.telescopeSlew (dmsHours s.telescopeCoord.ra + RAMotion / 15)
            s.telescopeCoord.dec
          = Effect.telescopeSlew ra0 dec0) := by
  refine ⟨?_, ?_, ⟨by ring, by ring⟩, ?_⟩
  · intro h
    rw [measureAzError_finished env s h]
    refine ⟨rfl, ?_, ?_, ?_, rfl⟩
    · show (calculatePolarError env s.azInitRA s.azInitDEC s.alignCoord.ra s.alignCoord.dec
        s.azInitAz _).1.azFinalRA = _
      unfold calculatePolarError
      simp only []
      split_ifs <;> rfl
    · show (calculatePolarError env s.azInitRA s.azInitDEC s.alignCoord.ra s.alignCoord.dec
        s.azInitAz _).1.azFinalDEC = _
      unfold calculatePolarError
      simp only []
      split_ifs <;> rfl
    · exact (calculatePolarError_stored env _ _ _ _ _ _).1 h
  · intro h
    rw [measureAltError_finished env s h]
    refine ⟨rfl, ?_, ?_, ?_, rfl⟩
    · show (calculatePolarError env s.altInitRA s.altInitDEC s.alignCoord.ra s.alignCoord.dec
        s.altInitAz _).1.altFinalRA = _
      unfold calculatePolarError
      simp only []
      split_ifs <;> rfl
    · show (calculatePolarError env s.altInitRA s.altInitDEC s.alignCoord.ra s.alignCoord.dec
        s.altInitAz _).1.altFinalDEC = _
      unfold calculatePolarError
      simp only []
      split_ifs <;> rfl
    · exact (calculatePolarError_stored env _ _ _ _ _ _).2 h
  · intro h1 h2
    rw [h1, h2]
    congr 1
    ring

/-! ## Polar alignment: the divisor and the stored offsets -/

theorem polarRATime_pos (initRA finalRA : R) (h : finalRA ≠ initRA) :
    0 < polarRATime initRA finalRA := by
  unfold polarRATime
  have : 0 < |finalRA - initRA| := abs_pos.2 (sub_ne_zero.2 h)
  linarith

theorem polarDivisor_pos (env : Env R) (initRA initDEC finalRA : R)
    (hcos : ∀ x : R, -90 < x → x < 90 → 0 < env.cos (x * env.DegToRad))
    (hmove : finalRA ≠ initRA) (hlo : -90 < initDEC) (hhi : initDEC < 90) :
    0 < polarDivisor env initRA initDEC finalRA :=
  mul_pos (polarRATime_pos initRA finalRA hmove) (hcos initDEC hlo hhi)

theorem polarDeviation_eq (env : Env R) (initRA initDEC finalRA finalDEC : R) :
    polarDeviation env initRA initDEC finalRA finalDEC
      = 3.81 * ((finalDEC - initDEC) * 3600) / polarDivisor env initRA initDEC finalRA / 60 :=
  rfl

/-- With a positive divisor the deviation has the sign of the Dec drift, so
the product with that sign is the absolute value. -/
theorem polarDeviation_signed (env : Env R) (initRA initDEC finalRA finalDEC : R)
    (hdiv : 0 < polarDivisor env initRA initDEC finalRA) :
    polarDeviation env initRA initDEC finalRA finalDEC
        * (if finalDEC - initDEC > 0 then 1 else -1)
      = |polarDeviation env initRA initDEC finalRA finalDEC| := by
  rw [polarDeviation_eq]
  have h60 : (0 : R) < 60 := by norm_num
  split_ifs with h
  · have hn : (0 : R) < 3.81 * ((finalDEC - initDEC) * 3600) := by
      have : (0 : R) < 3.81 := by norm_num
      positivity
    rw [mul_one, abs_of_pos (div_pos (div_pos hn hdiv) h60)]
  · have hle : finalDEC - initDEC ≤ 0 := not_lt.1 h
    have hn : (3.81 : R) * ((finalDEC - initDEC) * 3600) ≤ 0 := by
      have h1 : (0 : R) ≤ 3.81 := by norm_num
      have h2 : (finalDEC - initDEC) * 3600 ≤ 0 := by linarith
      exact mul_nonpos_of_nonneg_of_nonpos h1 h2
    have hd : (3.81 : R) * ((finalDEC - initDEC) * 3600)
        / polarDivisor env initRA initDEC finalRA / 60 ≤ 0 :=
      div_nonpos_of_nonpos_of_nonneg
        (div_nonpos_of_nonpos_of_nonneg hn hdiv.le) h60.le
    rw [abs_of_nonpos hd]
    ring

/-- The contract the theorems on the divisor ask of the cosine, met by the
real cosine with `DegToRad` = pi/180. -/
theorem real_cos_contract :
    (∀ x : ℝ, -90 < x → x < 90 → 0 < Real.cos (x * (Real.pi / 180)))
    ∧ Real.cos (90 * (Real.pi / 180)) = 0 ∧ Real.cos (-90 * (Real.pi / 180)) = 0 := by
  refine ⟨?_, ?_, ?_⟩
  · intro x h1 h2
    apply Real.cos_pos_of_mem_Ioo
    have hpi := Real.pi_pos
    constructor
    · nlinarith
    · nlinarith
  · rw [show (90 : ℝ) * (Real.pi / 180) = Real.pi / 2 by ring]
    exact Real.cos_pi_div_two
  · rw [show (-90 : ℝ) * (Real.pi / 180) = -(Real.pi / 2) by ring, Real.cos_neg]
    exact Real.cos_pi_div_two

/-- The real cosine has no zero at a rational argument, since pi is
irrational; every `double` is a rational number. -/
theorem cos_rat_ne_zero (q : ℚ) : Real.cos (q : ℝ) ≠ 0 := by
  intro h
  obtain ⟨k, hk⟩ := Real.cos_eq_zero_iff.1 h
  have hk0 : (2 * (k : ℝ) + 1) ≠ 0 := by
    have : (2 * k + 1 : ℤ) ≠ 0 := by omega
    exact_mod_cast this
  have hpi : Real.pi = ((2 * q / (2 * k + 1) : ℚ) : ℝ) := by
    push_cast
    field_simp
    linarith
  exact irrational_pi.ne_rat _ hpi

/-- The divisor vanishes exactly when the two RA values agree or the cosine is
exactly zero. -/
theorem polarDivisor_eq_zero_iff (env : Env R) (initRA initDEC finalRA : R) :
    polarDivisor env initRA initDEC finalRA = 0
      ↔ finalRA = initRA ∨ env.cos (initDEC * env.DegToRad) = 0 := by
  unfold polarDivisor polarRATime
  rw [mul_eq_zero, mul_eq_zero, abs_eq_zero, sub_eq_zero]
  constructor
  · rintro ((h | h) | h)
    · exact Or.inl h
    · exact absurd h (by norm_num)
    · exact Or.inr h
  · rintro (h | h)
    · exact Or.inl (Or.inl h)
    · exact Or.inr h

/-- With the real cosine and `DegToRad` the `double` nearest to pi/180, the
cosine is positive for every angle strictly between -90 and 90 degrees, and it
is still positive, though below 10^-16, at exactly 90 degrees. -/
theorem double_cos_contract :
    (∀ x : ℝ, -90 < x → x < 90 → 0 < Real.cos (x * ((degToRadDouble : ℚ) : ℝ)))
    ∧ 0 < Real.cos (90 * ((degToRadDouble : ℚ) : ℝ))
    ∧ Real.cos (90 * ((degToRadDouble : ℚ) : ℝ)) < 1 / 10 ^ 16
    ∧ 0 < Real.cos (-90 * ((degToRadDouble : ℚ) : ℝ)) := by
  have hq : ((degToRadDouble : ℚ) : ℝ) = 5030569068109113 / 288230376151711744 := by
    unfold degToRadDouble
    push_cast
    rfl
  have hlo := Real.pi_gt_d20
  have hhi := Real.pi_lt_d20
  have h90 : 90 * ((degToRadDouble : ℚ) : ℝ) < Real.pi / 2 := by
    rw [hq]
    norm_num at hlo ⊢
    linarith
  have hpos : 0 < Real.cos (90 * ((degToRadDouble : ℚ) : ℝ)) := by
    apply Real.cos_pos_of_mem_Ioo
    constructor
    · have : (0 : ℝ) < 90 * ((degToRadDouble : ℚ) : ℝ) := by rw [hq]; norm_num
      have := Real.pi_pos
      linarith
    · exact h90
  refine ⟨?_, hpos, ?_, ?_⟩
  · intro x h1 h2
    have hq0 : (0 : ℝ) < ((degToRadDouble : ℚ) : ℝ) := by rw [hq]; norm_num
    apply Real.cos_pos_of_mem_Ioo
    constructor
    · nlinarith
    · nlinarith
  · have hs : Real.cos (90 * ((degToRadDouble : ℚ) : ℝ))
        = Real.sin (Real.pi / 2 - 90 * ((degToRadDouble : ℚ) : ℝ)) := by
      rw [Real.sin_pi_div_two_sub]
    rw [hs]
    have hd : 0 < Real.pi / 2 - 90 * ((degToRadDouble : ℚ) : ℝ) := by linarith
    have hlt := Real.sin_lt hd
    have hb : Real.pi / 2 - 90 * ((degToRadDouble : ℚ) : ℝ) < 1 / 10 ^ 16 := by
      rw [hq]
      norm_num at hhi ⊢
      linarith
    linarith
  · rw [show (-90 : ℝ) * ((degToRadDouble : ℚ) : ℝ) = -(90 * ((degToRadDouble : ℚ) : ℝ)) by ring,
      Real.cos_neg]
    exact hpos

/-- C27 (amended): with a cosine that is positive strictly between -90 and 90
degrees, the divisor `RATime * cos(initDEC * DegToRad)` of
`calculatePolarError` is strictly positive whenever finalRA differs from
initRA and -90 < initDEC < 90, and it is zero whenever finalRA = initRA.  It
is zero in no other case unless the cosine is exactly zero, and that does not
happen in the program: `DegToRad` and initDEC are binary fractions, the real
cosine has no zero at a rational argument, so also at +90 and -90 degrees the
divisor is zero exactly when finalRA = initRA. -/
theorem polarDivisor_positive_off_pole_when_moved (env : Env R)
    (initRA initDEC finalRA finalDEC : R)
    (hcos : ∀ x : R, -90 < x → x < 90 → 0 < env.cos (x * env.DegToRad)) :
    polarDeviation env initRA initDEC finalRA finalDEC
      = 3.81 * ((finalDEC - initDEC) * 3600) / polarDivisor env initRA initDEC finalRA / 60
    ∧ polarDivisor env initRA initDEC finalRA
      = |finalRA - initRA| * 60 * env.cos (initDEC * env.DegToRad)
    ∧ (finalRA ≠ initRA → -90 < initDEC → initDEC < 90 →
        0 < polarDivisor env initRA initDEC finalRA)
    ∧ (finalRA = initRA → polarDivisor env initRA initDEC finalRA = 0)
    ∧ (polarDivisor env initRA initDEC finalRA = 0
        ↔ finalRA = initRA ∨ env.cos (initDEC * env.DegToRad) = 0)
    ∧ (∀ (e : Env ℝ) (q d : ℚ) (a b : ℝ), e.cos = Real.cos → e.DegToRad = (q : ℝ) →
        (polarDivisor e a (d : ℝ) b = 0 ↔ b = a)) := by
  refine ⟨rfl, rfl, fun h1 h2 h3 => polarDivisor_pos env _ _ _ hcos h1 h2 h3, ?_,
    polarDivisor_eq_zero_iff env initRA initDEC finalRA, ?_⟩
  · intro h
    exact (polarDivisor_eq_zero_iff env initRA initDEC finalRA).2 (Or.inl h)
  · intro e q d a b hc hq
    rw [polarDivisor_eq_zero_iff, hc, hq]
    have hne : Real.cos ((d : ℝ) * (q : ℝ)) ≠ 0 := by
      have := cos_rat_ne_zero (d * q)
      push_cast at this
      exact this
    constructor
    · rintro (h | h)
      · exact h
      · exact absurd h hne
    · exact Or.inl

theorem polarDivisor_positive_off_pole_when_moved_witness :
    0 < polarDivisor
        (Env.atRest Real.sqrt Real.cos ((degToRadDouble : ℚ) : ℝ) 48 (0, 0)) 10 45 (19 / 2)
    ∧ polarDivisor
        (Env.atRest Real.sqrt Real.cos ((degToRadDouble : ℚ) : ℝ) 48 (0, 0)) 10 45 10 = 0 :=
  ⟨(polarDivisor_positive_off_pole_when_moved
      (Env.atRest Real.sqrt Real.cos ((degToRadDouble : ℚ) : ℝ) 48 (0, 0)) 10 45 (19 / 2) 45
      double_cos_contract.1).2.2.1
      (by norm_num) (by norm_num) (by norm_num),
   (polarDivisor_positive_off_pole_when_moved
      (Env.atRest Real.sqrt Real.cos ((degToRadDouble : ℚ) : ℝ) 48 (0, 0)) 10 45 10 45
      double_cos_contract.1).2.2.2.1 rfl⟩

/-- Counterexample to C27 as stated: the first frame at the pole, initDEC = 90
(and -90), initRA = 0 and finalRA = 0.5, with the real cosine and `DegToRad`
the `double` nearest to pi/180.  The divisor is not zero: 90 * `DegToRad`
falls short of pi/2, so the cosine is a positive number below 10^-16 and the
divisor is positive and below 10^-14. -/
theorem polarDivisor_at_pole_is_not_zero :
    0 < polarDivisor
        (Env.atRest Real.sqrt Real.cos ((degToRadDouble : ℚ) : ℝ) 48 (0, 0)) 0 90 (1 / 2)
    ∧ polarDivisor
        (Env.atRest Real.sqrt Real.cos ((degToRadDouble : ℚ) : ℝ) 48 (0, 0)) 0 90 (1 / 2)
        < 1 / 10 ^ 14
    ∧ 0 < polarDivisor
        (Env.atRest Real.sqrt Real.cos ((degToRadDouble : ℚ) : ℝ) 48 (0, 0)) 0 (-90) (1 / 2)
    ∧ polarDivisor
        (Env.atRest Real.sqrt Real.cos ((degToRadDouble : ℚ) : ℝ) 48 (0, 0)) 0 90 (1 / 2)
        ≠ 0 := by
  obtain ⟨_, h1, h2, h3⟩ := double_cos_contract
  have e : ∀ d : ℝ, polarDivisor
      (Env.atRest Real.sqrt Real.cos ((degToRadDouble : ℚ) : ℝ) 48 (0, 0)) 0 d (1 / 2)
        = 30 * Real.cos (d * ((degToRadDouble : ℚ) : ℝ)) := by
    intro d
    show |(1 / 2 : ℝ) - 0| * 60 * Real.cos (d * ((degToRadDouble : ℚ) : ℝ)) = _
    rw [sub_zero, abs_of_pos (by norm_num : (0 : ℝ) < 1 / 2)]
    ring
  rw [e, e]
  refine ⟨by linarith, ?_, by linarith, by linarith⟩
  have : (30 : ℝ) * (1 / 10 ^ 16) < 1 / 10 ^ 14 := by norm_num
  linarith

/-- C26: with a cosine that is positive strictly between -90 and 90 degrees,
for finalRA different from initRA and -90 < initDEC < 90 the value
`calculatePolarError` stores in `azDeviation` (azimuth axis finished) and in
`altDeviation` (altitude axis finished) is |deviation|, hence not negative,
whatever the sign of the Dec drift, the hemisphere and the horizon side.
`correctAzError` adds the stored `azDeviation` to the azimuth and
`correctAltError` adds the stored `altDeviation` to the latitude, so with
these values neither is ever lowered. -/
theorem stored_offsets_are_absolute (env env2 : Env R)
    (initRA initDEC finalRA finalDEC initAz : R) (s t : Align R)
    (hcos : ∀ x : R, -90 < x → x < 90 → 0 < env.cos (x * env.DegToRad))
    (hmove : finalRA ≠ initRA) (hlo : -90 < initDEC) (hhi : initDEC < 90) :
    (s.azStage = AZStage.AZ_FINISHED →
      (calculatePolarError env initRA initDEC finalRA finalDEC initAz s).1.azDeviation
          = |polarDeviation env initRA initDEC finalRA finalDEC|
      ∧ 0 ≤ (calculatePolarError env initRA initDEC finalRA finalDEC initAz s).1.azDeviation
      ∧ (t.azDeviation
            = (calculatePolarError env initRA initDEC finalRA finalDEC initAz s).1.azDeviation →
          (env2.equatorialToHorizontal env2.lat t.telescopeCoord.ra t.telescopeCoord.dec).1
            ≤ correctedAz env2 t))
    ∧ (s.altStage = ALTStage.ALT_FINISHED →
      (calculatePolarError env initRA initDEC finalRA finalDEC initAz s).1.altDeviation
          = |polarDeviation env initRA initDEC finalRA finalDEC|
      ∧ 0 ≤ (calculatePolarError env initRA initDEC finalRA finalDEC initAz s).1.altDeviation
      ∧ (t.altDeviation
            = (calculatePolarError env initRA initDEC finalRA finalDEC initAz s).1.altDeviation →
          env2.lat ≤ correctedLat env2 t))
    ∧ correctedAz env2 t
        = (env2.equatorialToHorizontal env2.lat t.telescopeCoord.ra t.telescopeCoord.dec).1
          + t.azDeviation
    ∧ correctedLat env2 t = env2.lat + t.altDeviation
    ∧ (correctAzError env2 t).2
        = [Effect.telescopeSlew
             (dmsHours (env2.horizontalToEquatorial env2.lat (correctedAz env2 t)
               (env2.equatorialToHorizontal env2.lat t.telescopeCoord.ra
                 t.telescopeCoord.dec).2).1)
             (env2.horizontalToEquatorial env2.lat (correctedAz env2 t)
               (env2.equatorialToHorizontal env2.lat t.telescopeCoord.ra
                 t.telescopeCoord.dec).2).2,
           Effect.log Msg.slewingToCalibration]
    ∧ (correctAltError env2 t).2
        = [Effect.telescopeSlew
             (dmsHours (env2.horizontalToEquatorial env2.lat
               (env2.equatorialToHorizontal (correctedLat env2 t) t.telescopeCoord.ra
                 t.telescopeCoord.dec).1
               (env2.equatorialToHorizontal (correctedLat env2 t) t.telescopeCoord.ra
                 t.telescopeCoord.dec).2).1)
             (env2.horizontalToEquatorial env2.lat
               (env2.equatorialToHorizontal (correctedLat env2 t) t.telescopeCoord.ra
                 t.telescopeCoord.dec).1
               (env2.equatorialToHorizontal (correctedLat env2 t) t.telescopeCoord.ra
                 t.telescopeCoord.dec).2).2,
           Effect.log Msg.slewingToCalibration] := by
  have hdiv := polarDivisor_pos env initRA initDEC finalRA hcos hmove hlo hhi
  have hsig := polarDeviation_signed env initRA initDEC finalRA finalDEC hdiv
  have hst := calculatePolarError_stored env initRA initDEC finalRA finalDEC initAz s
  refine ⟨?_, ?_, rfl, rfl, rfl, rfl⟩
  · intro h
    have e := hst.1 h
    rw [hsig] at e
    refine ⟨e, ?_, ?_⟩
    · rw [e]
      exact abs_nonneg _
    · intro ht
      unfold correctedAz
      rw [ht, e]
      linarith [abs_nonneg (polarDeviation env initRA initDEC finalRA finalDEC)]
  · intro h
    have e := hst.2 h
    rw [hsig] at e
    refine ⟨e, ?_, ?_⟩
    · rw [e]
      exact abs_nonneg _
    · intro ht
      unfold correctedLat
      rw [ht, e]
      linarith [abs_nonneg (polarDeviation env initRA initDEC finalRA finalDEC)]

theorem stored_offsets_are_absolute_witness :
    ({ (Align.equipped GotoOption.syncR : Align ℝ) with
        azStage := AZStage.AZ_FINISHED }).azStage = AZStage.AZ_FINISHED
    ∧ 0 ≤ (calculatePolarError (Env.atRest Real.sqrt Real.cos (Real.pi / 180) 48 (0, 0))
        10 45 (19 / 2) 44 100
        { (Align.equipped GotoOption.syncR : Align ℝ) with
          azStage := AZStage.AZ_FINISHED }).1.azDeviation :=
  ⟨rfl,
   ((stored_offsets_are_absolute (Env.atRest Real.sqrt Real.cos (Real.pi / 180) 48 (0, 0))
      (Env.atRest Real.sqrt Real.cos (Real.pi / 180) 48 (0, 0)) 10 45 (19 / 2) 44 100
      { (Align.equipped GotoOption.syncR : Align ℝ) with azStage := AZStage.AZ_FINISHED }
      (Align.equipped GotoOption.syncR : Align ℝ)
      real_cos_contract.1 (by norm_num) (by norm_num) (by norm_num)).1 rfl).2.1⟩

/-- Both coordinate boxes filled, no range complaint, and an empty radius box:
`radiusOk` keeps its initial value `false`, so `generateArgs` shows the
message box and returns with the form as it was; the default of 30 is never
written. -/
theorem generateArgs_empty_radius (num : R → String) (s : Align R) (f : SolverForm R)
    (hra : f.raBox.isEmpty = false) (hdec : f.decBox.isEmpty = false)
    (hin : ¬ (f.raBox.ok = true ∧ f.decBox.ok = true
      ∧ ((dmsHours f.raBox.value < 0 ∨ dmsHours f.raBox.value > 24)
        ∨ (f.decBox.value < -90 ∨ f.decBox.value > 90))))
    (hrad : f.radiusBox.isEmpty = true) :
    generateArgs num s f = (f, [Effect.messageBox Msg.invalidRadius]) := by
  unfold generateArgs
  simp only []
  rw [if_pos ⟨hra, hdec⟩, if_neg hin]
  simp only [hrad, Bool.true_eq_false, if_false, if_true]

/-- C28, the code at the failing input: RA 12 h (180 degrees), Dec 45 degrees,
both in range, and an empty radius box.  `generateArgs` does not fall back to
the radius 30: it shows the box "Invalid radius value" and returns with the
options text unchanged (still empty), so no `-3`, `-4` or `-5` is written. -/
theorem empty_radius_is_rejected :
    generateArgs wholePart (Align.framed GotoOption.syncR : Align ℚ)
        { (SolverForm.hint 180 45 30 : SolverForm ℚ) with
          radiusBox := { isEmpty := true, ok := false, value := 0 } }
      = ({ (SolverForm.hint 180 45 30 : SolverForm ℚ) with
            radiusBox := { isEmpty := true, ok := false, value := 0 } },
          [Effect.messageBox Msg.invalidRadius])
    ∧ (generateArgs wholePart (Align.framed GotoOption.syncR : Align ℚ)
        { (SolverForm.hint 180 45 30 : SolverForm ℚ) with
          radiusBox := { isEmpty := true, ok := false, value := 0 } }).1.solverOptions = []
    ∧ "-5" ∉ (generateArgs wholePart (Align.framed GotoOption.syncR : Align ℚ)
        { (SolverForm.hint 180 45 30 : SolverForm ℚ) with
          radiusBox := { isEmpty := true, ok := false, value := 0 } }).1.solverOptions := by
  have h := generateArgs_empty_radius wholePart (Align.framed GotoOption.syncR : Align ℚ)
    { (SolverForm.hint 180 45 30 : SolverForm ℚ) with
      radiusBox := { isEmpty := true, ok := false, value := 0 } } rfl rfl
    (hint_in_range 180 45 30 (by norm_num) (by norm_num) (by norm_num) (by norm_num)) rfl
  refine ⟨h, ?_, ?_⟩
  · rw [h]
    rfl
  · rw [h]
    simp [SolverForm.hint]

/-! ## The session target over a run -/

theorem startSovling_targetCoord (env : Env R) (s : Align R) :
    (s.solverIterations = 0 →
      (startSovling env s).1.targetCoord
        = { s.targetCoord with ra := dmsSetH env.eqCoords.1, dec := env.eqCoords.2 })
    ∧ (s.solverIterations ≠ 0 → (startSovling env s).1.targetCoord = s.targetCoord) := by
  constructor
  · intro h
    unfold startSovling
    simp only [h, if_true]
  · intro h
    unfold startSovling
    simp only [h, if_false]

/-- Once iterations have been counted, every solve of a run is compared
against the target the state already holds. -/
theorem solveTargets_counted (rounds : List (SlewRound R)) :
    ∀ (s : Align R) (n : Int), s.slewLoop n → 0 < n →
      (∀ rd ∈ rounds, rd.env.cameraReady) → n + rounds.length ≤ 10 →
      alwaysAbove rounds s →
      ∀ t ∈ solveTargets rounds s, t = s.targetCoord := by
  induction rounds with
  | nil =>
    intro s n _ _ _ _ _ t ht
    simp [solveTargets] at ht
  | cons rd rest ih =>
    intro s n h hn hcam hlen habove t ht
    have hiter : s.solverIterations = n := h.2.2.2.2.2.1
    have hne : s.solverIterations ≠ 0 := by rw [hiter]; omega
    have hhead := (startSovling_targetCoord rd.env s).2 hne
    simp only [solveTargets, List.mem_cons] at ht
    rcases ht with ht | ht
    · rw [ht, hhead]
    · cases rest with
      | nil => simp [solveTargets] at ht
      | cons rd2 rest2 =>
        have hlen2 : n + 1 ≠ 10 := by
          simp only [List.length_cons] at hlen
          push_cast at hlen
          omega
        have hfar := habove.1
        have hstep := (slewRound_step rd s n h (hcam rd (List.mem_cons_self _ _)) hfar).1 hlen2
        have htar := slewRound_target rd s n h (hcam rd (List.mem_cons_self _ _)) hfar hlen2
        have := ih (slewRound rd s).1 (n + 1) hstep.1 (by omega)
          (fun x hx => hcam x (List.mem_cons_of_mem _ hx))
          (by simp only [List.length_cons] at hlen ⊢; push_cast at hlen ⊢; omega)
          habove.2 t ht
        rw [this, htar.1, hhead]

/-- C30: `startSovling` sets the RA and Dec of `targetCoord` to the current
mount coordinates when `solverIterations` = 0 and leaves `targetCoord`
unchanged for every other value, any value above 0 included.  Hence in a
Slew-mode run that starts with `solverIterations` = 0 and whose solves stay
above the threshold, every solve, the first to the tenth, is compared against
the target captured at the first turn, whatever the mount reports later. -/
theorem slew_run_keeps_first_target (rd : SlewRound R) (rest : List (SlewRound R))
    (s : Align R) (h : s.slewLoop 0) (hcam : ∀ r ∈ rd :: rest, r.env.cameraReady)
    (hlen : (rd :: rest).length ≤ 10) (habove : alwaysAbove (rd :: rest) s) :
    (∀ (env : Env R) (x : Align R), x.solverIterations = 0 →
      (startSovling env x).1.targetCoord
        = { x.targetCoord with ra := dmsSetH env.eqCoords.1, dec := env.eqCoords.2 })
    ∧ (∀ (env : Env R) (x : Align R), x.solverIterations ≠ 0 →
      (startSovling env x).1.targetCoord = x.targetCoord)
    ∧ (∀ (r : SlewRound R) (x : Align R),
      solveDiff r x = separation r.env r.result (startSovling r.env x).1.targetCoord.ra
        (startSovling r.env x).1.targetCoord.dec)
    ∧ (solveTargets (rd :: rest) s).length = (rd :: rest).length
    ∧ (∀ t ∈ solveTargets (rd :: rest) s,
        t = { s.targetCoord with
              ra := dmsSetH rd.env.eqCoords.1, dec := rd.env.eqCoords.2 }) := by
  have hiter : s.solverIterations = 0 := h.2.2.2.2.2.1
  have hhead := (startSovling_targetCoord rd.env s).1 hiter
  refine ⟨fun env x => (startSovling_targetCoord env x).1,
    fun env x => (startSovling_targetCoord env x).2,
    fun r x => solveDiff_eq_separation r x, ?_, ?_⟩
  · clear hhead hiter habove hlen hcam h
    generalize s = x
    induction (rd :: rest) generalizing x with
    | nil => rfl
    | cons a l ih => simp only [solveTargets, List.length_cons, ih]
  · intro t ht
    simp only [solveTargets, List.mem_cons] at ht
    rcases ht with ht | ht
    · rw [ht, hhead]
    · cases rest with
      | nil => simp [solveTargets] at ht
      | cons rd2 rest2 =>
        have hlen2 : (0 : Int) + 1 ≠ 10 := by omega
        have hfar := habove.1
        have hstep := (slewRound_step rd s 0 h (hcam rd (List.mem_cons_self _ _)) hfar).1 hlen2
        have htar := slewRound_target rd s 0 h (hcam rd (List.mem_cons_self _ _)) hfar hlen2
        have := solveTargets_counted (rd2 :: rest2) (slewRound rd s).1 (0 + 1) hstep.1
          (by omega) (fun x hx => hcam x (List.mem_cons_of_mem _ hx))
          (by simp only [List.length_cons] at hlen ⊢; push_cast at hlen ⊢; omega)
          habove.2 t ht
        rw [this, htar.1, hhead]

theorem separation_drifted :
    separation SlewRound.drifted.env SlewRound.drifted.result 0 0 = 3600 := by
  simp [separation, computeTargetDiff, solvedCoord, SlewRound.drifted, Env.atRest,
    SkyPoint.zero, dmsSetH]
  norm_num

/-- The solve of `SlewRound.offTarget` and then that of `SlewRound.drifted`
both lie 3600 arcseconds from the target of the first turn. -/
theorem offTarget_then_drifted_above :
    alwaysAbove [SlewRound.offTarget, SlewRound.drifted]
      (Align.equipped GotoOption.slewR : Align ℚ) := by
  have hs := equipped_slewLoop
  have hcam : SlewRound.offTarget.env.cameraReady := ⟨rfl, rfl, rfl⟩
  have h0 : (Align.equipped GotoOption.slewR : Align ℚ).solverIterations = 0 := rfl
  have h1 : (Align.equipped GotoOption.slewR : Align ℚ).accuracy
      < solveDiff SlewRound.offTarget (Align.equipped GotoOption.slewR : Align ℚ) := by
    rw [solveDiff_eq_separation]
    obtain ⟨t1, t2⟩ := startSovling_target SlewRound.offTarget.env
      (Align.equipped GotoOption.slewR : Align ℚ)
    rw [t1, t2, if_pos h0, if_pos h0]
    have e1 : dmsSetH SlewRound.offTarget.env.eqCoords.1 = (0 : ℚ) := by
      simp [SlewRound.offTarget, Env.atRest, dmsSetH]
    have e2 : SlewRound.offTarget.env.eqCoords.2 = (0 : ℚ) := rfl
    rw [e1, e2, separation_offTarget]
    norm_num [Align.equipped, Align.fresh, Align.init]
  have hstep := (slewRound_step SlewRound.offTarget _ 0 hs hcam h1).1 (by omega)
  have htar := slewRound_target SlewRound.offTarget _ 0 hs hcam h1 (by omega)
  refine ⟨h1, ?_, trivial⟩
  rw [solveDiff_eq_separation]
  obtain ⟨t1, t2⟩ := startSovling_target SlewRound.drifted.env
    (slewRound SlewRound.offTarget (Align.equipped GotoOption.slewR : Align ℚ)).1
  have hit : (slewRound SlewRound.offTarget
      (Align.equipped GotoOption.slewR : Align ℚ)).1.solverIterations = 0 + 1 :=
    hstep.1.2.2.2.2.2.1
  have hne : ¬ (slewRound SlewRound.offTarget
      (Align.equipped GotoOption.slewR : Align ℚ)).1.solverIterations = 0 := by
    rw [hit]; omega
  rw [t1, t2, if_neg hne, if_neg hne, htar.1, htar.2]
  obtain ⟨u1, u2⟩ := startSovling_target SlewRound.offTarget.env
    (Align.equipped GotoOption.slewR : Align ℚ)
  rw [u1, u2, if_pos h0, if_pos h0]
  have e1 : dmsSetH SlewRound.offTarget.env.eqCoords.1 = (0 : ℚ) := by
    simp [SlewRound.offTarget, Env.atRest, dmsSetH]
  have e2 : SlewRound.offTarget.env.eqCoords.2 = (0 : ℚ) := rfl
  rw [e1, e2, separation_drifted]
  norm_num [Align.equipped, Align.fresh, Align.init]

theorem slew_run_keeps_first_target_witness :
    SlewRound.drifted.env.eqCoords = (1, 1)
    ∧ ∀ t ∈ solveTargets [SlewRound.offTarget, SlewRound.drifted]
        (Align.equipped GotoOption.slewR : Align ℚ),
        t = { (Align.equipped GotoOption.slewR : Align ℚ).targetCoord with
              ra := dmsSetH SlewRound.offTarget.env.eqCoords.1
              dec := SlewRound.offTarget.env.eqCoords.2 } :=
  ⟨rfl,
   (slew_run_keeps_first_target SlewRound.offTarget [SlewRound.drifted]
      (Align.equipped GotoOption.slewR : Align ℚ) equipped_slewLoop
      (by
        intro r hr
        simp only [List.mem_cons, List.mem_singleton, List.not_mem_nil, or_false] at hr
        rcases hr with rfl | rfl <;> exact ⟨rfl, rfl, rfl⟩)
      (by decide) offTarget_then_drifted_above).2.2.2.2⟩

/-! ## Coordinate updates and the polar-alignment stages -/

/-- The branches of `captureAndSolve`, with the state of the last one written
as one record. -/
theorem captureAndSolve_eq (env : Env R) (s : Align R) :
    captureAndSolve env s =
      if s.hasCCD = false then (false, { s with m_isSolverComplete := false }, [])
      else if env.parserInit = false then (false, { s with m_isSolverComplete := false }, [])
      else if s.focal_length = -1 ∨ s.aperture = -1 then
        (false, { s with m_isSolverComplete := false },
          [Effect.messageBox Msg.missingTelescopeInfo])
      else if s.ccd_hor_pixel = -1 ∨ s.ccd_ver_pixel = -1 then
        (false, { s with m_isSolverComplete := false },
          [Effect.messageBox Msg.missingPixelSize])
      else if s.hasFilter = true ∧ s.lockedFilterIndex ≠ -1
          ∧ s.lockedFilterIndex ≠ s.currentFilterIndex then
        (true, { s with m_isSolverComplete := false, filterPositionPending := true },
          [Effect.filterSet (s.lockedFilterIndex + 1)])
      else if s.isFocusBusy = true then
        (false, { s with m_isSolverComplete := false }, [Effect.log Msg.focusBusy])
      else if env.ccdIsCapturing = true then
        (false, { s with m_isSolverComplete := false }, [Effect.log Msg.exposureInProgress])
      else if env.ccdIsConnected = false then
        (false, { s with m_isSolverComplete := false },
          [Effect.log Msg.lostConnection, Effect.notification Msg.alignFailed])
      else
        (true,
          { s with
            m_isSolverComplete := false
            ccdConnections := s.ccdConnections + 1
            rememberUploadMode :=
              if env.ccdUploadMode = UploadMode.UPLOAD_LOCAL then UploadMode.UPLOAD_LOCAL
              else s.rememberUploadMode
            solveBEnabled := false },
          (if env.ccdUploadMode = UploadMode.UPLOAD_LOCAL
            then [Effect.ccdSetUploadMode UploadMode.UPLOAD_CLIENT] else [])
          ++ [Effect.ccdResetFrame, Effect.ccdSetBatchMode false,
              Effect.ccdSetCaptureMode s.solverPreview]
          ++ (if s.solverPreview = true then [Effect.ccdSetCaptureFilter] else [])
          ++ [Effect.ccdSetBinning s.binX s.binY, Effect.ccdSetFrameLight,
              Effect.ccdCapture s.exposure, Effect.log Msg.capturing]) := by
  unfold captureAndSolve
  by_cases hc : env.ccdUploadMode = UploadMode.UPLOAD_LOCAL
  · simp only [hc, if_true]
  · simp only [hc, if_false]

theorem ite_both {α : Type} (Q : α → Prop) (c : Prop) [Decidable c] (a b : α)
    (ha : Q a) (hb : Q b) : Q (if c then a else b) := by
  split_ifs <;> assumption

/-- A property of the result of `captureAndSolve` follows from the property of
its three kinds of outcome: rejected, filter change started, exposure
requested. -/
theorem captureAndSolve_cases (env : Env R) (s : Align R) (Q : Bool × Out R → Prop)
    (h1 : ∀ es : List (Effect R),
      (∀ e ∈ es, e.isCapture = false ∧ e ≠ Effect.solverSlewComplete ∧ e.isFailure = false) →
      Q (false, { s with m_isSolverComplete := false }, es))
    (h2 : Q (true, { s with m_isSolverComplete := false, filterPositionPending := true },
          [Effect.filterSet (s.lockedFilterIndex + 1)]))
    (h3 : Q (true,
          { s with
            m_isSolverComplete := false
            ccdConnections := s.ccdConnections + 1
            rememberUploadMode :=
              if env.ccdUploadMode = UploadMode.UPLOAD_LOCAL then UploadMode.UPLOAD_LOCAL
              else s.rememberUploadMode
            solveBEnabled := false },
          (if env.ccdUploadMode = UploadMode.UPLOAD_LOCAL
            then [Effect.ccdSetUploadMode UploadMode.UPLOAD_CLIENT] else [])
          ++ [Effect.ccdResetFrame, Effect.ccdSetBatchMode false,
              Effect.ccdSetCaptureMode s.solverPreview]
          ++ (if s.solverPreview = true then [Effect.ccdSetCaptureFilter] else [])
          ++ [Effect.ccdSetBinning s.binX s.binY, Effect.ccdSetFrameLight,
              Effect.ccdCapture s.exposure, Effect.log Msg.capturing])) :
    Q (captureAndSolve env s) := by
  rw [captureAndSolve_eq]
  refine ite_both Q _ _ _ (h1 _ (by simp)) ?_
  refine ite_both Q _ _ _ (h1 _ (by simp)) ?_
  refine ite_both Q _ _ _ (h1 _ (by simp [Effect.isCapture, Effect.isFailure])) ?_
  refine ite_both Q _ _ _ (h1 _ (by simp [Effect.isCapture, Effect.isFailure])) ?_
  refine ite_both Q _ _ _ h2 ?_
  refine ite_both Q _ _ _ (h1 _ (by simp [Effect.isCapture, Effect.isFailure])) ?_
  refine ite_both Q _ _ _ (h1 _ (by simp [Effect.isCapture, Effect.isFailure])) ?_
  exact ite_both Q _ _ _ (h1 _ (by simp [Effect.isCapture, Effect.isFailure])) h3

/-- What `captureAndSolve` leaves alone, whatever branch it takes: the stages,
the loop bookkeeping and the load-and-slew state; it raises neither
`solverSlewComplete` nor `solverComplete(false)`, and it asks for at most one
exposure. -/
theorem captureAndSolve_frame (env : Env R) (s : Align R) :
    (captureAndSolve env s).2.1.azStage = s.azStage
    ∧ (captureAndSolve env s).2.1.altStage = s.altStage
    ∧ (captureAndSolve env s).2.1.solverIterations = s.solverIterations
    ∧ (captureAndSolve env s).2.1.m_slewToTargetSelected = s.m_slewToTargetSelected
    ∧ (captureAndSolve env s).2.1.loadSlewMode = s.loadSlewMode
    ∧ (captureAndSolve env s).2.1.loadSlewState = s.loadSlewState
    ∧ (captureAndSolve env s).2.1.solverUpdateCoords = s.solverUpdateCoords
    ∧ (captureAndSolve env s).2.1.canSync = s.canSync
    ∧ ((captureAndSolve env s).2.1.solveBEnabled = true → s.solveBEnabled = true)
    ∧ (s.canCapture → (captureAndSolve env s).2.1.canCapture)
    ∧ (∀ e ∈ (captureAndSolve env s).2.2,
        e ≠ Effect.solverSlewComplete ∧ e.isFailure = false)
    ∧ ((List.countP Effect.isCapture (captureAndSolve env s).2.2 = 0
        ∧ (captureAndSolve env s).2.1.solveBEnabled = s.solveBEnabled)
      ∨ (List.countP Effect.isCapture (captureAndSolve env s).2.2 = 1
        ∧ (captureAndSolve env s).2.1.solveBEnabled = false)) := by
  apply captureAndSolve_cases env s
    (fun o => o.2.1.azStage = s.azStage
      ∧ o.2.1.altStage = s.altStage
      ∧ o.2.1.solverIterations = s.solverIterations
      ∧ o.2.1.m_slewToTargetSelected = s.m_slewToTargetSelected
      ∧ o.2.1.loadSlewMode = s.loadSlewMode
      ∧ o.2.1.loadSlewState = s.loadSlewState
      ∧ o.2.1.solverUpdateCoords = s.solverUpdateCoords
      ∧ o.2.1.canSync = s.canSync
      ∧ (o.2.1.solveBEnabled = true → s.solveBEnabled = true)
      ∧ (s.canCapture → o.2.1.canCapture)
      ∧ (∀ e ∈ o.2.2, e ≠ Effect.solverSlewComplete ∧ e.isFailure = false)
      ∧ ((List.countP Effect.isCapture o.2.2 = 0 ∧ o.2.1.solveBEnabled = s.solveBEnabled)
        ∨ (List.countP Effect.isCapture o.2.2 = 1 ∧ o.2.1.solveBEnabled = false)))
  · intro es hes
    refine ⟨rfl, rfl, rfl, rfl, rfl, rfl, rfl, rfl, fun h => h, fun h => h,
      fun e he => (hes e he).2, Or.inl ⟨?_, rfl⟩⟩
    exact countP_eq_zero_of_quiet _ _ (fun e he => (hes e he).1)
  · refine ⟨rfl, rfl, rfl, rfl, rfl, rfl, rfl, rfl, fun h => h, fun h => h, ?_,
      Or.inl ⟨?_, rfl⟩⟩
    · simp [Effect.isFailure]
    · simp [List.countP_cons, Effect.isCapture]
  · refine ⟨rfl, rfl, rfl, rfl, rfl, rfl, rfl, rfl, ?_, fun h => h, ?_, Or.inr ⟨?_, rfl⟩⟩
    · intro h
      exact absurd h Bool.false_ne_true
    · split_ifs <;> simp [Effect.isFailure]
    · split_ifs <;> simp [List.countP_cons, Effect.isCapture]

theorem Out.stageStep_refl (s : Align R) (es : List (Effect R))
    (h : ∀ e ∈ es, e.isCapture = false ∧ e ≠ Effect.solverSlewComplete ∧ e.isFailure = false) :
    Out.stageStep (s, es) s :=
  ⟨rfl, rfl, rfl, rfl, rfl, rfl, fun h => h, fun e he => (h e he).2,
    Or.inl ⟨countP_eq_zero_of_quiet _ _ (fun e he => (h e he).1), rfl⟩⟩

/-- Two steps in a row make a step: at most one of them requests an exposure. -/
theorem Out.stageStep_andThen (p : Out R) (f : Align R → Out R) (s : Align R)
    (hp : p.stageStep s) (hf : (f p.1).stageStep p.1) :
    (Out.andThen p f).stageStep s := by
  obtain ⟨a1, a2, a3, a4, a5, a6, a7, a8, a9⟩ := hp
  obtain ⟨b1, b2, b3, b4, b5, b6, b7, b8, b9⟩ := hf
  refine ⟨b1.trans a1, b2.trans a2, b3.trans a3, b4.trans a4, b5.trans a5, b6.trans a6,
    fun h => b7 (a7 h), ?_, ?_⟩
  · intro e he
    rcases List.mem_append.1 he with he | he
    · exact a8 e he
    · exact b8 e he
  · have hc : List.countP Effect.isCapture (Out.andThen p f).2
        = List.countP Effect.isCapture p.2 + List.countP Effect.isCapture (f p.1).2 :=
      List.countP_append _ _ _
    rw [hc]
    rcases a9 with ⟨c1, c2⟩ | ⟨c1, c2, c3⟩
    · rcases b9 with ⟨d1, d2⟩ | ⟨d1, d2, d3⟩
      · exact Or.inl ⟨by rw [c1, d1], d2.trans c2⟩
      · exact Or.inr ⟨by rw [c1, d1], by rw [← c2]; exact d2, d3⟩
    · rcases b9 with ⟨d1, d2⟩ | ⟨d1, d2, d3⟩
      · exact Or.inr ⟨by rw [c1, d1], c2, d2.trans c3⟩
      · rw [c3] at d2
        exact absurd d2 Bool.false_ne_true

/-- A click on the solve button: a step that leaves the stages and the mode
buttons alone; with the button enabled and controller and camera ready it
requests exactly one exposure. -/
theorem clickSolveB_step (env : Env R) (s : Align R) :
    (clickSolveB env s).stageStep s
    ∧ (clickSolveB env s).1.azStage = s.azStage
    ∧ (clickSolveB env s).1.altStage = s.altStage
    ∧ (s.solveBEnabled = true → s.canCapture → env.cameraReady →
        List.countP Effect.isCapture (clickSolveB env s).2 = 1)
    ∧ (s.solveBEnabled = false → clickSolveB env s = (s, [])) := by
  unfold clickSolveB
  by_cases hb : s.solveBEnabled = true
  · rw [if_pos hb]
    obtain ⟨f1, f2, f3, f4, f5, f6, f7, f8, f9, f10, f11, f12⟩ := captureAndSolve_frame env s
    refine ⟨⟨f3, f4, f5, f6, f7, f8, f10, f11, ?_⟩, f1, f2, ?_, ?_⟩
    · rcases f12 with ⟨g1, g2⟩ | ⟨g1, g2⟩
      · exact Or.inl ⟨g1, g2⟩
      · exact Or.inr ⟨g1, hb, g2⟩
    · intro _ hc he
      exact (captureAndSolve_ready env s hc he).2.2.2.2.2.2.2.1
    · intro h
      rw [hb] at h
      exact absurd h (by decide)
  · rw [if_neg hb]
    refine ⟨Out.stageStep_refl s [] (by simp), rfl, rfl, fun h => absurd h hb, fun _ => rfl⟩

/-- The azimuth switch at the end of a slew: the stage is set to SecondTarget
and `measureAzError` runs from there, which logs, checks `polarR`, leaves the
stage at Finished and clicks the solve button. -/
theorem telescopeAzStage_arrived (env : Env R) (s : Align R)
    (hstill : env.isSlewing = false) (hs : s.azStage = AZStage.AZ_SLEWING) :
    telescopeAzStage env s
      = measureAzError env { s with azStage := AZStage.AZ_SECOND_TARGET }
    ∧ telescopeAzStage env s
      = Out.andThen
          ({ s with azStage := AZStage.AZ_FINISHED, gotoR := false },
            [Effect.log Msg.solvingSecondMeridian])
          (clickSolveB env) := by
  constructor
  · unfold telescopeAzStage
    simp only [hs, hstill, if_true]
  · unfold telescopeAzStage
    simp only [hs, hstill, if_true]
    rfl

/-- The azimuth switch of a coordinate update, case by case. -/
theorem telescopeAzStage_step (env : Env R) (s : Align R) :
    (telescopeAzStage env s).stageStep s
    ∧ (telescopeAzStage env s).1.altStage = s.altStage
    ∧ (telescopeAzStage env s).1.azStage
        = (if s.azStage = AZStage.AZ_SYNCING then
            (if env.isSlewing = true then AZStage.AZ_SLEWING else AZStage.AZ_SYNCING)
          else if s.azStage = AZStage.AZ_SLEWING then
            (if env.isSlewing = true then AZStage.AZ_SLEWING else AZStage.AZ_FINISHED)
          else if s.azStage = AZStage.AZ_CORRECTING then
            (if env.isSlewing = true then AZStage.AZ_CORRECTING else AZStage.AZ_INIT)
          else s.azStage)
    ∧ ((env.isSlewing = true ∨ s.azStage ≠ AZStage.AZ_SLEWING) →
        List.countP Effect.isCapture (telescopeAzStage env s).2 = 0)
    ∧ (env.isSlewing = false → s.azStage = AZStage.AZ_SLEWING → s.solveBEnabled = true →
        s.canCapture → env.cameraReady →
        List.countP Effect.isCapture (telescopeAzStage env s).2 = 1)
    ∧ (env.isSlewing = false → s.azStage = AZStage.AZ_CORRECTING →
        Effect.log Msg.azSlewComplete ∈ (telescopeAzStage env s).2) := by
  by_cases hmove : env.isSlewing = true
  · obtain ⟨e1, e2⟩ := telescopeAzStage_slewing env s hmove
    have hp : telescopeAzStage env s
        = ({ s with azStage :=
              if s.azStage = AZStage.AZ_SYNCING then AZStage.AZ_SLEWING else s.azStage }, []) :=
      Prod.ext e2 e1
    rw [hp]
    refine ⟨Out.stageStep_refl _ [] (by simp), rfl, ?_, fun _ => rfl, ?_, ?_⟩
    · show (if s.azStage = AZStage.AZ_SYNCING then AZStage.AZ_SLEWING else s.azStage) = _
      simp only [hmove, if_true]
      split_ifs with h1 h2 h3
      · rfl
      · exact h2
      · exact h3
      · rfl
    · intro h
      rw [hmove] at h
      exact absurd h (by decide)
    · intro h
      rw [hmove] at h
      exact absurd h (by decide)
  · have hstill : env.isSlewing = false := by
      cases h : env.isSlewing
      · rfl
      · exact absurd h hmove
    cases hs : s.azStage
    rotate_left 3
    ·
      obtain ⟨_, harr⟩ := telescopeAzStage_arrived env s hstill hs
      rw [harr]
      obtain ⟨c1, c2, c3, c4, c5⟩ := clickSolveB_step env
        { s with azStage := AZStage.AZ_FINISHED, gotoR := false }
      have hstep : (Out.andThen
          (({ s with azStage := AZStage.AZ_FINISHED, gotoR := false } : Align R),
            [Effect.log Msg.solvingSecondMeridian]) (clickSolveB env)).stageStep s := by
        apply Out.stageStep_andThen
        · exact ⟨rfl, rfl, rfl, rfl, rfl, rfl, fun h => h,
            by simp [Effect.isFailure], Or.inl ⟨by simp [Effect.isCapture], rfl⟩⟩
        · exact c1
      refine ⟨hstep, c3, ?_, ?_, ?_, ?_⟩
      · show (clickSolveB env _).1.azStage = _
        rw [c2]
        simp [hstill]
      · rintro (h | h)
        · exact absurd h hmove
        · exact absurd rfl h
      · intro _ _ hb hc he
        show List.countP Effect.isCapture
          ([Effect.log Msg.solvingSecondMeridian] ++ (clickSolveB env _).2) = 1
        rw [List.countP_append, c4 hb hc he]
        simp [Effect.isCapture]
      · intro _ h
        exact absurd h (by decide)
    rotate_left 1
    ·
      have hp : telescopeAzStage env s
          = ({ s with azStage := AZStage.AZ_INIT }, [Effect.log Msg.azSlewComplete]) := by
        unfold telescopeAzStage
        simp only [hs, hstill, if_true]
      rw [hp]
      refine ⟨⟨rfl, rfl, rfl, rfl, rfl, rfl, fun h => h, by simp [Effect.isFailure],
        Or.inl ⟨by simp [Effect.isCapture], rfl⟩⟩, rfl, ?_, ?_, ?_, ?_⟩
      · simp [hstill]
      · intro _
        simp [Effect.isCapture]
      · intro _ h
        exact absurd h (by decide)
      · intro _ _
        simp
    all_goals
      have hp : telescopeAzStage env s = (s, []) := by
        unfold telescopeAzStage
        simp only [hs, hstill, Bool.false_eq_true, if_false]
      rw [hp]
      refine ⟨Out.stageStep_refl s [] (by simp), rfl, ?_, fun _ => rfl, ?_, ?_⟩
      · simp [hs, hstill]
      · intro _ h
        exact absurd h (by decide)
      · intro _ h
        exact absurd h (by decide)

/-- The altitude switch at the end of a slew: the stage is set to SecondTarget
and `measureAltError` runs from there, which logs, checks `polarR`, leaves the
stage at Finished and clicks the solve button. -/
theorem telescopeAltStage_arrived (env : Env R) (s : Align R)
    (hstill : env.isSlewing = false) (hs : s.altStage = ALTStage.ALT_SLEWING) :
    telescopeAltStage env s
      = measureAltError env { s with altStage := ALTStage.ALT_SECOND_TARGET }
    ∧ telescopeAltStage env s
      = Out.andThen
          ({ s with altStage := ALTStage.ALT_FINISHED, gotoR := false },
            [Effect.log Msg.solvingSecondFrame])
          (clickSolveB env) := by
  constructor
  · unfold telescopeAltStage
    simp only [hs, hstill, if_true]
  · unfold telescopeAltStage
    simp only [hs, hstill, if_true]
    rfl

/-- The altitude switch of a coordinate update, case by case. -/
theorem telescopeAltStage_step (env : Env R) (s : Align R) :
    (telescopeAltStage env s).stageStep s
    ∧ (telescopeAltStage env s).1.azStage = s.azStage
    ∧ (telescopeAltStage env s).1.altStage
        = (if s.altStage = ALTStage.ALT_SYNCING then
            (if env.isSlewing = true then ALTStage.ALT_SLEWING else ALTStage.ALT_SYNCING)
          else if s.altStage = ALTStage.ALT_SLEWING then
            (if env.isSlewing = true then ALTStage.ALT_SLEWING else ALTStage.ALT_FINISHED)
          else if s.altStage = ALTStage.ALT_CORRECTING then
            (if env.isSlewing = true then ALTStage.ALT_CORRECTING else ALTStage.ALT_INIT)
          else s.altStage)
    ∧ ((env.isSlewing = true ∨ s.altStage ≠ ALTStage.ALT_SLEWING) →
        List.countP Effect.isCapture (telescopeAltStage env s).2 = 0)
    ∧ (env.isSlewing = false → s.altStage = ALTStage.ALT_SLEWING → s.solveBEnabled = true →
        s.canCapture → env.cameraReady →
        List.countP Effect.isCapture (telescopeAltStage env s).2 = 1)
    ∧ (env.isSlewing = false → s.altStage = ALTStage.ALT_CORRECTING →
        Effect.log Msg.altSlewComplete ∈ (telescopeAltStage env s).2) := by
  by_cases hmove : env.isSlewing = true
  · obtain ⟨e1, e2⟩ := telescopeAltStage_slewing env s hmove
    have hp : telescopeAltStage env s
        = ({ s with altStage :=
              if s.altStage = ALTStage.ALT_SYNCING then ALTStage.ALT_SLEWING else s.altStage }, []) :=
      Prod.ext e2 e1
    rw [hp]
    refine ⟨Out.stageStep_refl _ [] (by simp), rfl, ?_, fun _ => rfl, ?_, ?_⟩
    · show (if s.altStage = ALTStage.ALT_SYNCING then ALTStage.ALT_SLEWING else s.altStage) = _
      simp only [hmove, if_true]
      split_ifs with h1 h2 h3
      · rfl
      · exact h2
      · exact h3
      · rfl
    · intro h
      rw [hmove] at h
      exact absurd h (by decide)
    · intro h
      rw [hmove] at h
      exact absurd h (by decide)
  · have hstill : env.isSlewing = false := by
      cases h : env.isSlewing
      · rfl
      · exact absurd h hmove
    cases hs : s.altStage
    rotate_left 3
    ·
      obtain ⟨_, harr⟩ := telescopeAltStage_arrived env s hstill hs
      rw [harr]
      obtain ⟨c1, c2, c3, c4, c5⟩ := clickSolveB_step env
        { s with altStage := ALTStage.ALT_FINISHED, gotoR := false }
      have hstep : (Out.andThen
          (({ s with altStage := ALTStage.ALT_FINISHED, gotoR := false } : Align R),
            [Effect.log Msg.solvingSecondFrame]) (clickSolveB env)).stageStep s := by
        apply Out.stageStep_andThen
        · exact ⟨rfl, rfl, rfl, rfl, rfl, rfl, fun h => h,
            by simp [Effect.isFailure], Or.inl ⟨by simp [Effect.isCapture], rfl⟩⟩
        · exact c1
      refine ⟨hstep, c2, ?_, ?_, ?_, ?_⟩
      · show (clickSolveB env _).1.altStage = _
        rw [c3]
        simp [hstill]
      · rintro (h | h)
        · exact absurd h hmove
        · exact absurd rfl h
      · intro _ _ hb hc he
        show List.countP Effect.isCapture
          ([Effect.log Msg.solvingSecondFrame] ++ (clickSolveB env _).2) = 1
        rw [List.countP_append, c4 hb hc he]
        simp [Effect.isCapture]
      · intro _ h
        exact absurd h (by decide)
    rotate_left 1
    ·
      have hp : telescopeAltStage env s
          = ({ s with altStage := ALTStage.ALT_INIT }, [Effect.log Msg.altSlewComplete]) := by
        unfold telescopeAltStage
        simp only [hs, hstill, if_true]
      rw [hp]
      refine ⟨⟨rfl, rfl, rfl, rfl, rfl, rfl, fun h => h, by simp [Effect.isFailure],
        Or.inl ⟨by simp [Effect.isCapture], rfl⟩⟩, rfl, ?_, ?_, ?_, ?_⟩
      · simp [hstill]
      · intro _
        simp [Effect.isCapture]
      · intro _ h
        exact absurd h (by decide)
      · intro _ _
        simp
    all_goals
      have hp : telescopeAltStage env s = (s, []) := by
        unfold telescopeAltStage
        simp only [hs, hstill, Bool.false_eq_true, if_false]
      rw [hp]
      refine ⟨Out.stageStep_refl s [] (by simp), rfl, ?_, fun _ => rfl, ?_, ?_⟩
      · simp [hs, hstill]
      · intro _ h
        exact absurd h (by decide)
      · intro _ h
        exact absurd h (by decide)

/-- The two stage switches in a row. -/
theorem stageSwitches_step (env : Env R) (s : Align R) :
    (Out.andThen (telescopeAzStage env s) (telescopeAltStage env)).stageStep s
    ∧ (Out.andThen (telescopeAzStage env s) (telescopeAltStage env)).1.azStage
        = (if s.azStage = AZStage.AZ_SYNCING then
            (if env.isSlewing = true then AZStage.AZ_SLEWING else AZStage.AZ_SYNCING)
          else if s.azStage = AZStage.AZ_SLEWING then
            (if env.isSlewing = true then AZStage.AZ_SLEWING else AZStage.AZ_FINISHED)
          else if s.azStage = AZStage.AZ_CORRECTING then
            (if env.isSlewing = true then AZStage.AZ_CORRECTING else AZStage.AZ_INIT)
          else s.azStage)
    ∧ (Out.andThen (telescopeAzStage env s) (telescopeAltStage env)).1.altStage
        = (if s.altStage = ALTStage.ALT_SYNCING then
            (if env.isSlewing = true then ALTStage.ALT_SLEWING else ALTStage.ALT_SYNCING)
          else if s.altStage = ALTStage.ALT_SLEWING then
            (if env.isSlewing = true then ALTStage.ALT_SLEWING else ALTStage.ALT_FINISHED)
          else if s.altStage = ALTStage.ALT_CORRECTING then
            (if env.isSlewing = true then ALTStage.ALT_CORRECTING else ALTStage.ALT_INIT)
          else s.altStage)
    ∧ ((env.isSlewing = true
          ∨ (s.azStage ≠ AZStage.AZ_SLEWING ∧ s.altStage ≠ ALTStage.ALT_SLEWING)) →
        List.countP Effect.isCapture
          (Out.andThen (telescopeAzStage env s) (telescopeAltStage env)).2 = 0)
    ∧ (env.isSlewing = false →
        (s.azStage = AZStage.AZ_SLEWING ∨ s.altStage = ALTStage.ALT_SLEWING) →
        s.solveBEnabled = true → s.canCapture → env.cameraReady →
        List.countP Effect.isCapture
          (Out.andThen (telescopeAzStage env s) (telescopeAltStage env)).2 = 1)
    ∧ (env.isSlewing = false → s.azStage = AZStage.AZ_CORRECTING →
        Effect.log Msg.azSlewComplete
          ∈ (Out.andThen (telescopeAzStage env s) (telescopeAltStage env)).2)
    ∧ (env.isSlewing = false → s.altStage = ALTStage.ALT_CORRECTING →
        Effect.log Msg.altSlewComplete
          ∈ (Out.andThen (telescopeAzStage env s) (telescopeAltStage env)).2) := by
  obtain ⟨a1, a2, a3, a4, a5, a6⟩ := telescopeAzStage_step env s
  obtain ⟨b1, b2, b3, b4, b5, b6⟩ := telescopeAltStage_step env (telescopeAzStage env s).1
  have hstep := Out.stageStep_andThen (telescopeAzStage env s) (telescopeAltStage env) s a1 b1
  have hc : List.countP Effect.isCapture
      (Out.andThen (telescopeAzStage env s) (telescopeAltStage env)).2
      = List.countP Effect.isCapture (telescopeAzStage env s).2
        + List.countP Effect.isCapture (telescopeAltStage env (telescopeAzStage env s).1).2 :=
    List.countP_append _ _ _
  refine ⟨hstep, ?_, ?_, ?_, ?_, ?_, ?_⟩
  · show (telescopeAltStage env (telescopeAzStage env s).1).1.azStage = _
    rw [b2, a3]
  · show (telescopeAltStage env (telescopeAzStage env s).1).1.altStage = _
    rw [b3, a2]
  · intro h
    rw [hc]
    have h1 : List.countP Effect.isCapture (telescopeAzStage env s).2 = 0 := by
      apply a4
      rcases h with h | h
      · exact Or.inl h
      · exact Or.inr h.1
    have h2 : List.countP Effect.isCapture
        (telescopeAltStage env (telescopeAzStage env s).1).2 = 0 := by
      apply b4
      rcases h with h | h
      · exact Or.inl h
      · right
        rw [a2]
        exact h.2
    rw [h1, h2]
  · intro hstill hor hb hcap hcam
    have hle : List.countP Effect.isCapture
        (Out.andThen (telescopeAzStage env s) (telescopeAltStage env)).2 ≤ 1 := by
      rcases hstep.2.2.2.2.2.2.2.2 with ⟨c, _⟩ | ⟨c, _, _⟩
      · rw [c]; exact Nat.zero_le _
      · rw [c]
    have hge : 1 ≤ List.countP Effect.isCapture
        (Out.andThen (telescopeAzStage env s) (telescopeAltStage env)).2 := by
      rw [hc]
      by_cases haz : s.azStage = AZStage.AZ_SLEWING
      · rw [a5 hstill haz hb hcap hcam]
        exact Nat.le_add_right _ _
      · have halt : s.altStage = ALTStage.ALT_SLEWING := by
          rcases hor with h | h
          · exact absurd h haz
          · exact h
        have h0 := a4 (Or.inr haz)
        have hb1 : (telescopeAzStage env s).1.solveBEnabled = true := by
          rcases a1.2.2.2.2.2.2.2.2 with ⟨_, c⟩ | ⟨c, _, _⟩
          · rw [c, hb]
          · rw [h0] at c
            exact absurd c (by decide)
        rw [b5 hstill (by rw [a2]; exact halt) hb1 (a1.2.2.2.2.2.2.1 hcap) hcam]
        exact Nat.le_add_left _ _
    exact Nat.le_antisymm hle hge
  · intro hstill h
    exact List.mem_append_left _ (a6 hstill h)
  · intro hstill h
    exact List.mem_append_right _ (b6 hstill (by rw [a2]; exact h))

theorem telescopeStages_eq (env : Env R) (s : Align R) (es : List (Effect R)) :
    telescopeStages env (s, es)
      = ((Out.andThen (telescopeAzStage env s) (telescopeAltStage env)).1,
          es ++ (Out.andThen (telescopeAzStage env s) (telescopeAltStage env)).2) := by
  unfold telescopeStages Out.andThen
  simp only [List.append_assoc]

/-- A coordinate update that is not consumed by the load-and-slew or the
slew-to-target branch runs the two stage switches, on a state that differs
from the one before in the mount coordinates and the loop bookkeeping only. -/
theorem processTelescopeNumber_switches (env : Env R) (ra dec : R) (s : Align R)
    (h : ¬ s.updateConsumed env) :
    ∃ (s2 : Align R) (es : List (Effect R)),
      processTelescopeNumber env ra dec s = telescopeStages env (s2, es)
      ∧ s2.azStage = s.azStage ∧ s2.altStage = s.altStage
      ∧ s2.solveBEnabled = s.solveBEnabled ∧ (s.canCapture → s2.canCapture)
      ∧ (∀ e ∈ es, e.isCapture = false)
      ∧ (s.solverUpdateCoords = false →
          s2 = storeTelescopeCoord env ra dec s ∧ es = []) := by
  unfold Align.updateConsumed at h
  unfold processTelescopeNumber
  by_cases hupd : s.solverUpdateCoords = true
  · by_cases hmove : env.isSlewing = true
    · by_cases hd : s.slew_dirty = true
      · simp only [storeTelescopeCoord, hupd, hmove, hd, if_true, Bool.true_eq_false,
          and_false, if_false, false_and]
        exact ⟨_, _, rfl, rfl, rfl, rfl, fun c => c, by simp,
          by intro c; exact c.elim⟩
      · have hd2 : s.slew_dirty = false := by
          cases c : s.slew_dirty
          · rfl
          · exact absurd c hd
        simp only [storeTelescopeCoord, hupd, hmove, hd2, if_true, and_self]
        exact ⟨_, _, rfl, rfl, rfl, rfl, fun c => c, by simp,
          by intro c; first | exact c.elim | exact absurd c (by decide)⟩
    · have hstill : env.isSlewing = false := by
        cases c : env.isSlewing
        · rfl
        · exact absurd c hmove
      by_cases hd : s.slew_dirty = true
      · have hload : s.loadSlewMode = false := by
          cases c : s.loadSlewMode
          · rfl
          · exact absurd ⟨hupd, hstill, hd, Or.inl c⟩ h
        by_cases hsel : s.m_slewToTargetSelected = true
        · have hle : s.targetDiff ≤ s.accuracy := by
            by_contra c
            exact h ⟨hupd, hstill, hd, Or.inr ⟨hsel, c⟩⟩
          simp only [storeTelescopeCoord, hupd, hstill, hd, hload, hsel, hle, if_true,
            Bool.false_eq_true, false_and, if_false, and_self]
          exact ⟨_, _, rfl, rfl, rfl, rfl, fun c => c, by simp [Effect.isCapture],
            by intro c; first | exact c.elim | exact absurd c (by decide)⟩
        · have hsel2 : s.m_slewToTargetSelected = false := by
            cases c : s.m_slewToTargetSelected
            · rfl
            · exact absurd c hsel
          simp only [storeTelescopeCoord, hupd, hstill, hd, hload, hsel2, if_true,
            Bool.false_eq_true, false_and, if_false, and_self]
          exact ⟨_, _, rfl, rfl, rfl, rfl, fun c => c, by simp [Effect.isCapture],
            by intro c; first | exact c.elim | exact absurd c (by decide)⟩
      · have hd2 : s.slew_dirty = false := by
          cases c : s.slew_dirty
          · rfl
          · exact absurd c hd
        simp only [storeTelescopeCoord, hupd, hstill, hd2, if_true, Bool.false_eq_true,
          false_and, if_false, and_false]
        exact ⟨_, _, rfl, rfl, rfl, rfl, fun c => c, by simp,
          by intro c; first | exact c.elim | exact absurd c (by decide)⟩
  · have hupd2 : s.solverUpdateCoords = false := by
      cases c : s.solverUpdateCoords
      · rfl
      · exact absurd c hupd
    simp only [storeTelescopeCoord, hupd2, Bool.false_eq_true, if_false]
    exact ⟨_, _, rfl, rfl, rfl, rfl, fun c => c, by simp, fun _ => ⟨rfl, rfl⟩⟩

/-- A coordinate update that reaches the stage switches: the stages after it,
the exposure requests and the completion messages. -/
theorem processTelescopeNumber_stage (env : Env R) (ra dec : R) (s : Align R)
    (h : ¬ s.updateConsumed env) :
    (processTelescopeNumber env ra dec s).1.azStage
        = (if s.azStage = AZStage.AZ_SYNCING then
            (if env.isSlewing = true then AZStage.AZ_SLEWING else AZStage.AZ_SYNCING)
          else if s.azStage = AZStage.AZ_SLEWING then
            (if env.isSlewing = true then AZStage.AZ_SLEWING else AZStage.AZ_FINISHED)
          else if s.azStage = AZStage.AZ_CORRECTING then
            (if env.isSlewing = true then AZStage.AZ_CORRECTING else AZStage.AZ_INIT)
          else s.azStage)
    ∧ (processTelescopeNumber env ra dec s).1.altStage
        = (if s.altStage = ALTStage.ALT_SYNCING then
            (if env.isSlewing = true then ALTStage.ALT_SLEWING else ALTStage.ALT_SYNCING)
          else if s.altStage = ALTStage.ALT_SLEWING then
            (if env.isSlewing = true then ALTStage.ALT_SLEWING else ALTStage.ALT_FINISHED)
          else if s.altStage = ALTStage.ALT_CORRECTING then
            (if env.isSlewing = true then ALTStage.ALT_CORRECTING else ALTStage.ALT_INIT)
          else s.altStage)
    ∧ ((env.isSlewing = true
          ∨ (s.azStage ≠ AZStage.AZ_SLEWING ∧ s.altStage ≠ ALTStage.ALT_SLEWING)) →
        List.countP Effect.isCapture (processTelescopeNumber env ra dec s).2 = 0)
    ∧ (env.isSlewing = false →
        (s.azStage = AZStage.AZ_SLEWING ∨ s.altStage = ALTStage.ALT_SLEWING) →
        s.solveBEnabled = true → s.canCapture → env.cameraReady →
        List.countP Effect.isCapture (processTelescopeNumber env ra dec s).2 = 1)
    ∧ (env.isSlewing = false → s.azStage = AZStage.AZ_CORRECTING →
        Effect.log Msg.azSlewComplete ∈ (processTelescopeNumber env ra dec s).2)
    ∧ (env.isSlewing = false → s.altStage = ALTStage.ALT_CORRECTING →
        Effect.log Msg.altSlewComplete ∈ (processTelescopeNumber env ra dec s).2) := by
  obtain ⟨s2, es, heq, h1, h2, h3, h4, h5, _⟩ := processTelescopeNumber_switches env ra dec s h
  obtain ⟨g1, g2, g3, g4, g5, g6, g7⟩ := stageSwitches_step env s2
  rw [heq, telescopeStages_eq]
  have hes : List.countP Effect.isCapture es = 0 := countP_eq_zero_of_quiet _ _ h5
  rw [h1] at g2 g4 g5 g6
  rw [h2] at g3 g4 g5 g7
  rw [h3] at g5
  refine ⟨g2, g3, ?_, ?_, ?_, ?_⟩
  · intro c
    show List.countP Effect.isCapture (es ++ _) = 0
    rw [List.countP_append, hes, g4 c]
  · intro c1 c2 c3 c4 c5
    show List.countP Effect.isCapture (es ++ _) = 1
    rw [List.countP_append, hes, g5 c1 c2 c3 (h4 c4) c5]
  · intro c1 c2
    exact List.mem_append_right _ (g6 c1 c2)
  · intro c1 c2
    exact List.mem_append_right _ (g7 c1 c2)

/-- C23 (amended): on a mount coordinate update that reaches the stage
switches, for each axis: from Syncing the stage becomes Slewing if the mount
reports it is slewing and stays Syncing otherwise; from Slewing it stays
Slewing while the mount is slewing; once the mount has stopped the stage is
set to SecondTarget and the measure operation runs at once from there, so the
update ends with the stage at Finished, and with the solve button enabled and
controller and camera ready exactly one exposure is requested.  From Syncing
a single update reaches neither SecondTarget nor Finished. -/
theorem coordinate_update_advances_polar_stages (env : Env R) (ra dec : R) (s : Align R)
    (h : ¬ s.updateConsumed env) :
    ((s.azStage = AZStage.AZ_SYNCING → env.isSlewing = true →
        (processTelescopeNumber env ra dec s).1.azStage = AZStage.AZ_SLEWING)
      ∧ (s.azStage = AZStage.AZ_SYNCING → env.isSlewing = false →
        (processTelescopeNumber env ra dec s).1.azStage = AZStage.AZ_SYNCING)
      ∧ (s.azStage = AZStage.AZ_SLEWING → env.isSlewing = true →
        (processTelescopeNumber env ra dec s).1.azStage = AZStage.AZ_SLEWING)
      ∧ (s.azStage = AZStage.AZ_SLEWING → env.isSlewing = false →
        (processTelescopeNumber env ra dec s).1.azStage = AZStage.AZ_FINISHED
        ∧ telescopeAzStage env s
            = measureAzError env { s with azStage := AZStage.AZ_SECOND_TARGET }))
    ∧ ((s.altStage = ALTStage.ALT_SYNCING → env.isSlewing = true →
        (processTelescopeNumber env ra dec s).1.altStage = ALTStage.ALT_SLEWING)
      ∧ (s.altStage = ALTStage.ALT_SYNCING → env.isSlewing = false →
        (processTelescopeNumber env ra dec s).1.altStage = ALTStage.ALT_SYNCING)
      ∧ (s.altStage = ALTStage.ALT_SLEWING → env.isSlewing = true →
        (processTelescopeNumber env ra dec s).1.altStage = ALTStage.ALT_SLEWING)
      ∧ (s.altStage = ALTStage.ALT_SLEWING → env.isSlewing = false →
        (processTelescopeNumber env ra dec s).1.altStage = ALTStage.ALT_FINISHED
        ∧ telescopeAltStage env s
            = measureAltError env { s with altStage := ALTStage.ALT_SECOND_TARGET }))
    ∧ (env.isSlewing = false →
        (s.azStage = AZStage.AZ_SLEWING ∨ s.altStage = ALTStage.ALT_SLEWING) →
        s.solveBEnabled = true → s.canCapture → env.cameraReady →
        List.countP Effect.isCapture (processTelescopeNumber env ra dec s).2 = 1)
    ∧ (s.azStage = AZStage.AZ_SYNCING →
        (processTelescopeNumber env ra dec s).1.azStage ≠ AZStage.AZ_SECOND_TARGET
        ∧ (processTelescopeNumber env ra dec s).1.azStage ≠ AZStage.AZ_FINISHED)
    ∧ (s.altStage = ALTStage.ALT_SYNCING →
        (processTelescopeNumber env ra dec s).1.altStage ≠ ALTStage.ALT_SECOND_TARGET
        ∧ (processTelescopeNumber env ra dec s).1.altStage ≠ ALTStage.ALT_FINISHED) := by
  obtain ⟨g1, g2, g3, g4, g5, g6⟩ := processTelescopeNumber_stage env ra dec s h
  refine ⟨⟨?_, ?_, ?_, ?_⟩, ⟨?_, ?_, ?_, ?_⟩, g4, ?_, ?_⟩
  · intro c1 c2
    rw [g1]
    simp [c1, c2]
  · intro c1 c2
    rw [g1]
    simp [c1, c2]
  · intro c1 c2
    rw [g1]
    simp [c1, c2]
  · intro c1 c2
    refine ⟨?_, (telescopeAzStage_arrived env s c2 c1).1⟩
    rw [g1]
    simp [c1, c2]
  · intro c1 c2
    rw [g2]
    simp [c1, c2]
  · intro c1 c2
    rw [g2]
    simp [c1, c2]
  · intro c1 c2
    rw [g2]
    simp [c1, c2]
  · intro c1 c2
    refine ⟨?_, (telescopeAltStage_arrived env s c2 c1).1⟩
    rw [g2]
    simp [c1, c2]
  · intro c1
    rw [g1]
    simp only [c1, if_true]
    split_ifs <;> exact ⟨by decide, by decide⟩
  · intro c1
    rw [g2]
    simp only [c1, if_true]
    split_ifs <;> exact ⟨by decide, by decide⟩

theorem atStage_not_consumed (az : AZStage) (alt : ALTStage) (env : Env ℚ) :
    ¬ (Align.atStage az alt).updateConsumed env := by
  rintro ⟨_, _, hd, _⟩
  have hf : (Align.atStage az alt).slew_dirty = false := rfl
  rw [hf] at hd
  exact absurd hd (by decide)

theorem atStage_canCapture (az : AZStage) (alt : ALTStage) :
    (Align.atStage az alt).canCapture := by
  unfold Align.canCapture
  norm_num [Align.atStage, Align.equipped, Align.fresh, Align.init]

theorem coordinate_update_advances_polar_stages_witness :
    (processTelescopeNumber { SlewRound.offTarget.env with isSlewing := true } 0 0
        (Align.atStage AZStage.AZ_SYNCING ALTStage.ALT_INIT)).1.azStage = AZStage.AZ_SLEWING
    ∧ List.countP Effect.isCapture
        (processTelescopeNumber SlewRound.offTarget.env 0 0
          (Align.atStage AZStage.AZ_INIT ALTStage.ALT_SLEWING)).2 = 1 :=
  ⟨(coordinate_update_advances_polar_stages { SlewRound.offTarget.env with isSlewing := true }
      0 0 (Align.atStage AZStage.AZ_SYNCING ALTStage.ALT_INIT)
      (atStage_not_consumed _ _ _)).1.1 rfl rfl,
   (coordinate_update_advances_polar_stages SlewRound.offTarget.env 0 0
      (Align.atStage AZStage.AZ_INIT ALTStage.ALT_SLEWING)
      (atStage_not_consumed _ _ _)).2.2.1 rfl (Or.inr rfl) rfl (atStage_canCapture _ _)
      ⟨rfl, rfl, rfl⟩⟩

/-- Counterexample to C23 as stated: the azimuth axis is in stage Slewing and
the mount reports that it is no longer slewing.  After the update the stage
is Finished, not SecondTarget. -/
theorem slewing_stage_ends_at_finished :
    (Align.atStage AZStage.AZ_SLEWING ALTStage.ALT_INIT).azStage = AZStage.AZ_SLEWING
    ∧ SlewRound.offTarget.env.isSlewing = false
    ∧ (processTelescopeNumber SlewRound.offTarget.env 0 0
        (Align.atStage AZStage.AZ_SLEWING ALTStage.ALT_INIT)).1.azStage = AZStage.AZ_FINISHED
    ∧ (processTelescopeNumber SlewRound.offTarget.env 0 0
        (Align.atStage AZStage.AZ_SLEWING ALTStage.ALT_INIT)).1.azStage
          ≠ AZStage.AZ_SECOND_TARGET := by
  have h := (processTelescopeNumber_stage SlewRound.offTarget.env 0 0
    (Align.atStage AZStage.AZ_SLEWING ALTStage.ALT_INIT) (atStage_not_consumed _ _ _)).1
  have e : (processTelescopeNumber SlewRound.offTarget.env 0 0
      (Align.atStage AZStage.AZ_SLEWING ALTStage.ALT_INIT)).1.azStage
      = AZStage.AZ_FINISHED := by
    rw [h]
    rfl
  refine ⟨rfl, rfl, e, ?_⟩
  rw [e]
  decide

/-- A coordinate update with the update-coordinates option unchecked. -/
theorem processTelescopeNumber_unchecked (env : Env R) (ra dec : R) (s : Align R)
    (hupd : s.solverUpdateCoords = false) :
    (processTelescopeNumber env ra dec s).1.solverIterations = s.solverIterations
    ∧ (processTelescopeNumber env ra dec s).1.m_slewToTargetSelected
        = s.m_slewToTargetSelected
    ∧ (processTelescopeNumber env ra dec s).1.loadSlewMode = s.loadSlewMode
    ∧ (processTelescopeNumber env ra dec s).1.loadSlewState = s.loadSlewState
    ∧ (processTelescopeNumber env ra dec s).1.solverUpdateCoords = false
    ∧ (∀ e ∈ (processTelescopeNumber env ra dec s).2,
        e ≠ Effect.solverSlewComplete ∧ e.isFailure = false) := by
  have hnc : ¬ s.updateConsumed env := by
    rintro ⟨c, _⟩
    rw [hupd] at c
    exact absurd c (by decide)
  obtain ⟨s2, es, heq, _, _, _, _, _, h6⟩ := processTelescopeNumber_switches env ra dec s hnc
  obtain ⟨hs2, hes⟩ := h6 hupd
  subst hs2
  subst hes
  obtain ⟨⟨a1, a2, a3, a4, a5, _, _, a8, _⟩, _⟩ :=
    stageSwitches_step env (storeTelescopeCoord env ra dec s)
  rw [heq, telescopeStages_eq]
  refine ⟨a1, a2, a3, a4, ?_, ?_⟩
  · show (Out.andThen _ _).1.solverUpdateCoords = false
    rw [a5]
    exact hupd
  · intro e he
    rw [List.nil_append] at he
    exact a8 e he

/-- A run of coordinate updates with the update-coordinates option unchecked. -/
theorem updateRun_unchecked (updates : List (Env R × R × R)) :
    ∀ s : Align R, s.solverUpdateCoords = false →
      (updateRun updates s).1.solverIterations = s.solverIterations
      ∧ (updateRun updates s).1.m_slewToTargetSelected = s.m_slewToTargetSelected
      ∧ (updateRun updates s).1.loadSlewMode = s.loadSlewMode
      ∧ (updateRun updates s).1.loadSlewState = s.loadSlewState
      ∧ (∀ e ∈ (updateRun updates s).2,
          e ≠ Effect.solverSlewComplete ∧ e.isFailure = false)
      ∧ (s.azStage ≠ AZStage.AZ_SYNCING → s.azStage ≠ AZStage.AZ_SLEWING →
          s.altStage ≠ ALTStage.ALT_SYNCING → s.altStage ≠ ALTStage.ALT_SLEWING →
          List.countP Effect.isCapture (updateRun updates s).2 = 0) := by
  induction updates with
  | nil =>
    intro s _
    exact ⟨rfl, rfl, rfl, rfl, by simp [updateRun], fun _ _ _ _ => rfl⟩
  | cons u rest ih =>
    intro s hupd
    have hnc : ¬ s.updateConsumed u.1 := by
      rintro ⟨c, _⟩
      rw [hupd] at c
      exact absurd c (by decide)
    obtain ⟨p1, p2, p3, p4, p5, p6⟩ := processTelescopeNumber_unchecked u.1 u.2.1 u.2.2 s hupd
    obtain ⟨g1, g2, g3, _, _, _⟩ := processTelescopeNumber_stage u.1 u.2.1 u.2.2 s hnc
    obtain ⟨q1, q2, q3, q4, q5, q6⟩ := ih (processTelescopeNumber u.1 u.2.1 u.2.2 s).1 p5
    have hrun : updateRun (u :: rest) s
        = ((updateRun rest (processTelescopeNumber u.1 u.2.1 u.2.2 s).1).1,
            (processTelescopeNumber u.1 u.2.1 u.2.2 s).2
              ++ (updateRun rest (processTelescopeNumber u.1 u.2.1 u.2.2 s).1).2) := rfl
    rw [hrun]
    refine ⟨q1.trans p1, q2.trans p2, q3.trans p3, q4.trans p4, ?_, ?_⟩
    · intro e he
      rcases List.mem_append.1 he with he | he
      · exact p6 e he
      · exact q5 e he
    · intro c1 c2 c3 c4
      have haz : (processTelescopeNumber u.1 u.2.1 u.2.2 s).1.azStage
          ≠ AZStage.AZ_SYNCING
          ∧ (processTelescopeNumber u.1 u.2.1 u.2.2 s).1.azStage ≠ AZStage.AZ_SLEWING := by
        rw [g1, if_neg c1, if_neg c2]
        split_ifs
        · exact ⟨by decide, by decide⟩
        · exact ⟨by decide, by decide⟩
        · exact ⟨c1, c2⟩
      have halt : (processTelescopeNumber u.1 u.2.1 u.2.2 s).1.altStage
          ≠ ALTStage.ALT_SYNCING
          ∧ (processTelescopeNumber u.1 u.2.1 u.2.2 s).1.altStage ≠ ALTStage.ALT_SLEWING := by
        rw [g2, if_neg c3, if_neg c4]
        split_ifs
        · exact ⟨by decide, by decide⟩
        · exact ⟨by decide, by decide⟩
        · exact ⟨c3, c4⟩
      show List.countP Effect.isCapture (_ ++ _) = 0
      rw [List.countP_append, g3 (Or.inr ⟨c2, c4⟩), q6 haz.1 haz.2 halt.1 halt.2]

/-- C29 (amended): with the update-coordinates option unchecked, a mount
coordinate update leaves `solverIterations`, `m_slewToTargetSelected`,
`loadSlewMode` and `loadSlewState` unchanged and emits neither
`solverSlewComplete` nor `solverComplete(false)`, whatever the mount reports,
and so does every run of such updates: the Slew-mode loop neither advances
nor ends.  An update starts no capture while the mount is slewing or while
neither polar-alignment axis is in stage Slewing; a run starts none when no
axis is in stage Syncing or Slewing at its start. -/
theorem unchecked_updates_leave_loop_alone (env : Env R) (ra dec : R) (s : Align R)
    (updates : List (Env R × R × R)) (hupd : s.solverUpdateCoords = false) :
    ((processTelescopeNumber env ra dec s).1.solverIterations = s.solverIterations
      ∧ (processTelescopeNumber env ra dec s).1.m_slewToTargetSelected
          = s.m_slewToTargetSelected
      ∧ (processTelescopeNumber env ra dec s).1.loadSlewMode = s.loadSlewMode
      ∧ (processTelescopeNumber env ra dec s).1.loadSlewState = s.loadSlewState
      ∧ (∀ e ∈ (processTelescopeNumber env ra dec s).2,
          e ≠ Effect.solverSlewComplete ∧ e.isFailure = false))
    ∧ ((env.isSlewing = true
          ∨ (s.azStage ≠ AZStage.AZ_SLEWING ∧ s.altStage ≠ ALTStage.ALT_SLEWING)) →
        List.countP Effect.isCapture (processTelescopeNumber env ra dec s).2 = 0)
    ∧ ((updateRun updates s).1.solverIterations = s.solverIterations
      ∧ (updateRun updates s).1.m_slewToTargetSelected = s.m_slewToTargetSelected
      ∧ (updateRun updates s).1.loadSlewMode = s.loadSlewMode
      ∧ (updateRun updates s).1.loadSlewState = s.loadSlewState
      ∧ (∀ e ∈ (updateRun updates s).2,
          e ≠ Effect.solverSlewComplete ∧ e.isFailure = false))
    ∧ (s.azStage ≠ AZStage.AZ_SYNCING → s.azStage ≠ AZStage.AZ_SLEWING →
        s.altStage ≠ ALTStage.ALT_SYNCING → s.altStage ≠ ALTStage.ALT_SLEWING →
        List.countP Effect.isCapture (updateRun updates s).2 = 0) := by
  have hnc : ¬ s.updateConsumed env := by
    rintro ⟨c, _⟩
    rw [hupd] at c
    exact absurd c (by decide)
  obtain ⟨p1, p2, p3, p4, _, p6⟩ := processTelescopeNumber_unchecked env ra dec s hupd
  obtain ⟨_, _, g3, _, _, _⟩ := processTelescopeNumber_stage env ra dec s hnc
  obtain ⟨q1, q2, q3, q4, q5, q6⟩ := updateRun_unchecked updates s hupd
  exact ⟨⟨p1, p2, p3, p4, p6⟩, g3, ⟨q1, q2, q3, q4, q5⟩, q6⟩

theorem unchecked_updates_leave_loop_alone_witness :
    ({ (Align.equipped GotoOption.slewR : Align ℚ) with
        solverUpdateCoords := false, m_slewToTargetSelected := true, targetDiff := 3600,
        slew_dirty := true }).accuracy
      < ({ (Align.equipped GotoOption.slewR : Align ℚ) with
        solverUpdateCoords := false, m_slewToTargetSelected := true, targetDiff := 3600,
        slew_dirty := true }).targetDiff
    ∧ (updateRun
        [(SlewRound.offTarget.env, 0, 0), (SlewRound.offTarget.env, 0, 0)]
        { (Align.equipped GotoOption.slewR : Align ℚ) with
          solverUpdateCoords := false, m_slewToTargetSelected := true, targetDiff := 3600,
          slew_dirty := true }).1.solverIterations = 0
    ∧ List.countP Effect.isCapture
        (updateRun
          [(SlewRound.offTarget.env, 0, 0), (SlewRound.offTarget.env, 0, 0)]
          { (Align.equipped GotoOption.slewR : Align ℚ) with
            solverUpdateCoords := false, m_slewToTargetSelected := true, targetDiff := 3600,
            slew_dirty := true }).2 = 0 :=
  ⟨by norm_num [Align.equipped, Align.fresh, Align.init],
   (unchecked_updates_leave_loop_alone SlewRound.offTarget.env 0 0
      { (Align.equipped GotoOption.slewR : Align ℚ) with
        solverUpdateCoords := false, m_slewToTargetSelected := true, targetDiff := 3600,
        slew_dirty := true }
      [(SlewRound.offTarget.env, 0, 0), (SlewRound.offTarget.env, 0, 0)] rfl).2.2.1.1,
   (unchecked_updates_leave_loop_alone SlewRound.offTarget.env 0 0
      { (Align.equipped GotoOption.slewR : Align ℚ) with
        solverUpdateCoords := false, m_slewToTargetSelected := true, targetDiff := 3600,
        slew_dirty := true }
      [(SlewRound.offTarget.env, 0, 0), (SlewRound.offTarget.env, 0, 0)] rfl).2.2.2
      (by decide) (by decide) (by decide) (by decide)⟩

/-- Counterexample to C29 as stated: the update-coordinates option is
unchecked, the azimuth axis of the polar alignment is in stage Slewing and the
mount reports that it has stopped.  The update requests an exposure. -/
theorem unchecked_update_starts_polar_capture :
    ({ Align.atStage AZStage.AZ_SLEWING ALTStage.ALT_INIT with
        solverUpdateCoords := false }).solverUpdateCoords = false
    ∧ List.countP Effect.isCapture
        (processTelescopeNumber SlewRound.offTarget.env 0 0
          { Align.atStage AZStage.AZ_SLEWING ALTStage.ALT_INIT with
            solverUpdateCoords := false }).2 = 1 := by
  refine ⟨rfl, ?_⟩
  have hnc : ¬ ({ Align.atStage AZStage.AZ_SLEWING ALTStage.ALT_INIT with
      solverUpdateCoords := false } : Align ℚ).updateConsumed SlewRound.offTarget.env := by
    rintro ⟨c, _⟩
    exact absurd c (by decide)
  exact (processTelescopeNumber_stage SlewRound.offTarget.env 0 0 _ hnc).2.2.2.1 rfl
    (Or.inl rfl) rfl (atStage_canCapture AZStage.AZ_SLEWING ALTStage.ALT_INIT)
    ⟨rfl, rfl, rfl⟩

/-! ## Where the Correcting stage comes from -/

theorem calculatePolarError_stages (env : Env R) (a b c d e : R) (s : Align R) :
    (calculatePolarError env a b c d e s).1.azStage = s.azStage
    ∧ (calculatePolarError env a b c d e s).1.altStage = s.altStage := by
  unfold calculatePolarError
  simp only []
  constructor <;> split_ifs <;> rfl

theorem measureAzError_stages (env : Env R) (s : Align R) :
    (measureAzError env s).1.altStage = s.altStage
    ∧ (s.azStage ≠ AZStage.AZ_CORRECTING →
        (measureAzError env s).1.azStage ≠ AZStage.AZ_CORRECTING) := by
  by_cases hf : s.azStage = AZStage.AZ_FINISHED
  · rw [measureAzError_finished env s hf]
    exact ⟨(calculatePolarError_stages env _ _ _ _ _ _).2, fun _ h => AZStage.noConfusion h⟩
  unfold measureAzError
  cases hs : s.azStage
  · simp only []
    split_ifs
    · exact ⟨rfl, fun _ => by rw [hs]; decide⟩
    · obtain ⟨_, c2, c3, _⟩ := clickSolveB_step env
        { s with azStage := AZStage.AZ_FIRST_TARGET, gotoR := false }
      refine ⟨c3, fun _ => ?_⟩
      show (clickSolveB env _).1.azStage ≠ _
      rw [c2]
      exact fun h => AZStage.noConfusion h
  · simp only []
    split_ifs
    · exact ⟨rfl, fun _ h => AZStage.noConfusion h⟩
    · exact ⟨rfl, fun _ h => AZStage.noConfusion h⟩
  · exact ⟨rfl, fun _ => by rw [hs]; decide⟩
  · exact ⟨rfl, fun _ => by rw [hs]; decide⟩
  · obtain ⟨_, c2, c3, _⟩ := clickSolveB_step env
      { s with azStage := AZStage.AZ_FINISHED, gotoR := false }
    refine ⟨c3, fun _ => ?_⟩
    show (clickSolveB env _).1.azStage ≠ _
    rw [c2]
    exact fun h => AZStage.noConfusion h
  · exact ⟨rfl, fun h => absurd rfl h⟩
  · exact absurd hs hf

theorem measureAltError_stages (env : Env R) (s : Align R) :
    (measureAltError env s).1.azStage = s.azStage
    ∧ (s.altStage ≠ ALTStage.ALT_CORRECTING →
        (measureAltError env s).1.altStage ≠ ALTStage.ALT_CORRECTING) := by
  by_cases hf : s.altStage = ALTStage.ALT_FINISHED
  · rw [measureAltError_finished env s hf]
    exact ⟨(calculatePolarError_stages env _ _ _ _ _ _).1, fun _ h => ALTStage.noConfusion h⟩
  unfold measureAltError
  cases hs : s.altStage
  · simp only []
    split_ifs
    · exact ⟨rfl, fun _ => by rw [hs]; decide⟩
    · obtain ⟨_, c2, c3, _⟩ := clickSolveB_step env
        { s with altStage := ALTStage.ALT_FIRST_TARGET, gotoR := false }
      refine ⟨c2, fun _ => ?_⟩
      show (clickSolveB env _).1.altStage ≠ _
      rw [c3]
      exact fun h => ALTStage.noConfusion h
  · simp only []
    split_ifs
    · exact ⟨rfl, fun _ h => ALTStage.noConfusion h⟩
    · exact ⟨rfl, fun _ h => ALTStage.noConfusion h⟩
  · exact ⟨rfl, fun _ => by rw [hs]; decide⟩
  · exact ⟨rfl, fun _ => by rw [hs]; decide⟩
  · obtain ⟨_, c2, c3, _⟩ := clickSolveB_step env
      { s with altStage := ALTStage.ALT_FINISHED, gotoR := false }
    refine ⟨c2, fun _ => ?_⟩
    show (clickSolveB env _).1.altStage ≠ _
    rw [c3]
    exact fun h => ALTStage.noConfusion h
  · exact ⟨rfl, fun h => absurd rfl h⟩
  · exact absurd hs hf

theorem executePolarAlign_stages (env : Env R) (s : Align R) :
    (s.azStage ≠ AZStage.AZ_CORRECTING →
      (executePolarAlign env s).1.azStage ≠ AZStage.AZ_CORRECTING)
    ∧ (s.altStage ≠ ALTStage.ALT_CORRECTING →
      (executePolarAlign env s).1.altStage ≠ ALTStage.ALT_CORRECTING) := by
  have key : ∀ (A B : Prop) (p : Out R),
      (A → p.1.azStage ≠ AZStage.AZ_CORRECTING) →
      (B → p.1.altStage ≠ ALTStage.ALT_CORRECTING) →
      (A →
        (match p.1.altStage with
          | ALTStage.ALT_FIRST_TARGET => Out.andThen p (measureAltError env)
          | ALTStage.ALT_FINISHED => Out.andThen p (measureAltError env)
          | _ => p).1.azStage ≠ AZStage.AZ_CORRECTING)
      ∧ (B →
        (match p.1.altStage with
          | ALTStage.ALT_FIRST_TARGET => Out.andThen p (measureAltError env)
          | ALTStage.ALT_FINISHED => Out.andThen p (measureAltError env)
          | _ => p).1.altStage ≠ ALTStage.ALT_CORRECTING) := by
    intro A B p hp hq
    have step : (A →
          (Out.andThen p (measureAltError env)).1.azStage ≠ AZStage.AZ_CORRECTING)
        ∧ (B →
          (Out.andThen p (measureAltError env)).1.altStage ≠ ALTStage.ALT_CORRECTING) := by
      obtain ⟨m1, m2⟩ := measureAltError_stages env p.1
      constructor
      · intro h
        show (measureAltError env p.1).1.azStage ≠ _
        rw [m1]
        exact hp h
      · intro h
        exact m2 (hq h)
    cases hs : p.1.altStage
    · exact ⟨hp, hq⟩
    · exact step
    · exact ⟨hp, hq⟩
    · exact ⟨hp, hq⟩
    · exact ⟨hp, hq⟩
    · exact ⟨hp, hq⟩
    · exact step
  have stepAz : ∀ a : AZStage, s.azStage = a →
      (a ≠ AZStage.AZ_CORRECTING →
        (Out.andThen (s, [Effect.log Msg.processingPolar]) (measureAzError env)).1.azStage
          ≠ AZStage.AZ_CORRECTING)
      ∧ (s.altStage ≠ ALTStage.ALT_CORRECTING →
        (Out.andThen (s, [Effect.log Msg.processingPolar]) (measureAzError env)).1.altStage
          ≠ ALTStage.ALT_CORRECTING) := by
    intro a e
    obtain ⟨m1, m2⟩ := measureAzError_stages env s
    constructor
    · intro h
      exact m2 (e ▸ h)
    · intro h
      show (measureAzError env s).1.altStage ≠ _
      rw [m1]
      exact h
  have hid : ∀ a : AZStage, s.azStage = a →
      (a ≠ AZStage.AZ_CORRECTING →
        ((s, [Effect.log Msg.processingPolar]) : Out R).1.azStage ≠ AZStage.AZ_CORRECTING)
      ∧ (s.altStage ≠ ALTStage.ALT_CORRECTING →
        ((s, [Effect.log Msg.processingPolar]) : Out R).1.altStage
          ≠ ALTStage.ALT_CORRECTING) :=
    fun a e => ⟨fun h => e ▸ h, fun h => h⟩
  unfold executePolarAlign
  cases hs : s.azStage
  · exact key _ _ _ (hid _ hs).1 (hid _ hs).2
  · exact key _ _ _ (stepAz _ hs).1 (stepAz _ hs).2
  · exact key _ _ _ (hid _ hs).1 (hid _ hs).2
  · exact key _ _ _ (hid _ hs).1 (hid _ hs).2
  · exact key _ _ _ (hid _ hs).1 (hid _ hs).2
  · exact key _ _ _ (hid _ hs).1 (hid _ hs).2
  · exact key _ _ _ (stepAz _ hs).1 (stepAz _ hs).2

theorem executeGOTO_stages (env : Env R) (s : Align R) :
    (executeGOTO env s).1.azStage = s.azStage
    ∧ (executeGOTO env s).1.altStage = s.altStage := by
  unfold executeGOTO SlewToTarget Sync
  constructor <;> split_ifs <;> rfl

theorem solverOutcome_stages (env : Env R) (r : SolveResult R) (s : Align R) :
    (solverOutcome env r s).1.azStage = s.azStage
    ∧ (solverOutcome env r s).1.altStage = s.altStage := by
  rw [solverOutcome_state]
  constructor <;> split_ifs <;> rfl

theorem solverFinished_stages (env : Env R) (r : SolveResult R) (s : Align R) :
    (s.azStage ≠ AZStage.AZ_CORRECTING →
      (solverFinished env r s).1.azStage ≠ AZStage.AZ_CORRECTING)
    ∧ (s.altStage ≠ ALTStage.ALT_CORRECTING →
      (solverFinished env r s).1.altStage ≠ ALTStage.ALT_CORRECTING) := by
  obtain ⟨o1, o2⟩ := solverOutcome_stages env r s
  have hfin : (solverFinished env r s).1 = (executeMode env (solverOutcome env r s).1).1 := rfl
  rw [hfin]
  unfold executeMode
  split_ifs
  · obtain ⟨g1, g2⟩ := executeGOTO_stages env (solverOutcome env r s).1
    rw [g1, g2, o1, o2]
    exact ⟨fun h => h, fun h => h⟩
  · obtain ⟨p1, p2⟩ := executePolarAlign_stages env (solverOutcome env r s).1
    rw [o1] at p1
    rw [o2] at p2
    exact ⟨p1, p2⟩

theorem startSovling_stages (env : Env R) (s : Align R) :
    (startSovling env s).1.azStage = s.azStage
    ∧ (startSovling env s).1.altStage = s.altStage := by
  unfold startSovling
  simp only []
  constructor <;> split_ifs <;> rfl

theorem checkCCDExposureProgress_stages (env : Env R) (state : IPState) (s : Align R) :
    (s.azStage ≠ AZStage.AZ_CORRECTING →
      (checkCCDExposureProgress env state s).1.azStage ≠ AZStage.AZ_CORRECTING)
    ∧ (s.altStage ≠ ALTStage.ALT_CORRECTING →
      (checkCCDExposureProgress env state s).1.altStage ≠ ALTStage.ALT_CORRECTING) := by
  unfold checkCCDExposureProgress
  simp only []
  split_ifs
  · exact ⟨fun _ h => AZStage.noConfusion h, fun _ h => ALTStage.noConfusion h⟩
  · obtain ⟨f1, f2, _⟩ := captureAndSolve_frame env { s with retries := s.retries + 1 }
    constructor
    · intro h
      show (captureAndSolve env _).2.1.azStage ≠ _
      rw [f1]
      exact h
    · intro h
      show (captureAndSolve env _).2.1.altStage ≠ _
      rw [f2]
      exact h
  · exact ⟨fun h => h, fun h => h⟩

/-- A coordinate update that ends in the load-and-slew or the slew-to-target
branch skips the stage switches: the stages stay as they are, or both are
reset to Init when the tenth iteration makes `solverFailed` run. -/
theorem processTelescopeNumber_consumed (env : Env R) (ra dec : R) (s : Align R)
    (h : s.updateConsumed env) :
    ((processTelescopeNumber env ra dec s).1.azStage = s.azStage
      ∧ (processTelescopeNumber env ra dec s).1.altStage = s.altStage)
    ∨ ((processTelescopeNumber env ra dec s).1.azStage = AZStage.AZ_INIT
      ∧ (processTelescopeNumber env ra dec s).1.altStage = ALTStage.ALT_INIT
      ∧ s.loadSlewMode = false) := by
  obtain ⟨hupd, hstill, hd, hor⟩ := h
  by_cases hload : s.loadSlewMode = true
  · left
    have e : processTelescopeNumber env ra dec s
        = Out.andThen
            ({ storeTelescopeCoord env ra dec s with
                slew_dirty := false, loadSlewMode := false }, [Effect.copyCoordsToBoxes])
            (fun x => (captureAndSolve env x).2) := by
      unfold processTelescopeNumber
      simp only [storeTelescopeCoord, hupd, hstill, hd, hload, if_true, Bool.false_eq_true,
        false_and, if_false, and_self]
      rfl
    rw [e]
    obtain ⟨f1, f2, _⟩ := captureAndSolve_frame env
      { storeTelescopeCoord env ra dec s with slew_dirty := false, loadSlewMode := false }
    exact ⟨f1, f2⟩
  · have hload2 : s.loadSlewMode = false := by
      cases c : s.loadSlewMode
      · rfl
      · exact absurd c hload
    have hsel : s.m_slewToTargetSelected = true ∧ ¬ s.targetDiff ≤ s.accuracy := by
      rcases hor with c | c
      · exact absurd c hload
      · exact c
    rw [processTelescopeNumber_arrived env ra dec s hstill hupd hd hload2 hsel.1
      (not_le.1 hsel.2)]
    split_ifs
    · right
      exact ⟨rfl, rfl, hload2⟩
    · left
      obtain ⟨f1, f2, _⟩ := captureAndSolve_frame env
        { storeTelescopeCoord env ra dec s with
          slew_dirty := false, solverIterations := s.solverIterations + 1 }
      exact ⟨f1, f2⟩

theorem processTelescopeNumber_stages (env : Env R) (ra dec : R) (s : Align R) :
    (s.azStage ≠ AZStage.AZ_CORRECTING →
      (processTelescopeNumber env ra dec s).1.azStage ≠ AZStage.AZ_CORRECTING)
    ∧ (s.altStage ≠ ALTStage.ALT_CORRECTING →
      (processTelescopeNumber env ra dec s).1.altStage ≠ ALTStage.ALT_CORRECTING) := by
  by_cases hc : s.updateConsumed env
  · rcases processTelescopeNumber_consumed env ra dec s hc with ⟨e1, e2⟩ | ⟨e1, e2, _⟩
    · rw [e1, e2]
      exact ⟨fun h => h, fun h => h⟩
    · rw [e1, e2]
      exact ⟨fun _ h => AZStage.noConfusion h, fun _ h => ALTStage.noConfusion h⟩
  · obtain ⟨g1, g2, _⟩ := processTelescopeNumber_stage env ra dec s hc
    rw [g1, g2]
    constructor
    · intro h
      rw [if_neg h]
      split_ifs
      · exact fun x => AZStage.noConfusion x
      · exact fun x => AZStage.noConfusion x
      · exact fun x => AZStage.noConfusion x
      · exact fun x => AZStage.noConfusion x
      · exact h
    · intro h
      rw [if_neg h]
      split_ifs
      · exact fun x => ALTStage.noConfusion x
      · exact fun x => ALTStage.noConfusion x
      · exact fun x => ALTStage.noConfusion x
      · exact fun x => ALTStage.noConfusion x
      · exact h

/-- C25 (amended): the Correcting stage of an axis is produced by the correction
operation of that axis and by no other operation: `correctAzError` sets
`azStage` and leaves `altStage`, `correctAltError` sets `altStage` and leaves
`azStage`, and every other operation leaves an axis that is not Correcting in a
stage other than Correcting. From Correcting, a coordinate update leaves the
stage Correcting while the mount is slewing. When the mount is not slewing the
update logs the completion message and returns the stage to Init, provided the
update is not consumed by the slew-completion branch (automatic update checked,
a slew seen before, and load-and-slew mode or a slew-to-target round that is
still above the accuracy); a consumed update returns before the stage switches,
so both stages stay as they are, or both are reset to Init by `solverFailed`. -/
theorem correcting_entered_by_correction_and_left_after_slew
    (env : Env R) (ra dec : R) (r : SolveResult R) (state : IPState)
    (initRA initDEC finalRA finalDEC initAz : R) (s : Align R) :
    ((correctAzError env s).1.azStage = AZStage.AZ_CORRECTING
      ∧ (correctAzError env s).1.altStage = s.altStage)
    ∧ ((correctAltError env s).1.altStage = ALTStage.ALT_CORRECTING
      ∧ (correctAltError env s).1.azStage = s.azStage)
    ∧ (s.azStage ≠ AZStage.AZ_CORRECTING →
        (captureAndSolve env s).2.1.azStage ≠ AZStage.AZ_CORRECTING
        ∧ (abort env s).1.azStage ≠ AZStage.AZ_CORRECTING
        ∧ (solverFailed s).1.azStage ≠ AZStage.AZ_CORRECTING
        ∧ (solverFinished env r s).1.azStage ≠ AZStage.AZ_CORRECTING
        ∧ (startSovling env s).1.azStage ≠ AZStage.AZ_CORRECTING
        ∧ (checkCCDExposureProgress env state s).1.azStage ≠ AZStage.AZ_CORRECTING
        ∧ (measureAzError env s).1.azStage ≠ AZStage.AZ_CORRECTING
        ∧ (measureAltError env s).1.azStage ≠ AZStage.AZ_CORRECTING
        ∧ (calculatePolarError env initRA initDEC finalRA finalDEC initAz s).1.azStage
            ≠ AZStage.AZ_CORRECTING
        ∧ (calculateFOV s).azStage ≠ AZStage.AZ_CORRECTING
        ∧ (processTelescopeNumber env ra dec s).1.azStage ≠ AZStage.AZ_CORRECTING)
    ∧ (s.altStage ≠ ALTStage.ALT_CORRECTING →
        (captureAndSolve env s).2.1.altStage ≠ ALTStage.ALT_CORRECTING
        ∧ (abort env s).1.altStage ≠ ALTStage.ALT_CORRECTING
        ∧ (solverFailed s).1.altStage ≠ ALTStage.ALT_CORRECTING
        ∧ (solverFinished env r s).1.altStage ≠ ALTStage.ALT_CORRECTING
        ∧ (startSovling env s).1.altStage ≠ ALTStage.ALT_CORRECTING
        ∧ (checkCCDExposureProgress env state s).1.altStage ≠ ALTStage.ALT_CORRECTING
        ∧ (measureAzError env s).1.altStage ≠ ALTStage.ALT_CORRECTING
        ∧ (measureAltError env s).1.altStage ≠ ALTStage.ALT_CORRECTING
        ∧ (calculatePolarError env initRA initDEC finalRA finalDEC initAz s).1.altStage
            ≠ ALTStage.ALT_CORRECTING
        ∧ (calculateFOV s).altStage ≠ ALTStage.ALT_CORRECTING
        ∧ (processTelescopeNumber env ra dec s).1.altStage ≠ ALTStage.ALT_CORRECTING)
    ∧ (s.azStage = AZStage.AZ_CORRECTING → env.isSlewing = true →
        (processTelescopeNumber env ra dec s).1.azStage = AZStage.AZ_CORRECTING)
    ∧ (s.altStage = ALTStage.ALT_CORRECTING → env.isSlewing = true →
        (processTelescopeNumber env ra dec s).1.altStage = ALTStage.ALT_CORRECTING)
    ∧ (s.azStage = AZStage.AZ_CORRECTING → env.isSlewing = false →
        ¬ s.updateConsumed env →
        (processTelescopeNumber env ra dec s).1.azStage = AZStage.AZ_INIT
        ∧ Effect.log Msg.azSlewComplete ∈ (processTelescopeNumber env ra dec s).2)
    ∧ (s.altStage = ALTStage.ALT_CORRECTING → env.isSlewing = false →
        ¬ s.updateConsumed env →
        (processTelescopeNumber env ra dec s).1.altStage = ALTStage.ALT_INIT
        ∧ Effect.log Msg.altSlewComplete ∈ (processTelescopeNumber env ra dec s).2)
    ∧ (s.updateConsumed env →
        ((processTelescopeNumber env ra dec s).1.azStage = s.azStage
          ∧ (processTelescopeNumber env ra dec s).1.altStage = s.altStage)
        ∨ ((processTelescopeNumber env ra dec s).1.azStage = AZStage.AZ_INIT
          ∧ (processTelescopeNumber env ra dec s).1.altStage = ALTStage.ALT_INIT
          ∧ s.loadSlewMode = false)) := by
  obtain ⟨f1, f2, _⟩ := captureAndSolve_frame env s
  obtain ⟨st1, st2⟩ := startSovling_stages env s
  obtain ⟨cp1, cp2⟩ := calculatePolarError_stages env initRA initDEC finalRA finalDEC initAz s
  obtain ⟨ma1, ma2⟩ := measureAzError_stages env s
  obtain ⟨ml1, ml2⟩ := measureAltError_stages env s
  have moving : env.isSlewing = true → ¬ s.updateConsumed env := by
    intro c hc
    rw [hc.2.1] at c
    exact absurd c (by decide)
  refine ⟨⟨rfl, rfl⟩, ⟨rfl, rfl⟩, ?_, ?_, ?_, ?_, ?_, ?_, ?_⟩
  · intro h
    refine ⟨?_, fun c => AZStage.noConfusion c, fun c => AZStage.noConfusion c,
      (solverFinished_stages env r s).1 h, ?_,
      (checkCCDExposureProgress_stages env state s).1 h, ma2 h, ?_, ?_, h,
      (processTelescopeNumber_stages env ra dec s).1 h⟩
    · rw [f1]
      exact h
    · rw [st1]
      exact h
    · rw [ml1]
      exact h
    · rw [cp1]
      exact h
  · intro h
    refine ⟨?_, fun c => ALTStage.noConfusion c, fun c => ALTStage.noConfusion c,
      (solverFinished_stages env r s).2 h, ?_,
      (checkCCDExposureProgress_stages env state s).2 h, ?_, ml2 h, ?_, h,
      (processTelescopeNumber_stages env ra dec s).2 h⟩
    · rw [f2]
      exact h
    · rw [st2]
      exact h
    · rw [ma1]
      exact h
    · rw [cp2]
      exact h
  · intro hs hsl
    obtain ⟨g1, _⟩ := processTelescopeNumber_stage env ra dec s (moving hsl)
    rw [g1, hs, if_neg (by decide), if_neg (by decide), if_pos rfl, if_pos hsl]
  · intro hs hsl
    obtain ⟨_, g2, _⟩ := processTelescopeNumber_stage env ra dec s (moving hsl)
    rw [g2, hs, if_neg (by decide), if_neg (by decide), if_pos rfl, if_pos hsl]
  · intro hs hsl hnc
    obtain ⟨g1, _, _, _, g5, _⟩ := processTelescopeNumber_stage env ra dec s hnc
    refine ⟨?_, g5 hsl hs⟩
    rw [g1, hs, if_neg (by decide), if_neg (by decide), if_pos rfl,
      if_neg (by rw [hsl]; decide)]
  · intro hs hsl hnc
    obtain ⟨_, g2, _, _, _, g6⟩ := processTelescopeNumber_stage env ra dec s hnc
    refine ⟨?_, g6 hsl hs⟩
    rw [g2, hs, if_neg (by decide), if_neg (by decide), if_pos rfl,
      if_neg (by rw [hsl]; decide)]
  · exact processTelescopeNumber_consumed env ra dec s

/-- C25 (counterexample): the azimuth axis is in Correcting, load-and-slew mode
is on and a slew has been seen. The mount reports that it is not slewing, yet
the coordinate update leaves the stage at Correcting: the update takes the
load-and-slew branch, starts a capture and returns before the stage switch. -/
theorem correcting_stage_survives_consumed_update :
    SlewRound.offTarget.env.isSlewing = false
    ∧ (processTelescopeNumber SlewRound.offTarget.env 0 0
        { Align.atStage AZStage.AZ_CORRECTING ALTStage.ALT_INIT with
          slew_dirty := true, loadSlewMode := true }).1.azStage = AZStage.AZ_CORRECTING := by
  refine ⟨rfl, ?_⟩
  have hc : Align.updateConsumed SlewRound.offTarget.env
      { Align.atStage AZStage.AZ_CORRECTING ALTStage.ALT_INIT with
        slew_dirty := true, loadSlewMode := true } :=
    ⟨rfl, rfl, rfl, Or.inl rfl⟩
  rcases processTelescopeNumber_consumed SlewRound.offTarget.env 0 0 _ hc with
    ⟨e1, _⟩ | ⟨_, _, e3⟩
  · exact e1.trans rfl
  · exact absurd e3 (by decide)

end Model

end Ekos
